import Mathlib

/-!
# irishub: the mock service keeper of the oracle tests

A shallow embedding of `app/v3/oracle/internal/keeper/test_common.go`
(`MockServiceKeeper` and its six methods) and the properties of the
request-context scheduler that can be read off it.

Conventions of the embedding.

* Go `string` and `[]byte` values are Lean `String`s; the conversions
  `string(requestContextID)` and `[]byte(reqCtxID)` are the identity.
* `int64` and `uint64` values are `Int` and `Nat`; every arithmetic operation and
  conversion of the source wraps explicitly (`wrapInt64`, `wrapUint64`).
* A Go map read `m[k]` yields the zero value for an absent key; a map with the
  comma-ok read is a function into `Option`.
* A callback is a Go function value.  The keeper stores callback identifiers
  and an interpretation `interp` gives each identifier its effect on the keeper
  (the two maps of the keeper are reference values, so a callback can reach them).
* `StartRequestContext` contains a loop; it is run with fuel, `none` meaning the
  fuel ran out before the loop left.  Calling a nil function value panics.
-/

namespace MockKeeper

/-! ## Machine integers -/

/-- The value of an integer expression stored in a Go `uint64`. -/
def wrapUint64 (x : Int) : Nat :=
  (x % 18446744073709551616).toNat

/-- The value of an integer expression stored in a Go `int64`. -/
def wrapInt64 (x : Int) : Int :=
  (x + 9223372036854775808) % 18446744073709551616 - 9223372036854775808

/-- The largest `int64`. -/
def maxInt64 : Int := 9223372036854775807

/-- The smallest `int64`. -/
def minInt64 : Int := -9223372036854775808

/-! ## Data model -/

/-- Go `sdk.AccAddress`, a byte slice. -/
abbrev AccAddress := List Nat

/-- Go `sdk.Coin`. -/
structure Coin where
  Denom : String
  Amount : Int
  deriving DecidableEq, Repr

/-- Go `sdk.Coins`. -/
abbrev Coins := List Coin

/-- Go `sdk.Error`; `nil` is `none` of `Option SdkError`. -/
abbrev SdkError := String

/-- Modelled from the spec: the declaration of `types.RequestContextState` is not
among the sources.  The source names `types.Running` and `types.Pause`; the
spec's third state is `Completed`. -/
inductive RequestContextState where
  | Running
  | Pause
  | Completed
  deriving DecidableEq, Repr

/-- Modelled from the spec: the declaration of `types.RequestContext` is not among
the sources.  The fields are those of the composite literal in
`CreateRequestContext`, with the types of its parameters (`BatchCounter` is a
`uint64`, as the conversion `uint64(i)` in `StartRequestContext` shows). -/
structure RequestContext where
  ServiceName : String
  Providers : List AccAddress
  Consumer : AccAddress
  Input : String
  ServiceFeeCap : Coins
  Timeout : Int
  Repeated : Bool
  RepeatedFrequency : Nat
  RepeatedTotal : Int
  BatchCounter : Nat
  State : RequestContextState
  ResponseThreshold : Nat
  ModuleName : String
  deriving DecidableEq, Repr

/-- The zero value of `types.RequestContext`, what a map read gives for an absent
key.  Its `State` is the zero value of the state type; no operation of the keeper
reads it. -/
def zeroRequestContext : RequestContext :=
  { ServiceName := "", Providers := [], Consumer := [], Input := "",
    ServiceFeeCap := [], Timeout := 0, Repeated := false, RepeatedFrequency := 0,
    RepeatedTotal := 0, BatchCounter := 0, State := RequestContextState.Running,
    ResponseThreshold := 0, ModuleName := "" }

/-- Go `abci.Header`, the three fields the keeper writes.  `Time` is in
nanoseconds. -/
structure Header where
  ChainID : String
  Height : Int
  Time : Int
  deriving DecidableEq, Repr

/-- Modelled from the spec: `sdk.Context` is not among the sources.  It is the
execution context handed to every operation; the keeper reads and replaces its
block header only. -/
structure Context where
  header : Header
  deriving DecidableEq, Repr

/-- Go `ctx.BlockHeader()`. -/
def Context.BlockHeader (ctx : Context) : Header := ctx.header

/-- Go `ctx.BlockHeight()`. -/
def Context.BlockHeight (ctx : Context) : Int := ctx.header.Height

/-- Go `ctx.BlockTime()`. -/
def Context.BlockTime (ctx : Context) : Int := ctx.header.Time

/-- Go `ctx.WithBlockHeader(h)`. -/
def Context.WithBlockHeader (_ctx : Context) (h : Header) : Context := { header := h }

/-- Go `time.Minute`, in nanoseconds. -/
def minute : Int := 60000000000

/-- The package variable `responses`. -/
def responses : List String :=
  [ "\x7b\"last\":100,\"high\":100,\"low\":50\x7d",
    "\x7b\"last\":100,\"high\":200,\"low\":50\x7d",
    "\x7b\"last\":100,\"high\":300,\"low\":50\x7d",
    "\x7b\"last\":100,\"high\":400,\"low\":50\x7d" ]

/-- A registered callback function value. -/
abbrev CallbackId := Nat

/-- Go `MockServiceKeeper`: `cxtMap` is read with the comma-ok form, `callbackMap`
only with the plain form, where `none` is the nil function value. -/
structure MockServiceKeeper where
  cxtMap : String → Option RequestContext
  callbackMap : String → Option CallbackId

/-- Go `types.ResponseCallback`, `func(ctx, requestContextID, responses)`, as its
effect on the keeper it can reach. -/
abbrev ResponseCallback :=
  Context → String → List String → MockServiceKeeper → MockServiceKeeper

/-- One invocation of a callback by `StartRequestContext`: the function called, its
three arguments, and the context stored under the identifier at that moment. -/
structure CallRecord where
  callback : CallbackId
  ctx : Context
  requestContextID : String
  responses : List String
  stored : Option RequestContext
  deriving DecidableEq, Repr

/-- How a call of `StartRequestContext` ends: it returns an `sdk.Error` (nil is
`none`), or it panics. -/
inductive Outcome where
  | returned (err : Option SdkError) (m : MockServiceKeeper) (calls : List CallRecord)
  | panicked (m : MockServiceKeeper) (calls : List CallRecord)

/-! ## Operations -/

/-- Go `NewMockServiceKeeper`. -/
def NewMockServiceKeeper : MockServiceKeeper :=
  { cxtMap := fun _ => none, callbackMap := fun _ => none }

/-- Go `MockServiceKeeper.RegisterResponseCallback`. -/
def RegisterResponseCallback (m : MockServiceKeeper) (moduleName : String)
    (respCallback : CallbackId) : MockServiceKeeper × Option SdkError :=
  ({ m with callbackMap := Function.update m.callbackMap moduleName (some respCallback) }, none)

/-- Go `MockServiceKeeper.GetRequestContext`. -/
def GetRequestContext (m : MockServiceKeeper) (_ctx : Context) (requestContextID : String) :
    RequestContext × Bool :=
  match m.cxtMap requestContextID with
  | some reqCtx => (reqCtx, true)
  | none => (zeroRequestContext, false)

/-- What `CreateRequestContext` gives back: the identifier, the error and the keeper
after the call. -/
structure CreateResult where
  keeper : MockServiceKeeper
  id : String
  err : Option SdkError

/-- Go `MockServiceKeeper.CreateRequestContext`. -/
def CreateRequestContext (m : MockServiceKeeper) (_ctx : Context)
    (serviceName : String) (providers : List AccAddress) (consumer : AccAddress)
    (input : String) (serviceFeeCap : Coins) (timeout : Int) (repeated : Bool)
    (repeatedFrequency : Nat) (repeatedTotal : Int) (state : RequestContextState)
    (respThreshold : Nat) (moduleName : String) : CreateResult :=
  let reqCtxID := "mockRequest"
  let reqCtx : RequestContext :=
    { ServiceName := serviceName, Providers := providers, Consumer := consumer,
      Input := input, ServiceFeeCap := serviceFeeCap, Timeout := timeout,
      Repeated := repeated, RepeatedFrequency := repeatedFrequency,
      RepeatedTotal := repeatedTotal, BatchCounter := 0, State := state,
      ResponseThreshold := respThreshold, ModuleName := moduleName }
  { keeper := { m with cxtMap := Function.update m.cxtMap reqCtxID (some reqCtx) },
    id := reqCtxID, err := none }

/-- Go `MockServiceKeeper.UpdateRequestContext`. -/
def UpdateRequestContext (m : MockServiceKeeper) (_ctx : Context) (_requestContextID : String)
    (_providers : List AccAddress) (_serviceFeeCap : Coins) (_repeatedFreq : Nat)
    (_repeatedTotal : Int) : MockServiceKeeper × Option SdkError :=
  (m, none)

/-- The header replacement inside the loop of `StartRequestContext`: same chain,
height plus one, time plus two minutes. -/
def nextBlock (ctx : Context) : Context :=
  ctx.WithBlockHeader
    { ChainID := ctx.BlockHeader.ChainID,
      Height := wrapInt64 (ctx.BlockHeight + 1),
      Time := ctx.BlockTime + 2 * minute }

/-- The `for` loop of `StartRequestContext`, from the test `i <= reqCtx.RepeatedTotal`
on.  `reqCtx` is the local copy the loop works on, `calls` the callback invocations
so far. -/
def startLoop (interp : CallbackId → ResponseCallback) (requestContextID : String) :
    Nat → Int → RequestContext → Context → MockServiceKeeper → List CallRecord → Option Outcome
  | 0, _, _, _, _, _ => none
  | fuel + 1, i, reqCtx, ctx, m, calls =>
    if i ≤ reqCtx.RepeatedTotal then
      let reqCtx1 : RequestContext :=
        { reqCtx with BatchCounter := wrapUint64 i, State := RequestContextState.Running }
      let m1 : MockServiceKeeper :=
        { m with cxtMap := Function.update m.cxtMap requestContextID (some reqCtx1) }
      let ctx1 := nextBlock ctx
      match m1.callbackMap reqCtx1.ModuleName with
      | none => some (Outcome.panicked m1 calls)
      | some callback =>
        startLoop interp requestContextID fuel (wrapInt64 (i + 1)) reqCtx1 ctx1
          (interp callback ctx1 requestContextID responses m1)
          (calls ++ [{ callback := callback, ctx := ctx1, requestContextID := requestContextID,
                       responses := responses, stored := m1.cxtMap requestContextID }])
    else
      some (Outcome.returned none m calls)

/-- Go `MockServiceKeeper.StartRequestContext`. -/
def StartRequestContext (interp : CallbackId → ResponseCallback) (fuel : Nat)
    (m : MockServiceKeeper) (ctx : Context) (requestContextID : String) : Option Outcome :=
  let reqCtx := (m.cxtMap requestContextID).getD zeroRequestContext
  startLoop interp requestContextID fuel
    (wrapInt64 (wrapUint64 (reqCtx.BatchCounter + 1))) reqCtx ctx m []

/-- Go `MockServiceKeeper.PauseRequestContext`. -/
def PauseRequestContext (m : MockServiceKeeper) (_ctx : Context) (requestContextID : String) :
    MockServiceKeeper × Option SdkError :=
  let reqCtx := (m.cxtMap requestContextID).getD zeroRequestContext
  let reqCtx1 : RequestContext := { reqCtx with State := RequestContextState.Pause }
  ({ m with cxtMap := Function.update m.cxtMap requestContextID (some reqCtx1) }, none)

/-! ## Reading an outcome -/

/-- The callback invocations of an outcome. -/
def Outcome.calls : Outcome → List CallRecord
  | Outcome.returned _ _ calls => calls
  | Outcome.panicked _ calls => calls

/-- The keeper an outcome leaves. -/
def Outcome.keeper : Outcome → MockServiceKeeper
  | Outcome.returned _ m _ => m
  | Outcome.panicked m _ => m

/-- Whether the call returned nil. -/
def Outcome.returnedNil : Outcome → Bool
  | Outcome.returned none _ _ => true
  | _ => false

/-- A callback that leaves the keeper as it found it. -/
def keepsKeeper (cb : ResponseCallback) : Prop :=
  ∀ ctx id rs m, cb ctx id rs m = m

/-- The interpretation used in the examples: every callback leaves the keeper
alone. -/
def idleCallbacks : CallbackId → ResponseCallback :=
  fun _ _ _ _ m => m

/-- A block-zero context for the examples. -/
def ctx0 : Context :=
  { header := { ChainID := "test-oracle", Height := 0, Time := 0 } }

/-! ## Expected traces and fixtures of the examples -/

/-- The record expected of the callback invocation number `j` (from zero) of a
loop entered at counter value `i` with local copy `reqCtx` in context `ctx`. -/
def batchRecord (cb : CallbackId) (requestContextID : String) (reqCtx : RequestContext)
    (ctx : Context) (i : Int) (j : Nat) : CallRecord :=
  { callback := cb, ctx := nextBlock^[j + 1] ctx, requestContextID := requestContextID,
    responses := responses,
    stored := some { reqCtx with BatchCounter := wrapUint64 (i + j),
                                 State := RequestContextState.Running } }

/-- The context `CreateRequestContext` builds from its arguments. -/
def createdContext (serviceName : String) (providers : List AccAddress)
    (consumer : AccAddress) (input : String) (serviceFeeCap : Coins) (timeout : Int)
    (repeated : Bool) (repeatedFrequency : Nat) (repeatedTotal : Int)
    (state : RequestContextState) (respThreshold : Nat) (moduleName : String) :
    RequestContext :=
  { ServiceName := serviceName, Providers := providers, Consumer := consumer,
    Input := input, ServiceFeeCap := serviceFeeCap, Timeout := timeout,
    Repeated := repeated, RepeatedFrequency := repeatedFrequency,
    RepeatedTotal := repeatedTotal, BatchCounter := 0, State := state,
    ResponseThreshold := respThreshold, ModuleName := moduleName }

/-- A keeper with a callback registered for `oracle` and one repeated context of
three batches, three providers and threshold two. -/
def keeperThree : MockServiceKeeper :=
  (CreateRequestContext (RegisterResponseCallback NewMockServiceKeeper "oracle" 1).1 ctx0
    "price" [[1], [2], [3]] [9] "in" [] 5 true 10 3 RequestContextState.Running 2
    "oracle").keeper

/-- The same keeper with the largest `int64` as the total of the context. -/
def keeperMaxTotal : MockServiceKeeper :=
  (CreateRequestContext (RegisterResponseCallback NewMockServiceKeeper "oracle" 1).1 ctx0
    "price" [[1], [2], [3]] [9] "in" [] 5 true 10 maxInt64 RequestContextState.Running 2
    "oracle").keeper

/-- What the examples read off an outcome: whether the call returned nil, how many
callback invocations it made, and the state and batch counter stored under the
identifier afterwards. -/
def Outcome.summary (id : String) (o : Outcome) :
    Bool × Nat × Option (RequestContextState × Nat) :=
  (o.returnedNil, o.calls.length, (o.keeper.cxtMap id).map (fun c => (c.State, c.BatchCounter)))

/-- A context stored as `Completed` with two batches left. -/
def keeperCompleted : MockServiceKeeper :=
  (CreateRequestContext (RegisterResponseCallback NewMockServiceKeeper "oracle" 1).1 ctx0
    "price" [[1], [2], [3]] [9] "in" [] 5 true 10 2 RequestContextState.Completed 2
    "oracle").keeper

/-- A keeper whose only context is stored as `Completed` with batch counter and total
both 3. -/
def keeperExhausted : MockServiceKeeper :=
  { cxtMap := Function.update (fun _ => none) "mockRequest"
      (some { zeroRequestContext with
                RepeatedTotal := 3, BatchCounter := 3,
                State := RequestContextState.Completed, ModuleName := "oracle" }),
    callbackMap := Function.update (fun _ => none) "oracle" (some 1) }

/-- A keeper whose context is created with `repeated = false` and total `total`. -/
def keeperOneShot (total : Int) : MockServiceKeeper :=
  (CreateRequestContext (RegisterResponseCallback NewMockServiceKeeper "oracle" 1).1 ctx0
    "price" [[1], [2], [3]] [9] "in" [] 5 false 0 total RequestContextState.Pause 2
    "oracle").keeper

/-- A creation with no provider and response threshold 1, timeout 0, and `repeated`
with frequency 0. -/
def createInvalid : CreateResult :=
  CreateRequestContext NewMockServiceKeeper ctx0 "price" [] [9] "in" [] 0 true 0 3
    RequestContextState.Running 1 "oracle"

/-- The keeper `keeperThree` after its three batches have run and a second context,
for the service `rate`, has been created on it; `none` if the batches did not end. -/
def keeperRecreated : Option CreateResult :=
  (StartRequestContext idleCallbacks 4 keeperThree ctx0 "mockRequest").map
    (fun o => CreateRequestContext o.keeper ctx0 "rate" [[7]] [8] "other" [] 9 false 0 1
      RequestContextState.Pause 1 "oracle")

/-- The second creation of the C8 example, on `keeperThree`. -/
def createSecond : CreateResult :=
  CreateRequestContext keeperThree ctx0 "rate" [[7]] [8] "other" [] 9 false 0 1
    RequestContextState.Pause 1 "oracle"

/-- A keeper holding a three-batch context for the module `oracle`, with no callback
registered. -/
def keeperNoCallback : MockServiceKeeper :=
  (CreateRequestContext NewMockServiceKeeper ctx0
    "price" [[1], [2], [3]] [9] "in" [] 5 true 10 3 RequestContextState.Running 2
    "oracle").keeper

/-- A keeper whose context has run one of its three batches. -/
def keeperOneOfThree : MockServiceKeeper :=
  { cxtMap := Function.update (fun _ => none) "mockRequest"
      (some { zeroRequestContext with
                RepeatedTotal := 3, BatchCounter := 1,
                State := RequestContextState.Running, ModuleName := "oracle" }),
    callbackMap := Function.update (fun _ => none) "oracle" (some 1) }

/-- A keeper with a callback registered for `oracle` and no context. -/
def keeperEmpty : MockServiceKeeper :=
  (RegisterResponseCallback NewMockServiceKeeper "oracle" 1).1

/-- What the examples read off a pause or an update: whether it returned nil, and the
state and batch counter stored under the identifier afterwards. -/
def resultSummary (id : String) (r : MockServiceKeeper × Option SdkError) :
    Bool × Option (RequestContextState × Nat) :=
  (r.2.isNone, (r.1.cxtMap id).map (fun c => (c.State, c.BatchCounter)))

/-- A keeper with a callback registered for `oracle` and a three-batch context that
has no provider, response threshold 2 and timeout 5. -/
def keeperNoProviders : MockServiceKeeper :=
  (CreateRequestContext keeperEmpty ctx0
    "price" [] [9] "in" [] 5 true 10 3 RequestContextState.Running 2 "oracle").keeper

/-- The callback invocations of a call of `StartRequestContext`; none when the call
did not end. -/
def callsOf (o : Option Outcome) : List CallRecord :=
  (o.map Outcome.calls).getD []

/-- The keeper states reached from a keeper with an empty store by calls of the
operations that return.  A stored `repeatedTotal` is an `int64`.  A call that
panics or does not end leaves no state to continue from. -/
inductive Reachable (interp : CallbackId → ResponseCallback) : MockServiceKeeper → Prop where
  | empty (m : MockServiceKeeper) (hempty : ∀ key, m.cxtMap key = none) : Reachable interp m
  | register (m : MockServiceKeeper) (moduleName : String) (cb : CallbackId)
      (hm : Reachable interp m) :
      Reachable interp (RegisterResponseCallback m moduleName cb).1
  | create (m : MockServiceKeeper) (ctx : Context) (serviceName : String)
      (providers : List AccAddress) (consumer : AccAddress) (input : String)
      (serviceFeeCap : Coins) (timeout : Int) (repeated : Bool) (repeatedFrequency : Nat)
      (repeatedTotal : Int) (state : RequestContextState) (respThreshold : Nat)
      (moduleName : String) (hm : Reachable interp m)
      (hmin : minInt64 ≤ repeatedTotal) (hmax : repeatedTotal ≤ maxInt64) :
      Reachable interp
        (CreateRequestContext m ctx serviceName providers consumer input serviceFeeCap
          timeout repeated repeatedFrequency repeatedTotal state respThreshold
          moduleName).keeper
  | update (m : MockServiceKeeper) (ctx : Context) (id : String)
      (providers : List AccAddress) (serviceFeeCap : Coins) (repeatedFreq : Nat)
      (repeatedTotal : Int) (hm : Reachable interp m) :
      Reachable interp
        (UpdateRequestContext m ctx id providers serviceFeeCap repeatedFreq repeatedTotal).1
  | start (m : MockServiceKeeper) (ctx : Context) (id : String) (fuel : Nat)
      (err : Option SdkError) (m2 : MockServiceKeeper) (calls : List CallRecord)
      (hm : Reachable interp m)
      (hrun : StartRequestContext interp fuel m ctx id
                = some (Outcome.returned err m2 calls)) :
      Reachable interp m2
  | pause (m : MockServiceKeeper) (ctx : Context) (id : String)
      (hm : Reachable interp m) :
      Reachable interp (PauseRequestContext m ctx id).1

/-- What holds of every stored context of a reachable keeper: its total is an `int64`,
and its batch counter is at most its total or, for a negative total, is 0. -/
def batchInvariant (m : MockServiceKeeper) : Prop :=
  ∀ id c, m.cxtMap id = some c →
    minInt64 ≤ c.RepeatedTotal ∧ c.RepeatedTotal ≤ maxInt64 ∧
      ((c.BatchCounter : Int) ≤ c.RepeatedTotal ∨ c.BatchCounter = 0)

/-- The keeper `keeperThree` after its context has been paused and then started with
fuel 4. -/
def keeperThreeDone : MockServiceKeeper :=
  ((StartRequestContext idleCallbacks 4
      (PauseRequestContext keeperThree ctx0 "mockRequest").1 ctx0 "mockRequest").map
    Outcome.keeper).getD keeperThree

/-- A keeper with an empty registry on which one context has been created with the
total -5. -/
def keeperNegativeTotal : MockServiceKeeper :=
  (CreateRequestContext NewMockServiceKeeper ctx0
    "price" [[1], [2], [3]] [9] "in" [] 5 true 10 (-5) RequestContextState.Running 2
    "oracle").keeper

/-- The keeper `keeperThree` with the frequency of its context as a parameter:
`keeperThree` is `keeperFrequency 10`. -/
def keeperFrequency (frequency : Nat) : MockServiceKeeper :=
  (CreateRequestContext (RegisterResponseCallback NewMockServiceKeeper "oracle" 1).1 ctx0
    "price" [[1], [2], [3]] [9] "in" [] 5 true frequency 3 RequestContextState.Running 2
    "oracle").keeper

/-- The keeper `m` with the frequency of the context stored under `id` replaced. -/
def setFrequency (m : MockServiceKeeper) (id : String) (frequency : Nat) :
    MockServiceKeeper :=
  { m with
    cxtMap := Function.update m.cxtMap id
      ((m.cxtMap id).map (fun c => { c with RepeatedFrequency := frequency })) }

/-- The execution contexts of the callback invocations of a call of
`StartRequestContext`, in order. -/
def contextsOf (o : Option Outcome) : List Context :=
  (callsOf o).map (fun r => r.ctx)

/-- A callback that pauses the context it is called for when the batch counter it finds
in the store is `i`, and does nothing otherwise: `PauseRequestContext` applied from
inside the callback of batch `i`. -/
def pauseAt (i : Nat) : ResponseCallback :=
  fun ctx requestContextID _ m =>
    if (m.cxtMap requestContextID).map (fun c => c.BatchCounter) = some i then
      (PauseRequestContext m ctx requestContextID).1
    else m

end MockKeeper

/-!
# irishub: service messages (`modules/service/msgs.go`)

Conventions of the embedding.

* A service name is a Go string whose bytes matter: it is a list of bytes (`List Nat`).
  The other Go strings are Lean `String`s.
* A Go map with string keys is a function into `Option`; the plain read `m[k]` is
  `(m k).getD ""`.
* `regexp.Match` on a byte slice reads the bytes as UTF-8, rune by rune, an invalid
  byte counting as the rune `U+FFFD`.
* The functions and types of the package that are declared in other files (enum
  parsers, binding type and level checks, coin checks) are parameters.
-/

namespace Service

/-! ## Byte strings and the pattern of `validServiceName` -/

/-- Go `utf8.RuneError`. -/
def runeError : Nat := 65533

/-- Go `utf8.DecodeRune`: the first rune of a byte sequence and its width.  An invalid
or incomplete encoding gives `(RuneError, 1)`, the empty sequence `(RuneError, 0)`. -/
def decodeRune : List Nat → Nat × Nat
  | [] => (runeError, 0)
  | b0 :: rest =>
    if b0 < 128 then (b0, 1)
    else if 194 ≤ b0 ∧ b0 ≤ 223 then
      match rest with
      | b1 :: _ =>
        if 128 ≤ b1 ∧ b1 ≤ 191 then ((b0 - 192) * 64 + (b1 - 128), 2) else (runeError, 1)
      | [] => (runeError, 1)
    else if 224 ≤ b0 ∧ b0 ≤ 239 then
      match rest with
      | b1 :: b2 :: _ =>
        if (if b0 = 224 then 160 else 128) ≤ b1 ∧ b1 ≤ (if b0 = 237 then 159 else 191)
            ∧ 128 ≤ b2 ∧ b2 ≤ 191 then
          ((b0 - 224) * 4096 + (b1 - 128) * 64 + (b2 - 128), 3)
        else (runeError, 1)
      | _ => (runeError, 1)
    else if 240 ≤ b0 ∧ b0 ≤ 244 then
      match rest with
      | b1 :: b2 :: b3 :: _ =>
        if (if b0 = 240 then 144 else 128) ≤ b1 ∧ b1 ≤ (if b0 = 244 then 143 else 191)
            ∧ 128 ≤ b2 ∧ b2 ≤ 191 ∧ 128 ≤ b3 ∧ b3 ≤ 191 then
          ((b0 - 240) * 262144 + (b1 - 128) * 4096 + (b2 - 128) * 64 + (b3 - 128), 4)
        else (runeError, 1)
      | _ => (runeError, 1)
    else (runeError, 1)

/-- The runes of a byte sequence, decoded one after the other; the fuel bounds the
number of runes. -/
def runesAux : Nat → List Nat → List Nat
  | 0, _ => []
  | _ + 1, [] => []
  | fuel + 1, b :: bs =>
    (decodeRune (b :: bs)).1 :: runesAux fuel ((b :: bs).drop (decodeRune (b :: bs)).2)

/-- The runes of a byte sequence: every rune takes a byte at least, so the length is
fuel enough. -/
def runes (bs : List Nat) : List Nat := runesAux bs.length bs

/-- The character class `a-zA-Z0-9_-` of the pattern in `validServiceName`. -/
def inClass (r : Nat) : Bool :=
  (97 ≤ r && r ≤ 122) || (65 ≤ r && r ≤ 90) || (48 ≤ r && r ≤ 57) || r == 95 || r == 45

/-- Go `regexp.MustCompile("[^a-zA-Z0-9_-]").Match(b)`: some rune of `b` is outside the
class. -/
def regMatch (b : List Nat) : Bool :=
  (runes b).any (fun r => !inClass r)

/-- Go `validServiceName`. -/
def validServiceName (name : List Nat) : Bool :=
  if name.length = 0 ∨ name.length > 128 then false
  else !regMatch name

/-! ## Methods and their properties -/

/-- The attribute name `output_privacy`. -/
def outputPrivacy : String := "output_privacy"

/-- The attribute name `output_cached`. -/
def outputCached : String := "output_cached"

/-- The attribute name `description`. -/
def description : String := "description"

/-- Go `sdk.AccAddress`, a byte slice. -/
abbrev AccAddress := List Nat

/-- Go `sdk.Coin`. -/
structure Coin where
  Denom : String
  Amount : Int
  deriving DecidableEq, Repr

/-- Go `sdk.Coins`. -/
abbrev Coins := List Coin

/-- Modelled from the spec: the declaration of `Level` is in another file of the package.
It is only handed to `validLevel` and `validUpdateLevel`, which are parameters. -/
structure Level where
  AvgRspTime : Int
  UsableTime : Int
  deriving DecidableEq, Repr

/-- Go `BindingType`, a byte. -/
abbrev BindingType := Nat

/-- The errors this file builds, one constructor for each `Err...` function called, with
the argument it is given. -/
inductive SvcError where
  | InvalidChainId
  | InvalidDefChainId
  | InvalidServiceName (name : List Nat)
  | InvalidMethodName
  | InvalidOutputPrivacyEnum (value : String)
  | InvalidOutputCachedEnum (value : String)
  | InvalidBindingType (bindingType : BindingType)
  | InvalidLevel (level : Level)
  | InvalidCoins (coins : Coins)
  | InvalidAddress (address : AccAddress)
  deriving DecidableEq, Repr

/-- Modelled from the spec: `protoidl.Method` of the package `tools/protoidl`, not among
the sources; the two fields this file reads. -/
structure Method where
  Name : String
  Attributes : String → Option String

/-- Modelled from the spec: `MethodProperty`, declared in another file of the package;
the fields are those of the composite literal in `methodToMethodProperty`. -/
structure MethodProperty where
  ID : Int
  Name : String
  Description : String
  OutputPrivacy : Nat
  OutputCached : Nat
  deriving DecidableEq, Repr

/-- The enumerations of the package, declared in another file and taken as parameters:
the two default values and the two parsers, each giving a value and an error (nil
is `none`). -/
structure Enums where
  NoPrivacy : Nat
  NoCached : Nat
  OutputPrivacyEnumFromString : String → Nat × Option String
  OutputCachedEnumFromString : String → Nat × Option String

/-- The zero value of `MethodProperty`, what the named result holds before it is
assigned. -/
def zeroMethodProperty : MethodProperty :=
  { ID := 0, Name := "", Description := "", OutputPrivacy := 0, OutputCached := 0 }

/-- The plain map read `method.Attributes[key]`. -/
def Method.attr (method : Method) (key : String) : String :=
  (method.Attributes key).getD ""

/-- One turn of the loop of `validateMethods`: `none` when the method passes. -/
def validateMethod (e : Enums) (method : Method) : Option SvcError :=
  if method.Name.length = 0 then some SvcError.InvalidMethodName
  else if (method.Attributes outputPrivacy).isSome
      ∧ (e.OutputPrivacyEnumFromString (method.attr outputPrivacy)).2.isSome then
    some (SvcError.InvalidOutputPrivacyEnum (method.attr outputPrivacy))
  else if (method.Attributes outputCached).isSome
      ∧ (e.OutputCachedEnumFromString (method.attr outputCached)).2.isSome then
    some (SvcError.InvalidOutputCachedEnum (method.attr outputCached))
  else none

/-- Go `validateMethods`. -/
def validateMethods (e : Enums) : List Method → Bool × Option SvcError
  | [] => (true, none)
  | method :: rest =>
    match validateMethod e method with
    | some err => (false, some err)
    | none => validateMethods e rest

/-- Go `methodToMethodProperty`.  `err` is the named result, nil until the function
returns; `err1` is the local error of the two parsers.  The second test reads
`err`, as the source does. -/
def methodToMethodProperty (e : Enums) (index : Int) (method : Method) :
    MethodProperty × Option SvcError :=
  let err : Option SvcError := none
  let opp0 := e.NoPrivacy
  let opc0 := e.NoCached
  let privacy : Nat × Option String :=
    if (method.Attributes outputPrivacy).isSome then
      e.OutputPrivacyEnumFromString (method.attr outputPrivacy)
    else (opp0, none)
  if (method.Attributes outputPrivacy).isSome ∧ privacy.2.isSome then
    (zeroMethodProperty, some (SvcError.InvalidOutputPrivacyEnum (method.attr outputPrivacy)))
  else
    let opp := privacy.1
    let cached : Nat × Option String :=
      if (method.Attributes outputCached).isSome then
        e.OutputCachedEnumFromString (method.attr outputCached)
      else (opc0, none)
    if (method.Attributes outputCached).isSome ∧ err.isSome then
      (zeroMethodProperty, some (SvcError.InvalidOutputCachedEnum (method.attr outputCached)))
    else
      let opc := cached.1
      ({ ID := index, Name := method.Name, Description := method.attr description,
         OutputPrivacy := opp, OutputCached := opc }, err)

/-! ## The messages of a binding -/

/-- The checks of the package and of `sdk.Coins` that are declared elsewhere, taken as
parameters. -/
structure Checks where
  validBindingType : BindingType → Bool
  validLevel : Level → Bool
  validUpdateLevel : Level → Bool
  coinsIsValid : Coins → Bool
  coinsIsNotNegative : Coins → Bool
  coinIsNotNegative : Coin → Bool

/-- Go `MsgSvcBind`. -/
structure MsgSvcBind where
  DefName : List Nat
  DefChainID : String
  BindChainID : String
  Provider : AccAddress
  BindingType : BindingType
  Deposit : Coins
  Prices : List Coin
  Level : Level

/-- Go `MsgSvcBindingUpdate`. -/
structure MsgSvcBindingUpdate where
  DefName : List Nat
  DefChainID : String
  BindChainID : String
  Provider : AccAddress
  BindingType : BindingType
  Deposit : Coins
  Prices : List Coin
  Level : Level

/-- Go `MsgSvcDisable`. -/
structure MsgSvcDisable where
  DefName : List Nat
  DefChainID : String
  BindChainID : String
  Provider : AccAddress

/-- Go `MsgSvcEnable`. -/
structure MsgSvcEnable where
  DefName : List Nat
  DefChainID : String
  BindChainID : String
  Provider : AccAddress
  Deposit : Coins

/-- Go `MsgSvcRefundDeposit`. -/
structure MsgSvcRefundDeposit where
  DefName : List Nat
  DefChainID : String
  BindChainID : String
  Provider : AccAddress

/-- The statement `if len(msg.Provider) == 0 { sdk.ErrInvalidAddress(...) }` of the five
`ValidateBasic` methods: the error is built and dropped, the statement returns
nothing. -/
def providerCheck (provider : AccAddress) : Option SvcError :=
  let _built : Option SvcError :=
    if provider.length = 0 then some (SvcError.InvalidAddress provider) else none
  none

/-- The loop over `msg.Prices`: the first price that is negative, if any. -/
def pricesCheck (k : Checks) : List Coin → Option SvcError
  | [] => none
  | price :: rest =>
    if !k.coinIsNotNegative price then some (SvcError.InvalidCoins [price])
    else pricesCheck k rest

/-- Go `MsgSvcBind.ValidateBasic`. -/
def MsgSvcBind.ValidateBasic (k : Checks) (msg : MsgSvcBind) : Option SvcError :=
  if msg.DefChainID.length = 0 then some SvcError.InvalidDefChainId
  else if msg.BindChainID.length = 0 then some SvcError.InvalidChainId
  else if !validServiceName msg.DefName then some (SvcError.InvalidServiceName msg.DefName)
  else if !k.validBindingType msg.BindingType then
    some (SvcError.InvalidBindingType msg.BindingType)
  else
    match providerCheck msg.Provider with
    | some err => some err
    | none =>
      if !k.coinsIsValid msg.Deposit then some (SvcError.InvalidCoins msg.Deposit)
      else if !k.coinsIsNotNegative msg.Deposit then some (SvcError.InvalidCoins msg.Deposit)
      else
        match pricesCheck k msg.Prices with
        | some err => some err
        | none =>
          if !k.validLevel msg.Level then some (SvcError.InvalidLevel msg.Level)
          else none

/-- Go `MsgSvcBindingUpdate.ValidateBasic`. -/
def MsgSvcBindingUpdate.ValidateBasic (k : Checks) (msg : MsgSvcBindingUpdate) :
    Option SvcError :=
  if msg.DefChainID.length = 0 then some SvcError.InvalidDefChainId
  else if msg.BindChainID.length = 0 then some SvcError.InvalidChainId
  else if !validServiceName msg.DefName then some (SvcError.InvalidServiceName msg.DefName)
  else
    match providerCheck msg.Provider with
    | some err => some err
    | none =>
      if msg.BindingType ≠ 0 ∧ !k.validBindingType msg.BindingType then
        some (SvcError.InvalidBindingType msg.BindingType)
      else if !k.coinsIsNotNegative msg.Deposit then some (SvcError.InvalidCoins msg.Deposit)
      else
        match pricesCheck k msg.Prices with
        | some err => some err
        | none =>
          if !k.validUpdateLevel msg.Level then some (SvcError.InvalidLevel msg.Level)
          else none

/-- Go `MsgSvcDisable.ValidateBasic`. -/
def MsgSvcDisable.ValidateBasic (msg : MsgSvcDisable) : Option SvcError :=
  if msg.DefChainID.length = 0 then some SvcError.InvalidDefChainId
  else if msg.BindChainID.length = 0 then some SvcError.InvalidChainId
  else if !validServiceName msg.DefName then some (SvcError.InvalidServiceName msg.DefName)
  else
    match providerCheck msg.Provider with
    | some err => some err
    | none => none

/-- Go `MsgSvcEnable.ValidateBasic`. -/
def MsgSvcEnable.ValidateBasic (k : Checks) (msg : MsgSvcEnable) : Option SvcError :=
  if msg.DefChainID.length = 0 then some SvcError.InvalidDefChainId
  else if msg.BindChainID.length = 0 then some SvcError.InvalidChainId
  else if !validServiceName msg.DefName then some (SvcError.InvalidServiceName msg.DefName)
  else if !k.coinsIsNotNegative msg.Deposit then some (SvcError.InvalidCoins msg.Deposit)
  else
    match providerCheck msg.Provider with
    | some err => some err
    | none => none

/-- Go `MsgSvcRefundDeposit.ValidateBasic`. -/
def MsgSvcRefundDeposit.ValidateBasic (msg : MsgSvcRefundDeposit) : Option SvcError :=
  if msg.DefChainID.length = 0 then some SvcError.InvalidDefChainId
  else if msg.BindChainID.length = 0 then some SvcError.InvalidChainId
  else if !validServiceName msg.DefName then some (SvcError.InvalidServiceName msg.DefName)
  else
    match providerCheck msg.Provider with
    | some err => some err
    | none => none

/-! ## Fixtures -/

/-- The service name `svc`, as bytes. -/
def nameSvc : List Nat := [115, 118, 99]

/-- Checks that accept everything. -/
def acceptAll : Checks :=
  { validBindingType := fun _ => true, validLevel := fun _ => true,
    validUpdateLevel := fun _ => true, coinsIsValid := fun _ => true,
    coinsIsNotNegative := fun _ => true, coinIsNotNegative := fun _ => true }

/-- Enumerations with the values 1 and 2 and the value 255 for a string that is none of
the two names. -/
def sampleEnums : Enums :=
  { NoPrivacy := 1, NoCached := 1,
    OutputPrivacyEnumFromString := fun s =>
      if s = "NoPrivacy" then (1, none)
      else if s = "PubKeyEncryption" then (2, none)
      else (255, some "not a valid output privacy"),
    OutputCachedEnumFromString := fun s =>
      if s = "NoCached" then (1, none)
      else if s = "WithCached" then (2, none)
      else (255, some "not a valid output cached") }

/-- A method `get` whose only attribute is `output_cached = bogus`. -/
def methodBogusCached : Method :=
  { Name := "get",
    Attributes := fun key => if key = "output_cached" then some "bogus" else none }

end Service

/-!
# irishub: asset fees and parameters (`app/v1/asset/fees.go`, `params.go`)
-/

namespace Asset

/-!
Conventions of the embedding.

* `sdk.Int` is `Int`; its 255-bit bound, which the amounts here stay far below, is
  not modelled.
* `sdk.Dec` is a fixed-point decimal: the integer `raw` stands for `raw / 10^prec`.
  The number of decimals `prec` (`sdk.Precision`) is a parameter of every function
  that needs it.
* A Go string of which only the length in bytes is read is a list of bytes.
* A panic is `none` of `Option`.
* `fees.go` reads the parameters under the names `AssetTaxRate`, `IssueTokenBaseFee`
  and `MintTokenFeeRatio`; `params.go` declares them as `TokenTaxRate`,
  `IssueFTBaseFee` and `MintFTFeeRatio`.  The embedding uses the declared names.
-/

/-! ## Decimals -/

/-- Modelled from the spec: the package `types` (`sdk`) of the repository is not among the
sources.  `sdk.Dec` is the fixed-point decimal of the SDK, an integer scaled by
`10^Precision`. -/
abbrev Dec := Int

/-- Modelled from the spec: `precisionReuse` of the package `types`, `10^Precision`. -/
def precisionReuse (prec : Nat) : Int := 10 ^ prec

/-- Modelled from the spec: `fivePrecision` of the package `types`, half of
`precisionReuse`. -/
def fivePrecision (prec : Nat) : Int := (precisionReuse prec).tdiv 2

/-- Modelled from the spec: `chopPrecisionAndRound` of `sdk.Dec` on a value that is not
negative: division by `10^Precision`, a remainder of exactly one half rounding to
the even quotient. -/
def chopNonneg (prec : Nat) (d : Int) : Int :=
  let quo := d.tdiv (precisionReuse prec)
  let rem := d.tmod (precisionReuse prec)
  if rem = 0 then quo
  else if rem < fivePrecision prec then quo
  else if rem > fivePrecision prec then quo + 1
  else if quo % 2 = 0 then quo
  else quo + 1

/-- Modelled from the spec: `chopPrecisionAndRound` of `sdk.Dec`; a negative value is
negated, chopped and negated back. -/
def chopPrecisionAndRound (prec : Nat) (d : Int) : Int :=
  if d < 0 then -(chopNonneg prec (-d)) else chopNonneg prec d

/-- Modelled from the spec: `sdk.NewDecFromInt` of the package `types`, the whole number
`i` as a decimal. -/
def NewDecFromInt (prec : Nat) (i : Int) : Dec := i * precisionReuse prec

/-- Modelled from the spec: `sdk.NewDec` of the package `types`, the whole number `i` as
a decimal. -/
def NewDec (prec : Nat) (i : Int) : Dec := i * precisionReuse prec

/-- Modelled from the spec: `sdk.NewDecWithPrec(i, p)` of the package `types`, the
decimal `i / 10^p`, for `p` up to the precision. -/
def NewDecWithPrec (prec : Nat) (i : Int) (p : Nat) : Dec := i * 10 ^ (prec - p)

/-- Modelled from the spec: `Dec.Mul` of the package `types`: the product, rounded to the
precision. -/
def Dec.Mul (prec : Nat) (d d2 : Dec) : Dec := chopPrecisionAndRound prec (d * d2)

/-- Modelled from the spec: `Dec.Quo` of the package `types`: the quotient, rounded to the
precision; the division of big integers panics on a zero divisor. -/
def Dec.Quo (prec : Nat) (d d2 : Dec) : Option Dec :=
  if d2 = 0 then none
  else some (chopPrecisionAndRound prec
    ((d * precisionReuse prec * precisionReuse prec).tdiv d2))

/-- Modelled from the spec: `Dec.TruncateInt` of the package `types`: the whole part of
a decimal, the decimals cut off. -/
def Dec.TruncateInt (prec : Nat) (d : Dec) : Int := d.tdiv (precisionReuse prec)

/-- Modelled from the spec: `sdk.NewIntWithDecimal(n, dec)` of the package `types`,
`n * 10^dec`. -/
def NewIntWithDecimal (n : Int) (dec : Nat) : Int := n * 10 ^ dec

/-! ## Coins and parameters -/

/-- Go `sdk.Coin`. -/
structure Coin where
  Denom : String
  Amount : Int
  deriving DecidableEq, Repr

/-- Modelled from the spec: `sdk.NewCoin` of the package `types`. -/
def NewCoin (denom : String) (amount : Int) : Coin := { Denom := denom, Amount := amount }

/-- Modelled from the spec: `Coin.Minus` of the package `types`: the difference of the
amounts of two coins of one denomination. -/
def Coin.Minus (coin coinB : Coin) : Coin :=
  if coin.Denom = coinB.Denom then { Denom := coin.Denom, Amount := coin.Amount - coinB.Amount }
  else coin

/-- Modelled from the spec: `sdk.NativeTokenMinDenom` of the package `types`, the
denomination of the smallest unit of the native token. -/
def NativeTokenMinDenom : String := "iris-atto"

/-- Go `Params`. -/
structure Params where
  TokenTaxRate : Dec
  IssueFTBaseFee : Coin
  MintFTFeeRatio : Dec
  CreateGatewayBaseFee : Coin
  GatewayAssetFeeRatio : Dec
  deriving DecidableEq, Repr

/-- What the functions take from outside the two files: the precision of `sdk.Dec`, the
parsers `sdk.NewDecFromStr` and `sdk.ParseCoin` (`none` is an error), and the
floating-point part of `calcFeeFactor`, the string
`strconv.FormatFloat(math.Pow(math.Log(float64(nameLen))/math.Log(3), 4), 'f', 2, 64)`
as a function of `nameLen`. -/
structure Env where
  prec : Nat
  NewDecFromStr : String → Option Dec
  ParseCoin : String → Option Coin
  feeFactorStr : Nat → String

/-! ## `params.go` -/

/-- The errors `params.go` builds. -/
inductive ParamError where
  | InvalidString (value : String)
  | InvalidAssetTaxRate (v : Dec)
  | InvalidMintFTBaseFeeRatio (v : Dec)
  | InvalidGatewayAssetFeeRatio (v : Dec)
  | InvalidKey (key : String)
  deriving DecidableEq, Repr

/-- The value `Params.Validate` returns as `interface{}`. -/
inductive ParamValue where
  | dec (d : Dec)
  | coin (c : Coin)
  deriving DecidableEq, Repr

/-- Go `validateAssetTaxRate`. -/
def validateAssetTaxRate (prec : Nat) (v : Dec) : Option ParamError :=
  if v > NewDecWithPrec prec 1 0 ∨ v < NewDecWithPrec prec 0 0 then
    some (ParamError.InvalidAssetTaxRate v)
  else none

/-- Go `validateMintFTBaseFeeRatio`. -/
def validateMintFTBaseFeeRatio (prec : Nat) (v : Dec) : Option ParamError :=
  if v > NewDecWithPrec prec 1 0 ∨ v < NewDecWithPrec prec 0 0 then
    some (ParamError.InvalidMintFTBaseFeeRatio v)
  else none

/-- Go `validateGatewayAssetFeeRatio`. -/
def validateGatewayAssetFeeRatio (prec : Nat) (v : Dec) : Option ParamError :=
  if v > NewDecWithPrec prec 1 0 ∨ v < NewDecWithPrec prec 0 0 then
    some (ParamError.InvalidGatewayAssetFeeRatio v)
  else none

/-- Go `Params.Validate`. -/
def Validate (env : Env) (key : String) (value : String) : Except ParamError ParamValue :=
  if key = "TokenTaxRate" then
    match env.NewDecFromStr value with
    | none => Except.error (ParamError.InvalidString value)
    | some rate =>
      match validateAssetTaxRate env.prec rate with
      | some err => Except.error err
      | none => Except.ok (ParamValue.dec rate)
  else if key = "IssueFTBaseFee" then
    match env.ParseCoin value with
    | none => Except.error (ParamError.InvalidString value)
    | some fee =>
      if fee.Denom ≠ NativeTokenMinDenom then Except.error (ParamError.InvalidString value)
      else Except.ok (ParamValue.coin fee)
  else if key = "MintFTFeeRatio" then
    match env.NewDecFromStr value with
    | none => Except.error (ParamError.InvalidString value)
    | some ratio =>
      match validateMintFTBaseFeeRatio env.prec ratio with
      | some err => Except.error err
      | none => Except.ok (ParamValue.dec ratio)
  else if key = "CreateGatewayBaseFee" then
    match env.ParseCoin value with
    | none => Except.error (ParamError.InvalidString value)
    | some fee =>
      if fee.Denom ≠ NativeTokenMinDenom then Except.error (ParamError.InvalidString value)
      else Except.ok (ParamValue.coin fee)
  else if key = "GatewayAssetFeeRatio" then
    match env.NewDecFromStr value with
    | none => Except.error (ParamError.InvalidString value)
    | some ratio =>
      match validateGatewayAssetFeeRatio env.prec ratio with
      | some err => Except.error err
      | none => Except.ok (ParamValue.dec ratio)
  else Except.error (ParamError.InvalidKey key)

/-! ## `fees.go` -/

/-- Go `convertFeeToInt`. -/
def convertFeeToInt (prec : Nat) (fee : Dec) : Option Int :=
  match Dec.Quo prec fee (NewDecFromInt prec (NewIntWithDecimal 1 18)) with
  | none => none
  | some feeNativeToken =>
    if feeNativeToken > NewDec prec 1 then
      some (Dec.TruncateInt prec feeNativeToken * NewIntWithDecimal 1 18)
    else
      some (1 * NewIntWithDecimal 1 18)

/-- Go `calcFeeFactor`: it panics on an empty name and on a string the decimal parser
rejects. -/
def calcFeeFactor (env : Env) (name : List Nat) : Option Dec :=
  let nameLen := name.length
  if nameLen = 0 then none
  else env.NewDecFromStr (env.feeFactorStr nameLen)

/-- Go `calcFeeByBase`. -/
def calcFeeByBase (env : Env) (name : List Nat) (baseFee : Int) : Option Dec :=
  match calcFeeFactor env name with
  | none => none
  | some feeFactor => Dec.Quo env.prec (NewDecFromInt env.prec baseFee) feeFactor

/-- Go `getGatewayCreateFee`. -/
def getGatewayCreateFee (env : Env) (params : Params) (moniker : List Nat) : Option Coin :=
  (calcFeeByBase env moniker params.CreateGatewayBaseFee.Amount).bind fun fee =>
    (convertFeeToInt env.prec fee).map fun amount => NewCoin NativeTokenMinDenom amount

/-- Go `getTokenIssueFee`. -/
def getTokenIssueFee (env : Env) (params : Params) (symbol : List Nat) : Option Coin :=
  (calcFeeByBase env symbol params.IssueFTBaseFee.Amount).bind fun fee =>
    (convertFeeToInt env.prec fee).map fun amount => NewCoin NativeTokenMinDenom amount

/-- Go `getTokenMintFee`. -/
def getTokenMintFee (env : Env) (params : Params) (symbol : List Nat) : Option Coin :=
  (getTokenIssueFee env params symbol).bind fun issueFee =>
    (convertFeeToInt env.prec
        (Dec.Mul env.prec (NewDecFromInt env.prec issueFee.Amount) params.MintFTFeeRatio)).map
      fun amount => NewCoin NativeTokenMinDenom amount

/-- Go `getGatewayTokenIssueFee`. -/
def getGatewayTokenIssueFee (env : Env) (params : Params) (symbol : List Nat) : Option Coin :=
  (getTokenIssueFee env params symbol).bind fun nativeTokenIssueFee =>
    (convertFeeToInt env.prec
        (Dec.Mul env.prec (NewDecFromInt env.prec nativeTokenIssueFee.Amount)
          params.GatewayAssetFeeRatio)).map
      fun amount => NewCoin NativeTokenMinDenom amount

/-- Go `getGatewayTokenMintFee`. -/
def getGatewayTokenMintFee (env : Env) (params : Params) (symbol : List Nat) : Option Coin :=
  (getTokenMintFee env params symbol).bind fun nativeTokenMintFee =>
    (convertFeeToInt env.prec
        (Dec.Mul env.prec (NewDecFromInt env.prec nativeTokenMintFee.Amount)
          params.GatewayAssetFeeRatio)).map
      fun amount => NewCoin NativeTokenMinDenom amount

/-- The bank keeper `k.bk`, of another package: its two methods as they act on a state
`σ` of the accounts, with errors `ε`. -/
structure BankKeeper (σ ε : Type) where
  SendCoins : σ → List Nat → List Nat → List Coin → Except ε σ
  BurnCoins : σ → List Nat → List Coin → Except ε σ

/-- Go `feeHandler`; `communityTaxAddr` is `bank.CommunityTaxCoinsAccAddr`. -/
def feeHandler {σ ε : Type} (bk : BankKeeper σ ε) (prec : Nat) (params : Params)
    (communityTaxAddr : List Nat) (st : σ) (feeAcc : List Nat) (fee : Coin) : Except ε σ :=
  let assetTaxRate := params.TokenTaxRate
  let communityTaxCoin :=
    NewCoin fee.Denom
      (Dec.TruncateInt prec (Dec.Mul prec (NewDecFromInt prec fee.Amount) assetTaxRate))
  let burnedCoin := fee.Minus communityTaxCoin
  match bk.SendCoins st feeAcc communityTaxAddr [communityTaxCoin] with
  | Except.error err => Except.error err
  | Except.ok st1 =>
    match bk.BurnCoins st1 feeAcc [burnedCoin] with
    | Except.error err => Except.error err
    | Except.ok st2 => Except.ok st2

/-- Go `DefaultParams`. -/
def DefaultParams (prec : Nat) : Params :=
  { TokenTaxRate := NewDecWithPrec prec 4 1,
    IssueFTBaseFee := NewCoin NativeTokenMinDenom (NewIntWithDecimal 300000 18),
    MintFTFeeRatio := NewDecWithPrec prec 1 1,
    CreateGatewayBaseFee := NewCoin NativeTokenMinDenom (NewIntWithDecimal 600000 18),
    GatewayAssetFeeRatio := NewDecWithPrec prec 1 1 }

/-! ## Fixtures -/

/-- A sample environment for the examples: precision 10; a decimal parser that knows the
strings `0.00`, `0.16`, `1.00`, `0.4` and `1.5`; no coin parser; and the factor
strings of the names of one, two and three bytes, `0.00`, `0.16` and `1.00`
(`ln 1 = 0`, `(ln 2 / ln 3)^4 = 0.158...`, `(ln 3 / ln 3)^4 = 1`).  Longer names, not
used in the examples, are given the string of three bytes. -/
def sampleEnv : Env :=
  { prec := 10,
    NewDecFromStr := fun s =>
      if s = "0.00" then some 0
      else if s = "0.16" then some 1600000000
      else if s = "1.00" then some 10000000000
      else if s = "0.4" then some 4000000000
      else if s = "1.5" then some 15000000000
      else none,
    ParseCoin := fun _ => none,
    feeFactorStr := fun n => if n = 1 then "0.00" else if n = 2 then "0.16" else "1.00" }

/-- A bank keeper that records what it is asked to send and to burn. -/
def ledgerBank : BankKeeper (List (String × List Coin)) Unit :=
  { SendCoins := fun st _ _ amt => Except.ok (st ++ [("send", amt)]),
    BurnCoins := fun st _ amt => Except.ok (st ++ [("burn", amt)]) }

end Asset

/-!
# irishub: governance querier (`app/v3/gov/queryable.go`)

Conventions of the embedding.

* A path is a Go slice of strings, a `List String`; the index expression `path[0]` is
  `path.get? 0`, which has no value on a slice that is too short: the Go runtime
  panics there with an index out of range. The slice expression `path[1:]` is
  `path.drop 1`.
* A call either returns the pair `(res, err)` of the Go signature or panics.
* The context, the request and the keeper are not inspected by the dispatcher: their
  types are parameters. The seven query functions read `req.Data`, the keeper and its
  codec, which are declared in other files, and none of them reads its `path`
  argument; they are parameters of the dispatcher, as is the constructor
  `sdk.ErrUnknownRequest`.
-/

namespace Gov

/-- The endpoint `proposals`. -/
def QueryProposals : String := "proposals"

/-- The endpoint `proposal`. -/
def QueryProposal : String := "proposal"

/-- The endpoint `deposits`. -/
def QueryDeposits : String := "deposits"

/-- The endpoint `deposit`. -/
def QueryDeposit : String := "deposit"

/-- The endpoint `votes`. -/
def QueryVotes : String := "votes"

/-- The endpoint `vote`. -/
def QueryVote : String := "vote"

/-- The endpoint `tally`. -/
def QueryTally : String := "tally"

/-- A run-time panic of Go: an index expression outside the slice, with the index and
the length of the slice, or any other panic raised below the dispatcher. -/
inductive RuntimeError where
  | indexOutOfRange (index length : Nat)
  | other (msg : String)
  deriving DecidableEq, Repr

/-- What a call of a querier does: it returns `(res []byte, err sdk.Error)`, either
of which may be `nil`, or it panics. -/
inductive Outcome (ε : Type) where
  | returned (res : Option (List Nat)) (err : Option ε)
  | panicked (e : RuntimeError)
  deriving DecidableEq, Repr

/-- The functions the dispatcher calls: the seven query functions of the file, each
taking the context, the remaining path, the request and the keeper, and the error
constructor `sdk.ErrUnknownRequest`. -/
structure Endpoints (κ χ ρ ε : Type) where
  queryProposals : χ → List String → ρ → κ → Outcome ε
  queryProposal : χ → List String → ρ → κ → Outcome ε
  queryDeposits : χ → List String → ρ → κ → Outcome ε
  queryDeposit : χ → List String → ρ → κ → Outcome ε
  queryVotes : χ → List String → ρ → κ → Outcome ε
  queryVote : χ → List String → ρ → κ → Outcome ε
  queryTally : χ → List String → ρ → κ → Outcome ε
  ErrUnknownRequest : String → ε

/-- The querier `NewQuerier(keeper)`: it switches on `path[0]`, which is evaluated
first and without a test of `len(path)`, and hands `path[1:]` to the query function
of the endpoint; any other first element is the unknown request error. -/
def NewQuerier {κ χ ρ ε : Type} (e : Endpoints κ χ ρ ε) (keeper : κ)
    (ctx : χ) (path : List String) (req : ρ) : Outcome ε :=
  match path.get? 0 with
  | none => Outcome.panicked (RuntimeError.indexOutOfRange 0 path.length)
  | some p =>
    if p = QueryProposals then e.queryProposals ctx (path.drop 1) req keeper
    else if p = QueryProposal then e.queryProposal ctx (path.drop 1) req keeper
    else if p = QueryDeposits then e.queryDeposits ctx (path.drop 1) req keeper
    else if p = QueryDeposit then e.queryDeposit ctx (path.drop 1) req keeper
    else if p = QueryVotes then e.queryVotes ctx (path.drop 1) req keeper
    else if p = QueryVote then e.queryVote ctx (path.drop 1) req keeper
    else if p = QueryTally then e.queryTally ctx (path.drop 1) req keeper
    else Outcome.returned none (some (e.ErrUnknownRequest "unknown gov query endpoint"))

/-- The seven endpoints, in the order of the switch. -/
def endpointNames : List String :=
  [QueryProposals, QueryProposal, QueryDeposits, QueryDeposit, QueryVotes, QueryVote,
    QueryTally]

/-- Endpoints that answer with their own number followed by the length of the path
they were handed, so that a run shows which one was called and with what. -/
def echoEndpoints : Endpoints Unit Unit Unit String :=
  { queryProposals := fun _ path _ _ => Outcome.returned (some [1, path.length]) none,
    queryProposal := fun _ path _ _ => Outcome.returned (some [2, path.length]) none,
    queryDeposits := fun _ path _ _ => Outcome.returned (some [3, path.length]) none,
    queryDeposit := fun _ path _ _ => Outcome.returned (some [4, path.length]) none,
    queryVotes := fun _ path _ _ => Outcome.returned (some [5, path.length]) none,
    queryVote := fun _ path _ _ => Outcome.returned (some [6, path.length]) none,
    queryTally := fun _ path _ _ => Outcome.returned (some [7, path.length]) none,
    ErrUnknownRequest := fun msg => msg }

end Gov

namespace MockKeeper

/-! ## Arithmetic of the wrapping conversions -/

theorem wrapInt64_of_range (x : Int) (h1 : minInt64 ≤ x) (h2 : x ≤ maxInt64) :
    wrapInt64 x = x := by
  unfold wrapInt64
  unfold minInt64 at h1
  unfold maxInt64 at h2
  omega

theorem wrapInt64_le_max (x : Int) : wrapInt64 x ≤ maxInt64 := by
  unfold wrapInt64 maxInt64
  omega

theorem wrapInt64_ge_min (x : Int) : minInt64 ≤ wrapInt64 x := by
  unfold wrapInt64 minInt64
  omega

theorem wrapUint64_of_range (x : Int) (h1 : 0 ≤ x) (h2 : x < 18446744073709551616) :
    wrapUint64 x = x.toNat := by
  unfold wrapUint64
  rw [Int.emod_eq_of_lt h1 h2]

theorem wrapUint64_natCast (n : Nat) (h : n < 18446744073709551616) :
    wrapUint64 (n : Int) = n := by
  rw [wrapUint64_of_range _ (Int.natCast_nonneg n) (by exact_mod_cast h)]
  exact Int.toNat_natCast n

/-! ## The loop of `StartRequestContext` -/

/-- Once the counter is past the total, the loop leaves with nil. -/
theorem startLoop_exit (interp : CallbackId → ResponseCallback) (id : String) (fuel : Nat)
    (i : Int) (reqCtx : RequestContext) (ctx : Context) (m : MockServiceKeeper)
    (calls : List CallRecord) (h : reqCtx.RepeatedTotal < i) :
    startLoop interp id (fuel + 1) i reqCtx ctx m calls
      = some (Outcome.returned none m calls) := by
  simp [startLoop, not_le.mpr h]

/-- More fuel does not change a result already reached. -/
theorem startLoop_fuel_succ (interp : CallbackId → ResponseCallback) (id : String) :
    ∀ (fuel : Nat) (i : Int) (reqCtx : RequestContext) (ctx : Context)
      (m : MockServiceKeeper) (calls : List CallRecord) (o : Outcome),
      startLoop interp id fuel i reqCtx ctx m calls = some o →
      startLoop interp id (fuel + 1) i reqCtx ctx m calls = some o := by
  intro fuel
  induction fuel with
  | zero => intro i reqCtx ctx m calls o h; simp [startLoop] at h
  | succ n ih =>
    intro i reqCtx ctx m calls o h
    rw [startLoop] at h
    rw [startLoop]
    by_cases hi : i ≤ reqCtx.RepeatedTotal
    · simp only [hi, if_true] at h ⊢
      cases hcb : m.callbackMap reqCtx.ModuleName with
      | none => simp only [hcb] at h ⊢; exact h
      | some cb =>
        simp only [hcb] at h ⊢
        exact ih _ _ _ _ _ _ h
    · simp only [hi, if_false] at h ⊢
      exact h

/-- Any larger amount of fuel gives the same result. -/
theorem startLoop_fuel_mono (interp : CallbackId → ResponseCallback) (id : String)
    (fuel fuel2 : Nat) (hle : fuel ≤ fuel2) (i : Int) (reqCtx : RequestContext) (ctx : Context)
    (m : MockServiceKeeper) (calls : List CallRecord) (o : Outcome)
    (h : startLoop interp id fuel i reqCtx ctx m calls = some o) :
    startLoop interp id fuel2 i reqCtx ctx m calls = some o := by
  induction hle with
  | refl => exact h
  | step _ ih => exact startLoop_fuel_succ interp id _ i reqCtx ctx m calls o ih

/-- With a registered callback that leaves the keeper alone and a total below the
largest `int64`, a loop that has `k` batches left runs them all and returns nil:
one callback invocation per batch, in order, and the last batch stays in the store. -/
theorem startLoop_runs (interp : CallbackId → ResponseCallback) (id : String)
    (cb : CallbackId) (hcb : keepsKeeper (interp cb)) :
    ∀ (k : Nat) (i : Int) (reqCtx : RequestContext) (ctx : Context)
      (m : MockServiceKeeper) (calls : List CallRecord),
      m.callbackMap reqCtx.ModuleName = some cb →
      i + k = reqCtx.RepeatedTotal + 1 →
      reqCtx.RepeatedTotal < maxInt64 →
      minInt64 ≤ i →
      ∃ m2 : MockServiceKeeper,
        startLoop interp id (k + 1) i reqCtx ctx m calls
            = some (Outcome.returned none m2
                (calls ++ (List.range k).map (batchRecord cb id reqCtx ctx i)))
          ∧ m2.callbackMap = m.callbackMap
          ∧ (∀ key, key ≠ id → m2.cxtMap key = m.cxtMap key)
          ∧ (k = 0 → m2 = m)
          ∧ (0 < k → m2.cxtMap id
                = some { reqCtx with BatchCounter := wrapUint64 reqCtx.RepeatedTotal,
                                     State := RequestContextState.Running }) := by
  intro k
  induction k with
  | zero =>
    intro i reqCtx ctx m calls _ hik _ _
    refine ⟨m, ?_, rfl, fun _ _ => rfl, fun _ => rfl, fun h => absurd h (lt_irrefl 0)⟩
    have hlt : reqCtx.RepeatedTotal < i := by
      have : i = reqCtx.RepeatedTotal + 1 := by simpa using hik
      omega
    rw [startLoop_exit interp id 0 i reqCtx ctx m calls hlt]
    simp
  | succ n ih =>
    intro i reqCtx ctx m calls hreg hik hmax hmin
    have hle : i ≤ reqCtx.RepeatedTotal := by
      push_cast at hik
      omega
    have hwrap : wrapInt64 (i + 1) = i + 1 := by
      apply wrapInt64_of_range
      · unfold minInt64 at hmin ⊢; omega
      · unfold maxInt64 at hmax ⊢; omega
    obtain ⟨m2, hrun, hcbm, hother, hzero, hpos⟩ :=
      ih (i + 1)
        { reqCtx with BatchCounter := wrapUint64 i, State := RequestContextState.Running }
        (nextBlock ctx)
        { m with
            cxtMap := Function.update m.cxtMap id
              (some { reqCtx with BatchCounter := wrapUint64 i,
                                  State := RequestContextState.Running }) }
        (calls ++ [{ callback := cb, ctx := nextBlock ctx, requestContextID := id,
                     responses := responses,
                     stored := some { reqCtx with BatchCounter := wrapUint64 i,
                                                  State := RequestContextState.Running } }])
        hreg (by push_cast at hik ⊢; omega) hmax
        (by unfold minInt64 at hmin ⊢; omega)
    refine ⟨m2, ?_, hcbm, ?_, fun h => absurd h (Nat.succ_ne_zero n), fun _ => ?_⟩
    · rw [startLoop]
      simp only [hle, if_true, hreg, hwrap, Function.update_same]
      rw [hcb]
      rw [hrun]
      congr 2
      rw [List.range_succ_eq_map, List.map_cons, List.map_map, List.append_assoc]
      congr 1
      simp only [List.singleton_append]
      congr 1
      · simp [batchRecord]
      · apply List.map_congr_left
        intro j _
        simp only [batchRecord, Function.comp, Function.iterate_succ_apply]
        congr 3
        push_cast
        ring_nf
    · intro key hkey
      rw [hother key hkey]
      exact Function.update_noteq hkey _ _
    · rcases Nat.eq_zero_or_pos n with hn | hn
      · rw [hzero hn]
        subst hn
        have hi : i = reqCtx.RepeatedTotal := by
          push_cast at hik
          omega
        simp [hi]
      · exact hpos hn

/-- When the total is the largest `int64` the test `i <= reqCtx.RepeatedTotal` holds
for every counter value, the increment wraps, and the loop never leaves: no
amount of fuel reaches a result. -/
theorem startLoop_maxTotal (interp : CallbackId → ResponseCallback) (id : String)
    (cb : CallbackId) (hcb : keepsKeeper (interp cb)) :
    ∀ (fuel : Nat) (i : Int) (reqCtx : RequestContext) (ctx : Context)
      (m : MockServiceKeeper) (calls : List CallRecord),
      reqCtx.RepeatedTotal = maxInt64 →
      i ≤ maxInt64 →
      m.callbackMap reqCtx.ModuleName = some cb →
      startLoop interp id fuel i reqCtx ctx m calls = none := by
  intro fuel
  induction fuel with
  | zero => intro i reqCtx ctx m calls _ _ _; rfl
  | succ n ih =>
    intro i reqCtx ctx m calls htot hi hreg
    rw [startLoop]
    have hle : i ≤ reqCtx.RepeatedTotal := by rw [htot]; exact hi
    simp only [hle, if_true, hreg]
    rw [hcb]
    exact ih _ _ _ _ _ htot (wrapInt64_le_max _) hreg

/-- A stored context with batches left, a total below the largest `int64` and a
registered callback that leaves the keeper alone: with enough fuel
`StartRequestContext` returns nil after one callback invocation per remaining
batch, and the store holds the last batch. -/
theorem StartRequestContext_runs (interp : CallbackId → ResponseCallback)
    (m : MockServiceKeeper) (ctx : Context) (id : String) (c : RequestContext)
    (cb : CallbackId) (hstored : m.cxtMap id = some c)
    (hreg : m.callbackMap c.ModuleName = some cb) (hcb : keepsKeeper (interp cb))
    (hlt : (c.BatchCounter : Int) < c.RepeatedTotal) (hmax : c.RepeatedTotal < maxInt64)
    (fuel : Nat) (hfuel : c.RepeatedTotal - c.BatchCounter < fuel) :
    ∃ m2 : MockServiceKeeper,
      StartRequestContext interp fuel m ctx id
          = some (Outcome.returned none m2
              ((List.range (c.RepeatedTotal - c.BatchCounter).toNat).map
                (batchRecord cb id c ctx (c.BatchCounter + 1))))
        ∧ m2.callbackMap = m.callbackMap
        ∧ (∀ key, key ≠ id → m2.cxtMap key = m.cxtMap key)
        ∧ m2.cxtMap id
            = some { c with BatchCounter := c.RepeatedTotal.toNat,
                            State := RequestContextState.Running } := by
  have hmax2 : c.RepeatedTotal < 9223372036854775807 := by
    unfold maxInt64 at hmax; exact hmax
  have hb : wrapUint64 ((c.BatchCounter : Int) + 1) = c.BatchCounter + 1 := by
    have := wrapUint64_natCast (c.BatchCounter + 1) (by omega)
    simpa using this
  have hi : wrapInt64 ((c.BatchCounter + 1 : Nat) : Int) = (c.BatchCounter : Int) + 1 := by
    rw [wrapInt64_of_range]
    · push_cast; rfl
    · unfold minInt64; omega
    · unfold maxInt64; omega
  obtain ⟨m2, hrun, hcbm, hother, -, hpos⟩ :=
    startLoop_runs interp id cb hcb (c.RepeatedTotal - c.BatchCounter).toNat
      ((c.BatchCounter : Int) + 1) c ctx m [] hreg (by omega) hmax
      (by unfold minInt64; omega)
  refine ⟨m2, ?_, hcbm, hother, ?_⟩
  · unfold StartRequestContext
    simp only [hstored, Option.getD_some, hb, hi]
    have := startLoop_fuel_mono interp id _ fuel (by omega) _ _ _ _ _ _ hrun
    simpa using this
  · rw [hpos (by omega)]
    rw [wrapUint64_of_range _ (by omega) (by omega)]

/-- The creation stores the context under the identifier `mockRequest`. -/
theorem CreateRequestContext_stored (m : MockServiceKeeper) (ctx : Context)
    (serviceName : String) (providers : List AccAddress) (consumer : AccAddress)
    (input : String) (serviceFeeCap : Coins) (timeout : Int) (repeated : Bool)
    (repeatedFrequency : Nat) (repeatedTotal : Int) (state : RequestContextState)
    (respThreshold : Nat) (moduleName : String) :
    (CreateRequestContext m ctx serviceName providers consumer input serviceFeeCap timeout
        repeated repeatedFrequency repeatedTotal state respThreshold moduleName).keeper.cxtMap
      "mockRequest"
      = some (createdContext serviceName providers consumer input serviceFeeCap timeout
          repeated repeatedFrequency repeatedTotal state respThreshold moduleName) := by
  simp [CreateRequestContext, createdContext]

/-! ## C1: registering a callback twice -/

/-- Claim C1, counterexample: on a fresh keeper the registration of a second
callback under the name `oracle` returns nil like the first one did, and the
second callback is the one now registered. -/
theorem RegisterResponseCallback_twice_returns_nil :
    (RegisterResponseCallback NewMockServiceKeeper "oracle" 1).2 = none ∧
    (RegisterResponseCallback
        (RegisterResponseCallback NewMockServiceKeeper "oracle" 1).1 "oracle" 2).2 = none ∧
    (RegisterResponseCallback
        (RegisterResponseCallback NewMockServiceKeeper "oracle" 1).1 "oracle" 2).1.callbackMap
          "oracle" = some 2 := by
  decide

/-- Claim C1, amended: `RegisterResponseCallback` never fails.  A second registration
under the same module name returns nil, replaces the callback registered first,
and leaves the callbacks of all other names and the stored contexts as they were. -/
theorem RegisterResponseCallback_overwrites (m : MockServiceKeeper) (moduleName : String)
    (cb1 cb2 : CallbackId) :
    (RegisterResponseCallback m moduleName cb1).2 = none ∧
    (RegisterResponseCallback (RegisterResponseCallback m moduleName cb1).1 moduleName cb2).2
      = none ∧
    (RegisterResponseCallback (RegisterResponseCallback m moduleName cb1).1 moduleName
      cb2).1.callbackMap moduleName = some cb2 ∧
    (∀ other, other ≠ moduleName →
      (RegisterResponseCallback (RegisterResponseCallback m moduleName cb1).1 moduleName
        cb2).1.callbackMap other = m.callbackMap other) ∧
    (RegisterResponseCallback (RegisterResponseCallback m moduleName cb1).1 moduleName
      cb2).1.cxtMap = m.cxtMap := by
  refine ⟨rfl, rfl, ?_, ?_, rfl⟩
  · simp [RegisterResponseCallback]
  · intro other hne
    simp [RegisterResponseCallback, Function.update_noteq hne]

/-! ## C2: one callback invocation per remaining batch -/

/-- Claim C2, at the failing input: a context created with `repeatedTotal` the largest
`int64` (batch counter 0) and a registered callback that leaves the keeper alone.
`StartRequestContext` never returns, whatever the fuel: the loop test
`i <= reqCtx.RepeatedTotal` cannot fail and `i++` wraps round. -/
theorem StartRequestContext_maxTotal_never_returns (fuel : Nat) :
    StartRequestContext idleCallbacks fuel keeperMaxTotal ctx0 "mockRequest" = none := by
  unfold StartRequestContext
  exact startLoop_maxTotal idleCallbacks "mockRequest" 1 (fun _ _ _ _ => rfl) fuel _ _ _ _ _
    rfl (wrapInt64_le_max _) rfl

/-! ## C3: the state after the last batch -/

/-- Claim C3, counterexample: a repeated context of three batches, created with batch
counter 0 under a registered callback.  `StartRequestContext` returns nil after
three callback invocations and the stored state is `Running`, not `Completed`. -/
theorem StartRequestContext_three_batches_ends_Running :
    (StartRequestContext idleCallbacks 4 keeperThree ctx0 "mockRequest").map
        (Outcome.summary "mockRequest")
      = some (true, 3, some (RequestContextState.Running, 3)) := by
  decide

/-- Claim C3, amended: for a repeated context created with a total `N`,
`1 ≤ N < 2^63 - 1`, in whatever state, under a registered callback that leaves the
keeper alone, `StartRequestContext` (with fuel above `N`) returns nil after `N`
callback invocations, and the context then stored has state `Running`, not
`Completed`, and batch counter `N`. -/
theorem StartRequestContext_repeated_ends_Running (interp : CallbackId → ResponseCallback)
    (m : MockServiceKeeper) (ctx : Context) (serviceName : String)
    (providers : List AccAddress) (consumer : AccAddress) (input : String)
    (serviceFeeCap : Coins) (timeout : Int) (repeatedFrequency : Nat) (N : Int)
    (state : RequestContextState) (respThreshold : Nat) (moduleName : String)
    (cb : CallbackId) (r : CreateResult)
    (hr : CreateRequestContext m ctx serviceName providers consumer input serviceFeeCap
            timeout true repeatedFrequency N state respThreshold moduleName = r)
    (hreg : m.callbackMap moduleName = some cb) (hcb : keepsKeeper (interp cb))
    (h1 : 1 ≤ N) (hmax : N < maxInt64) (fuel : Nat) (hfuel : N < fuel) :
    ∃ o : Outcome,
      StartRequestContext interp fuel r.keeper ctx r.id = some o
        ∧ o.returnedNil = true
        ∧ o.calls.length = N.toNat
        ∧ (GetRequestContext o.keeper ctx r.id).2 = true
        ∧ (GetRequestContext o.keeper ctx r.id).1.State = RequestContextState.Running
        ∧ ((GetRequestContext o.keeper ctx r.id).1.BatchCounter : Int) = N := by
  subst hr
  obtain ⟨m2, hrun, -, -, hfin⟩ :=
    StartRequestContext_runs interp
      (CreateRequestContext m ctx serviceName providers consumer input serviceFeeCap
        timeout true repeatedFrequency N state respThreshold moduleName).keeper
      ctx "mockRequest"
      (createdContext serviceName providers consumer input serviceFeeCap timeout true
        repeatedFrequency N state respThreshold moduleName)
      cb (CreateRequestContext_stored _ _ _ _ _ _ _ _ _ _ _ _ _ _) hreg hcb
      (by simp only [createdContext]; omega) hmax fuel
      (by simp only [createdContext]; omega)
  refine ⟨_, hrun, rfl, ?_, ?_, ?_, ?_⟩
  · simp [Outcome.calls, createdContext]
  · simp [GetRequestContext, Outcome.keeper, CreateRequestContext, hfin]
  · simp [GetRequestContext, Outcome.keeper, CreateRequestContext, hfin]
  · simp only [GetRequestContext, Outcome.keeper, CreateRequestContext, hfin, createdContext]
    omega

/-- Claim C3, the amended claim at a concrete input: the three-batch context of
`keeperThree`, started with fuel 4. -/
theorem StartRequestContext_repeated_ends_Running_witness :
    ∃ o : Outcome,
      StartRequestContext idleCallbacks 4 keeperThree ctx0 "mockRequest" = some o
        ∧ o.returnedNil = true
        ∧ o.calls.length = (3 : Int).toNat
        ∧ (GetRequestContext o.keeper ctx0 "mockRequest").2 = true
        ∧ (GetRequestContext o.keeper ctx0 "mockRequest").1.State
            = RequestContextState.Running
        ∧ ((GetRequestContext o.keeper ctx0 "mockRequest").1.BatchCounter : Int) = 3 :=
  StartRequestContext_repeated_ends_Running idleCallbacks
    (RegisterResponseCallback NewMockServiceKeeper "oracle" 1).1 ctx0
    "price" [[1], [2], [3]] [9] "in" [] 5 10 3 RequestContextState.Running 2 "oracle" 1
    _ rfl (by decide) (fun _ _ _ _ => rfl) (by decide) (by decide) 4 (by decide)

/-! ## C4: starting an exhausted or completed context -/

/-- Claim C4, counterexample: after the three batches of `keeperThree` have run, a
second `StartRequestContext` on the exhausted context returns nil, not an error;
and a context stored as `Completed` with two batches left is started like any
other: two callback invocations, nil returned. -/
theorem StartRequestContext_exhausted_or_Completed_no_error :
    ((StartRequestContext idleCallbacks 4 keeperThree ctx0 "mockRequest").bind
        (fun o => StartRequestContext idleCallbacks 1 o.keeper ctx0 "mockRequest")).map
        (Outcome.summary "mockRequest")
      = some (true, 0, some (RequestContextState.Running, 3)) ∧
    (StartRequestContext idleCallbacks 3 keeperCompleted ctx0 "mockRequest").map
        (Outcome.summary "mockRequest")
      = some (true, 2, some (RequestContextState.Running, 2)) := by
  decide

/-- Claim C4, amended: for every stored context whose batches are exhausted
(`BatchCounter = RepeatedTotal`, below `2^63 - 1`), whatever its state,
`StartRequestContext` returns nil, runs no batch, invokes no callback and leaves
the keeper as it was. -/
theorem StartRequestContext_exhausted_returns_nil (interp : CallbackId → ResponseCallback)
    (m : MockServiceKeeper) (ctx : Context) (id : String) (c : RequestContext)
    (hstored : m.cxtMap id = some c) (hex : (c.BatchCounter : Int) = c.RepeatedTotal)
    (hmax : c.RepeatedTotal < maxInt64) (fuel : Nat) (hfuel : 0 < fuel) :
    StartRequestContext interp fuel m ctx id = some (Outcome.returned none m []) := by
  have hmax2 : c.RepeatedTotal < 9223372036854775807 := by
    unfold maxInt64 at hmax; exact hmax
  have hb : wrapUint64 ((c.BatchCounter : Int) + 1) = c.BatchCounter + 1 := by
    have := wrapUint64_natCast (c.BatchCounter + 1) (by omega)
    simpa using this
  have hi : wrapInt64 ((c.BatchCounter + 1 : Nat) : Int) = (c.BatchCounter : Int) + 1 := by
    rw [wrapInt64_of_range]
    · push_cast; rfl
    · unfold minInt64; omega
    · unfold maxInt64; omega
  obtain ⟨n, rfl⟩ : ∃ n, fuel = n + 1 := ⟨fuel - 1, by omega⟩
  unfold StartRequestContext
  simp only [hstored, Option.getD_some, hb, hi]
  exact startLoop_exit interp id n _ c ctx m [] (by omega)

/-- Claim C4, the amended claim at a concrete input: the exhausted context of
`keeperExhausted`. -/
theorem StartRequestContext_exhausted_returns_nil_witness :
    StartRequestContext idleCallbacks 1 keeperExhausted ctx0 "mockRequest"
      = some (Outcome.returned none keeperExhausted []) :=
  StartRequestContext_exhausted_returns_nil idleCallbacks keeperExhausted ctx0 "mockRequest"
    { zeroRequestContext with
        RepeatedTotal := 3, BatchCounter := 3,
        State := RequestContextState.Completed, ModuleName := "oracle" }
    rfl (by decide) (by decide) 1 (by decide)

/-! ## C5: a context that is not repeated -/

/-- Claim C5, counterexample: a context created with `repeated = false` and
`repeatedTotal = 5` keeps the total 5; starting it invokes the callback five times
and leaves batch counter 5 and state `Running`. -/
theorem StartRequestContext_not_repeated_runs_five :
    (GetRequestContext (keeperOneShot 5) ctx0 "mockRequest").1.Repeated = false ∧
    (GetRequestContext (keeperOneShot 5) ctx0 "mockRequest").1.RepeatedTotal = 5 ∧
    (StartRequestContext idleCallbacks 6 (keeperOneShot 5) ctx0 "mockRequest").map
        (Outcome.summary "mockRequest")
      = some (true, 5, some (RequestContextState.Running, 5)) := by
  decide

/-- Claim C5, amended: a context created with `repeated = false` keeps the total `T`
the caller supplied.  For `1 ≤ T < 2^63 - 1` and a registered callback that leaves
the keeper alone, starting it returns nil after exactly `T` callback invocations,
with batch counter `T` and state `Running` in the store; exactly one batch runs
when `T = 1`. -/
theorem StartRequestContext_not_repeated_runs_total (interp : CallbackId → ResponseCallback)
    (m : MockServiceKeeper) (ctx : Context) (serviceName : String)
    (providers : List AccAddress) (consumer : AccAddress) (input : String)
    (serviceFeeCap : Coins) (timeout : Int) (repeatedFrequency : Nat) (T : Int)
    (state : RequestContextState) (respThreshold : Nat) (moduleName : String)
    (cb : CallbackId) (r : CreateResult)
    (hr : CreateRequestContext m ctx serviceName providers consumer input serviceFeeCap
            timeout false repeatedFrequency T state respThreshold moduleName = r)
    (hreg : m.callbackMap moduleName = some cb) (hcb : keepsKeeper (interp cb))
    (h1 : 1 ≤ T) (hmax : T < maxInt64) (fuel : Nat) (hfuel : T < fuel) :
    (GetRequestContext r.keeper ctx r.id).1.RepeatedTotal = T ∧
    ∃ o : Outcome,
      StartRequestContext interp fuel r.keeper ctx r.id = some o
        ∧ o.returnedNil = true
        ∧ o.calls.length = T.toNat
        ∧ (GetRequestContext o.keeper ctx r.id).2 = true
        ∧ (GetRequestContext o.keeper ctx r.id).1.State = RequestContextState.Running
        ∧ ((GetRequestContext o.keeper ctx r.id).1.BatchCounter : Int) = T := by
  subst hr
  obtain ⟨m2, hrun, -, -, hfin⟩ :=
    StartRequestContext_runs interp
      (CreateRequestContext m ctx serviceName providers consumer input serviceFeeCap
        timeout false repeatedFrequency T state respThreshold moduleName).keeper
      ctx "mockRequest"
      (createdContext serviceName providers consumer input serviceFeeCap timeout false
        repeatedFrequency T state respThreshold moduleName)
      cb (CreateRequestContext_stored _ _ _ _ _ _ _ _ _ _ _ _ _ _) hreg hcb
      (by simp only [createdContext]; omega) hmax fuel
      (by simp only [createdContext]; omega)
  refine ⟨?_, _, hrun, rfl, ?_, ?_, ?_, ?_⟩
  · simp [GetRequestContext, CreateRequestContext]
  · simp [Outcome.calls, createdContext]
  · simp [GetRequestContext, Outcome.keeper, CreateRequestContext, hfin]
  · simp [GetRequestContext, Outcome.keeper, CreateRequestContext, hfin]
  · simp only [GetRequestContext, Outcome.keeper, CreateRequestContext, hfin, createdContext]
    omega

/-- Claim C5, the amended claim at a concrete input: `repeated = false` with total 1
runs one batch. -/
theorem StartRequestContext_not_repeated_runs_total_witness :
    (GetRequestContext (keeperOneShot 1) ctx0 "mockRequest").1.RepeatedTotal = 1 ∧
    ∃ o : Outcome,
      StartRequestContext idleCallbacks 2 (keeperOneShot 1) ctx0 "mockRequest" = some o
        ∧ o.returnedNil = true
        ∧ o.calls.length = (1 : Int).toNat
        ∧ (GetRequestContext o.keeper ctx0 "mockRequest").2 = true
        ∧ (GetRequestContext o.keeper ctx0 "mockRequest").1.State
            = RequestContextState.Running
        ∧ ((GetRequestContext o.keeper ctx0 "mockRequest").1.BatchCounter : Int) = 1 :=
  StartRequestContext_not_repeated_runs_total idleCallbacks
    (RegisterResponseCallback NewMockServiceKeeper "oracle" 1).1 ctx0
    "price" [[1], [2], [3]] [9] "in" [] 5 0 1 RequestContextState.Pause 2 "oracle" 1
    _ rfl (by decide) (fun _ _ _ _ => rfl) (by decide) (by decide) 2 (by decide)

/-! ## C6: creation validates nothing -/

/-- Claim C6, counterexample: the creation `createInvalid` (no provider and threshold
1, timeout 0, repeated with frequency 0) returns nil and the context is in the
store, its threshold above its number of providers. -/
theorem CreateRequestContext_accepts_invalid :
    createInvalid.err = none ∧
    (GetRequestContext createInvalid.keeper ctx0 createInvalid.id).2 = true ∧
    (GetRequestContext createInvalid.keeper ctx0 createInvalid.id).1.ResponseThreshold = 1 ∧
    (GetRequestContext createInvalid.keeper ctx0 createInvalid.id).1.Providers.length = 0 ∧
    (GetRequestContext createInvalid.keeper ctx0 createInvalid.id).1.Timeout = 0 ∧
    (GetRequestContext createInvalid.keeper ctx0 createInvalid.id).1.Repeated = true ∧
    (GetRequestContext createInvalid.keeper ctx0 createInvalid.id).1.RepeatedFrequency = 0 := by
  decide

/-- Claim C6, amended: `CreateRequestContext` validates nothing.  For all arguments,
also a threshold above the number of providers, a timeout that is not positive or
a repeated context with frequency 0, it returns nil and the context is stored
under the returned identifier with the threshold, providers, timeout, repeated
flag and frequency it was given. -/
theorem CreateRequestContext_never_fails (m : MockServiceKeeper) (ctx : Context)
    (serviceName : String) (providers : List AccAddress) (consumer : AccAddress)
    (input : String) (serviceFeeCap : Coins) (timeout : Int) (repeated : Bool)
    (repeatedFrequency : Nat) (repeatedTotal : Int) (state : RequestContextState)
    (respThreshold : Nat) (moduleName : String) (r : CreateResult)
    (hr : CreateRequestContext m ctx serviceName providers consumer input serviceFeeCap
            timeout repeated repeatedFrequency repeatedTotal state respThreshold
            moduleName = r) :
    r.err = none ∧
    (GetRequestContext r.keeper ctx r.id).2 = true ∧
    (GetRequestContext r.keeper ctx r.id).1.ResponseThreshold = respThreshold ∧
    (GetRequestContext r.keeper ctx r.id).1.Providers = providers ∧
    (GetRequestContext r.keeper ctx r.id).1.Timeout = timeout ∧
    (GetRequestContext r.keeper ctx r.id).1.Repeated = repeated ∧
    (GetRequestContext r.keeper ctx r.id).1.RepeatedFrequency = repeatedFrequency := by
  subst hr
  simp [CreateRequestContext, GetRequestContext]

/-- Claim C6, the amended claim at a concrete input: the creation `createInvalid`. -/
theorem CreateRequestContext_never_fails_witness :
    createInvalid.err = none ∧
    (GetRequestContext createInvalid.keeper ctx0 createInvalid.id).2 = true ∧
    (GetRequestContext createInvalid.keeper ctx0 createInvalid.id).1.ResponseThreshold = 1 ∧
    (GetRequestContext createInvalid.keeper ctx0 createInvalid.id).1.Providers = [] ∧
    (GetRequestContext createInvalid.keeper ctx0 createInvalid.id).1.Timeout = 0 ∧
    (GetRequestContext createInvalid.keeper ctx0 createInvalid.id).1.Repeated = true ∧
    (GetRequestContext createInvalid.keeper ctx0 createInvalid.id).1.RepeatedFrequency = 0 :=
  CreateRequestContext_never_fails NewMockServiceKeeper ctx0 "price" [] [9] "in" [] 0 true 0 3
    RequestContextState.Running 1 "oracle" createInvalid rfl

/-! ## C7: creation then lookup -/

/-- Claim C7: `CreateRequestContext` succeeds, and looking up the identifier it
returns finds a context whose fields are the arguments of the creation, whose
state is the initial state supplied and whose batch counter is 0. -/
theorem GetRequestContext_after_CreateRequestContext (m : MockServiceKeeper)
    (ctx ctx2 : Context) (serviceName : String) (providers : List AccAddress)
    (consumer : AccAddress) (input : String) (serviceFeeCap : Coins) (timeout : Int)
    (repeated : Bool) (repeatedFrequency : Nat) (repeatedTotal : Int)
    (state : RequestContextState) (respThreshold : Nat) (moduleName : String) :
    (CreateRequestContext m ctx serviceName providers consumer input serviceFeeCap timeout
        repeated repeatedFrequency repeatedTotal state respThreshold moduleName).err = none ∧
    GetRequestContext
        (CreateRequestContext m ctx serviceName providers consumer input serviceFeeCap timeout
          repeated repeatedFrequency repeatedTotal state respThreshold moduleName).keeper
        ctx2
        (CreateRequestContext m ctx serviceName providers consumer input serviceFeeCap timeout
          repeated repeatedFrequency repeatedTotal state respThreshold moduleName).id
      = ({ ServiceName := serviceName, Providers := providers, Consumer := consumer,
           Input := input, ServiceFeeCap := serviceFeeCap, Timeout := timeout,
           Repeated := repeated, RepeatedFrequency := repeatedFrequency,
           RepeatedTotal := repeatedTotal, BatchCounter := 0, State := state,
           ResponseThreshold := respThreshold, ModuleName := moduleName }, true) := by
  simp [CreateRequestContext, GetRequestContext]

/-! ## C8: the identifier of a creation -/

/-- Claim C8, counterexample: the first creation returned `mockRequest` and its context
ran three batches; the second creation on the same keeper returns `mockRequest`
again, and the context found under it is the second one, batch counter 0. -/
theorem CreateRequestContext_same_identifier_twice :
    (CreateRequestContext (RegisterResponseCallback NewMockServiceKeeper "oracle" 1).1 ctx0
      "price" [[1], [2], [3]] [9] "in" [] 5 true 10 3 RequestContextState.Running 2
      "oracle").id = "mockRequest" ∧
    (StartRequestContext idleCallbacks 4 keeperThree ctx0 "mockRequest").map
        (Outcome.summary "mockRequest")
      = some (true, 3, some (RequestContextState.Running, 3)) ∧
    keeperRecreated.map (fun r => r.id) = some "mockRequest" ∧
    keeperRecreated.map
        (fun r => ((GetRequestContext r.keeper ctx0 "mockRequest").1.ServiceName,
                   (GetRequestContext r.keeper ctx0 "mockRequest").1.BatchCounter))
      = some ("rate", 0) := by
  decide

/-- Claim C8, amended: every creation returns the identifier `mockRequest`.  A creation
on any keeper, whatever context it already holds under that identifier and
whatever the batch counter of that context, succeeds with the same identifier
and replaces the context: the lookup then finds the new context with batch
counter 0.  Contexts under other identifiers and the callbacks stay as they were. -/
theorem CreateRequestContext_overwrites (m : MockServiceKeeper) (ctx : Context)
    (serviceName : String) (providers : List AccAddress)
    (consumer : AccAddress) (input : String) (serviceFeeCap : Coins) (timeout : Int)
    (repeated : Bool) (repeatedFrequency : Nat) (repeatedTotal : Int)
    (state : RequestContextState) (respThreshold : Nat) (moduleName : String)
    (r : CreateResult)
    (hr : CreateRequestContext m ctx serviceName providers consumer input serviceFeeCap
            timeout repeated repeatedFrequency repeatedTotal state respThreshold
            moduleName = r) :
    r.err = none ∧ r.id = "mockRequest" ∧
    GetRequestContext r.keeper ctx r.id
      = ({ ServiceName := serviceName, Providers := providers, Consumer := consumer,
           Input := input, ServiceFeeCap := serviceFeeCap, Timeout := timeout,
           Repeated := repeated, RepeatedFrequency := repeatedFrequency,
           RepeatedTotal := repeatedTotal, BatchCounter := 0, State := state,
           ResponseThreshold := respThreshold, ModuleName := moduleName }, true) ∧
    (∀ key, key ≠ "mockRequest" → r.keeper.cxtMap key = m.cxtMap key) ∧
    r.keeper.callbackMap = m.callbackMap := by
  subst hr
  refine ⟨rfl, rfl, ?_, ?_, rfl⟩
  · simp [CreateRequestContext, GetRequestContext]
  · intro key hkey
    simp [CreateRequestContext, Function.update_noteq hkey]

/-- Claim C8, the amended claim at a concrete input: a second creation on
`keeperThree`, which holds the three-batch context. -/
theorem CreateRequestContext_overwrites_witness :
    createSecond.err = none ∧ createSecond.id = "mockRequest" ∧
    GetRequestContext createSecond.keeper ctx0 createSecond.id
      = ({ ServiceName := "rate", Providers := [[7]], Consumer := [8],
           Input := "other", ServiceFeeCap := [], Timeout := 9,
           Repeated := false, RepeatedFrequency := 0,
           RepeatedTotal := 1, BatchCounter := 0, State := RequestContextState.Pause,
           ResponseThreshold := 1, ModuleName := "oracle" }, true) ∧
    (∀ key, key ≠ "mockRequest" → createSecond.keeper.cxtMap key = keeperThree.cxtMap key) ∧
    createSecond.keeper.callbackMap = keeperThree.callbackMap :=
  CreateRequestContext_overwrites keeperThree ctx0
    "rate" [[7]] [8] "other" [] 9 false 0 1 RequestContextState.Pause 1 "oracle"
    createSecond rfl

/-! ## C9: pause, then start again -/

/-- A pause followed by a start when the module has no registered callback: a stored
context with batch counter 0 and total 3.  After `PauseRequestContext`,
`StartRequestContext` stores batch 1 and then panics on the nil callback: it does
not return, no callback has been invoked and the batches 2 and 3 never run. -/
theorem PauseRequestContext_then_Start_without_callback :
    (GetRequestContext keeperNoCallback ctx0 "mockRequest").1.BatchCounter = 0 ∧
    (GetRequestContext keeperNoCallback ctx0 "mockRequest").1.RepeatedTotal = 3 ∧
    (StartRequestContext idleCallbacks 4
        (PauseRequestContext keeperNoCallback ctx0 "mockRequest").1 ctx0 "mockRequest").map
        (Outcome.summary "mockRequest")
      = some (false, 0, some (RequestContextState.Running, 1)) := by
  decide

/-- A pause followed by a start below the largest `int64`: for every stored context
with batch counter `b` and total `N`, `b < N < 2^63 - 1`, whose module has a
registered callback that leaves the keeper alone, `PauseRequestContext` followed by
`StartRequestContext` (with fuel above `N - b`) returns nil after `N - b` callback
invocations; the batch counters found in the store by these invocations are
`b + 1, b + 2, ..., N` in this order, so the first one sees `b + 1`, and the store
ends with batch counter `N`. -/
theorem PauseRequestContext_then_Start_resumes (interp : CallbackId → ResponseCallback)
    (m : MockServiceKeeper) (ctx ctx2 : Context) (id : String) (c : RequestContext)
    (cb : CallbackId) (hstored : m.cxtMap id = some c)
    (hreg : m.callbackMap c.ModuleName = some cb) (hcb : keepsKeeper (interp cb))
    (hlt : (c.BatchCounter : Int) < c.RepeatedTotal) (hmax : c.RepeatedTotal < maxInt64)
    (fuel : Nat) (hfuel : c.RepeatedTotal - c.BatchCounter < fuel) :
    (PauseRequestContext m ctx id).2 = none ∧
    ∃ o : Outcome,
      StartRequestContext interp fuel (PauseRequestContext m ctx id).1 ctx2 id = some o
        ∧ o.returnedNil = true
        ∧ o.calls.length = (c.RepeatedTotal - c.BatchCounter).toNat
        ∧ o.calls.map (fun r => r.stored.map (fun s => s.BatchCounter))
            = (List.range (c.RepeatedTotal - c.BatchCounter).toNat).map
                (fun j => some (c.BatchCounter + 1 + j))
        ∧ (∀ r ∈ o.calls, r.callback = cb ∧ r.requestContextID = id)
        ∧ (o.keeper.cxtMap id).map (fun s => (s.BatchCounter : Int))
            = some c.RepeatedTotal := by
  have hmax2 : c.RepeatedTotal < 9223372036854775807 := by
    unfold maxInt64 at hmax; exact hmax
  refine ⟨rfl, ?_⟩
  have hst : (PauseRequestContext m ctx id).1.cxtMap id
      = some { c with State := RequestContextState.Pause } := by
    simp [PauseRequestContext, hstored]
  obtain ⟨m2, hrun, -, -, hfin⟩ :=
    StartRequestContext_runs interp (PauseRequestContext m ctx id).1 ctx2 id
      { c with State := RequestContextState.Pause } cb hst hreg hcb hlt hmax fuel hfuel
  refine ⟨_, hrun, rfl, ?_, ?_, ?_, ?_⟩
  · simp [Outcome.calls]
  · simp only [Outcome.calls, List.map_map]
    apply List.map_congr_left
    intro j hj
    have hj2 : j < (c.RepeatedTotal - c.BatchCounter).toNat := List.mem_range.mp hj
    simp only [Function.comp, batchRecord, Option.map_some']
    congr 1
    have := wrapUint64_natCast (c.BatchCounter + 1 + j) (by omega)
    simpa using this
  · intro r hr
    simp only [Outcome.calls, List.mem_map] at hr
    obtain ⟨j, -, rfl⟩ := hr
    exact ⟨rfl, rfl⟩
  · simp only [Outcome.keeper, hfin, Option.map_some']
    congr 1
    omega

/-- The context of `keeperOneOfThree` (one batch of three done) is paused and started
again; batches 2 and 3 run. -/
theorem PauseRequestContext_then_Start_resumes_witness :
    (PauseRequestContext keeperOneOfThree ctx0 "mockRequest").2 = none ∧
    ∃ o : Outcome,
      StartRequestContext idleCallbacks 3
          (PauseRequestContext keeperOneOfThree ctx0 "mockRequest").1 ctx0 "mockRequest"
          = some o
        ∧ o.returnedNil = true
        ∧ o.calls.length = ((3 : Int) - (1 : Nat)).toNat
        ∧ o.calls.map (fun r => r.stored.map (fun s => s.BatchCounter))
            = (List.range ((3 : Int) - (1 : Nat)).toNat).map (fun j => some (1 + 1 + j))
        ∧ (∀ r ∈ o.calls, r.callback = 1 ∧ r.requestContextID = "mockRequest")
        ∧ (o.keeper.cxtMap "mockRequest").map (fun s => (s.BatchCounter : Int))
            = some 3 :=
  PauseRequestContext_then_Start_resumes idleCallbacks keeperOneOfThree ctx0 ctx0
    "mockRequest"
    { zeroRequestContext with
        RepeatedTotal := 3, BatchCounter := 1,
        State := RequestContextState.Running, ModuleName := "oracle" }
    1 rfl (by decide) (fun _ _ _ _ => rfl) (by decide) (by decide) 3 (by decide)

/-- Claim C9 (not as stated): for a stored context with batch counter `b` and total
`N > b` whose module has a registered callback that leaves the keeper alone,
`PauseRequestContext` followed by `StartRequestContext` does what the claim says
for every `N < 2^63 - 1`: with fuel above `N - b` the call returns nil after
`N - b` callback invocations, the first of which finds batch counter `b + 1` in the
store, the next ones `b + 2, ..., N`.  For `N = 2^63 - 1` the call does not run
`N - b` batches in total: the loop test holds for every `int64`, and no amount of
fuel brings the call to its end. -/
theorem PauseRequestContext_then_Start_maxTotal (interp : CallbackId → ResponseCallback)
    (m : MockServiceKeeper) (ctx ctx2 : Context) (id : String) (c : RequestContext)
    (cb : CallbackId) (hstored : m.cxtMap id = some c)
    (hreg : m.callbackMap c.ModuleName = some cb) (hcb : keepsKeeper (interp cb))
    (hlt : (c.BatchCounter : Int) < c.RepeatedTotal) :
    (c.RepeatedTotal = maxInt64 →
      ∀ fuel : Nat,
        StartRequestContext interp fuel (PauseRequestContext m ctx id).1 ctx2 id = none) ∧
    (c.RepeatedTotal < maxInt64 →
      ∀ fuel : Nat, c.RepeatedTotal - c.BatchCounter < fuel →
        ∃ o : Outcome,
          StartRequestContext interp fuel (PauseRequestContext m ctx id).1 ctx2 id = some o
            ∧ o.returnedNil = true
            ∧ o.calls.length = (c.RepeatedTotal - c.BatchCounter).toNat
            ∧ o.calls.map (fun r => r.stored.map (fun s => s.BatchCounter))
                = (List.range (c.RepeatedTotal - c.BatchCounter).toNat).map
                    (fun j => some (c.BatchCounter + 1 + j))) := by
  constructor
  · intro htot fuel
    have hst : (PauseRequestContext m ctx id).1.cxtMap id
        = some { c with State := RequestContextState.Pause } := by
      simp [PauseRequestContext, hstored]
    unfold StartRequestContext
    rw [hst]
    exact startLoop_maxTotal interp id cb hcb fuel _ _ ctx2 _ [] htot (wrapInt64_le_max _) hreg
  · intro hmax fuel hfuel
    obtain ⟨-, o, hrun, hnil, hlen, hseen, -, -⟩ :=
      PauseRequestContext_then_Start_resumes interp m ctx ctx2 id c cb hstored hreg hcb hlt
        hmax fuel hfuel
    exact ⟨o, hrun, hnil, hlen, hseen⟩

/-- Claim C9 at concrete inputs: the context of `keeperMaxTotal`, created with the total
`2^63 - 1` under a registered callback, is paused and started: the call ends for no
fuel.  The context of `keeperOneOfThree` is paused and started with fuel 3: batches
2 and 3 run. -/
theorem PauseRequestContext_then_Start_maxTotal_witness :
    (∀ fuel : Nat,
      StartRequestContext idleCallbacks fuel
        (PauseRequestContext keeperMaxTotal ctx0 "mockRequest").1 ctx0 "mockRequest" = none) ∧
    (∃ o : Outcome,
      StartRequestContext idleCallbacks 3
          (PauseRequestContext keeperOneOfThree ctx0 "mockRequest").1 ctx0 "mockRequest"
          = some o
        ∧ o.returnedNil = true
        ∧ o.calls.length = 2
        ∧ o.calls.map (fun r => r.stored.map (fun s => s.BatchCounter)) = [some 2, some 3]) :=
  ⟨(PauseRequestContext_then_Start_maxTotal idleCallbacks keeperMaxTotal ctx0 ctx0
      "mockRequest"
      (createdContext "price" [[1], [2], [3]] [9] "in" [] 5 true 10 maxInt64
        RequestContextState.Running 2 "oracle")
      1 rfl (by decide) (fun _ _ _ _ => rfl) (by decide)).1 rfl,
   (PauseRequestContext_then_Start_maxTotal idleCallbacks keeperOneOfThree ctx0 ctx0
      "mockRequest"
      { zeroRequestContext with
          RepeatedTotal := 3, BatchCounter := 1,
          State := RequestContextState.Running, ModuleName := "oracle" }
      1 rfl (by decide) (fun _ _ _ _ => rfl) (by decide)).2 (by decide) 3 (by decide)⟩

/-! ## C10: what a pause changes -/

/-- Claim C10: for every stored context, in state `Running` or in any other,
`PauseRequestContext` returns nil, stores the same context with state `Pause` and
every other field as it was, and leaves every other stored context and the
callback registry unchanged. -/
theorem PauseRequestContext_frame (m : MockServiceKeeper) (ctx : Context) (id : String)
    (c : RequestContext) (hstored : m.cxtMap id = some c) :
    (PauseRequestContext m ctx id).2 = none ∧
    (PauseRequestContext m ctx id).1.cxtMap id
      = some { ServiceName := c.ServiceName, Providers := c.Providers,
               Consumer := c.Consumer, Input := c.Input,
               ServiceFeeCap := c.ServiceFeeCap, Timeout := c.Timeout,
               Repeated := c.Repeated, RepeatedFrequency := c.RepeatedFrequency,
               RepeatedTotal := c.RepeatedTotal, BatchCounter := c.BatchCounter,
               State := RequestContextState.Pause,
               ResponseThreshold := c.ResponseThreshold, ModuleName := c.ModuleName } ∧
    (∀ key, key ≠ id → (PauseRequestContext m ctx id).1.cxtMap key = m.cxtMap key) ∧
    (PauseRequestContext m ctx id).1.callbackMap = m.callbackMap := by
  refine ⟨rfl, ?_, ?_, rfl⟩
  · simp [PauseRequestContext, hstored]
  · intro key hkey
    simp [PauseRequestContext, Function.update_noteq hkey]

/-- Claim C10, at a concrete input: pausing the running three-batch context of
`keeperThree`. -/
theorem PauseRequestContext_frame_witness :
    (PauseRequestContext keeperThree ctx0 "mockRequest").2 = none ∧
    (PauseRequestContext keeperThree ctx0 "mockRequest").1.cxtMap "mockRequest"
      = some { ServiceName := "price", Providers := [[1], [2], [3]],
               Consumer := [9], Input := "in",
               ServiceFeeCap := [], Timeout := 5,
               Repeated := true, RepeatedFrequency := 10,
               RepeatedTotal := 3, BatchCounter := 0,
               State := RequestContextState.Pause,
               ResponseThreshold := 2, ModuleName := "oracle" } ∧
    (∀ key, key ≠ "mockRequest" →
      (PauseRequestContext keeperThree ctx0 "mockRequest").1.cxtMap key
        = keeperThree.cxtMap key) ∧
    (PauseRequestContext keeperThree ctx0 "mockRequest").1.callbackMap
      = keeperThree.callbackMap :=
  PauseRequestContext_frame keeperThree ctx0 "mockRequest"
    (createdContext "price" [[1], [2], [3]] [9] "in" [] 5 true 10 3
      RequestContextState.Running 2 "oracle")
    rfl

/-! ## C11: pausing a context that is not running -/

/-- Claim C11, counterexample: pausing the context of `keeperCompleted`, stored as
`Completed`, returns nil and the stored state is now `Pause`; pausing the context
of `keeperOneShot 1`, stored as `Pause`, returns nil as well. -/
theorem PauseRequestContext_not_Running_returns_nil :
    (keeperCompleted.cxtMap "mockRequest").map (fun c => c.State)
      = some RequestContextState.Completed ∧
    resultSummary "mockRequest" (PauseRequestContext keeperCompleted ctx0 "mockRequest")
      = (true, some (RequestContextState.Pause, 0)) ∧
    ((keeperOneShot 1).cxtMap "mockRequest").map (fun c => c.State)
      = some RequestContextState.Pause ∧
    resultSummary "mockRequest" (PauseRequestContext (keeperOneShot 1) ctx0 "mockRequest")
      = (true, some (RequestContextState.Pause, 0)) := by
  decide

/-- Claim C11, amended: `PauseRequestContext` never returns an error.  Whatever the
state of the addressed context it returns nil and stores the context with state
`Pause` and its other fields as they were: a context already in state `Pause` is
left unchanged, a `Completed` one is changed to `Pause`. -/
theorem PauseRequestContext_any_state (m : MockServiceKeeper) (ctx : Context) (id : String)
    (c : RequestContext) (hstored : m.cxtMap id = some c) :
    (PauseRequestContext m ctx id).2 = none ∧
    (PauseRequestContext m ctx id).1.cxtMap id
      = some { c with State := RequestContextState.Pause } ∧
    (c.State = RequestContextState.Pause →
      (PauseRequestContext m ctx id).1.cxtMap id = some c) ∧
    (c.State = RequestContextState.Completed →
      (PauseRequestContext m ctx id).1.cxtMap id ≠ some c) := by
  have hst : (PauseRequestContext m ctx id).1.cxtMap id
      = some { c with State := RequestContextState.Pause } := by
    simp [PauseRequestContext, hstored]
  refine ⟨rfl, hst, ?_, ?_⟩
  · intro hp
    rw [hst, ← hp]
  · intro hcomp heq
    rw [hst] at heq
    have hs := congrArg (fun o => o.map (fun x => x.State)) heq
    simp [hcomp] at hs

/-- Claim C11, the amended claim at a concrete input: the context of
`keeperCompleted`. -/
theorem PauseRequestContext_any_state_witness :
    (PauseRequestContext keeperCompleted ctx0 "mockRequest").2 = none ∧
    (PauseRequestContext keeperCompleted ctx0 "mockRequest").1.cxtMap "mockRequest"
      = some { createdContext "price" [[1], [2], [3]] [9] "in" [] 5 true 10 2
                 RequestContextState.Completed 2 "oracle" with
               State := RequestContextState.Pause } ∧
    ((createdContext "price" [[1], [2], [3]] [9] "in" [] 5 true 10 2
        RequestContextState.Completed 2 "oracle").State = RequestContextState.Pause →
      (PauseRequestContext keeperCompleted ctx0 "mockRequest").1.cxtMap "mockRequest"
        = some (createdContext "price" [[1], [2], [3]] [9] "in" [] 5 true 10 2
            RequestContextState.Completed 2 "oracle")) ∧
    ((createdContext "price" [[1], [2], [3]] [9] "in" [] 5 true 10 2
        RequestContextState.Completed 2 "oracle").State = RequestContextState.Completed →
      (PauseRequestContext keeperCompleted ctx0 "mockRequest").1.cxtMap "mockRequest"
        ≠ some (createdContext "price" [[1], [2], [3]] [9] "in" [] 5 true 10 2
            RequestContextState.Completed 2 "oracle")) :=
  PauseRequestContext_any_state keeperCompleted ctx0 "mockRequest"
    (createdContext "price" [[1], [2], [3]] [9] "in" [] 5 true 10 2
      RequestContextState.Completed 2 "oracle")
    rfl

/-! ## C12: an identifier with no stored context -/

/-- Claim C12, counterexample: on a keeper with no context, `StartRequestContext` of
the identifier `ghost` returns nil, and so does `PauseRequestContext`, after which
the lookup of `ghost` finds a context, in state `Pause`. -/
theorem Start_and_Pause_unknown_identifier_return_nil :
    (GetRequestContext keeperEmpty ctx0 "ghost").2 = false ∧
    (StartRequestContext idleCallbacks 1 keeperEmpty ctx0 "ghost").map
        (Outcome.summary "ghost") = some (true, 0, none) ∧
    (PauseRequestContext keeperEmpty ctx0 "ghost").2 = none ∧
    (GetRequestContext (PauseRequestContext keeperEmpty ctx0 "ghost").1 ctx0 "ghost").2
      = true ∧
    (GetRequestContext (PauseRequestContext keeperEmpty ctx0 "ghost").1 ctx0 "ghost").1.State
      = RequestContextState.Pause := by
  decide

/-- Claim C12, amended: for an identifier with no stored context neither call returns
an error.  `StartRequestContext` returns nil without a callback invocation and
leaves the keeper unchanged, so the lookup still finds nothing.
`PauseRequestContext` returns nil and stores under the identifier the zero-valued
context with state `Pause`, which the lookup then finds; the other identifiers and
the callbacks are unchanged. -/
theorem Start_and_Pause_unknown_identifier (interp : CallbackId → ResponseCallback)
    (m : MockServiceKeeper) (ctx : Context) (id : String) (fuel : Nat)
    (hnone : m.cxtMap id = none) (hfuel : 0 < fuel) :
    StartRequestContext interp fuel m ctx id = some (Outcome.returned none m []) ∧
    (GetRequestContext m ctx id).2 = false ∧
    (PauseRequestContext m ctx id).2 = none ∧
    GetRequestContext (PauseRequestContext m ctx id).1 ctx id
      = ({ zeroRequestContext with State := RequestContextState.Pause }, true) ∧
    (∀ key, key ≠ id → (PauseRequestContext m ctx id).1.cxtMap key = m.cxtMap key) ∧
    (PauseRequestContext m ctx id).1.callbackMap = m.callbackMap := by
  obtain ⟨n, rfl⟩ : ∃ n, fuel = n + 1 := ⟨fuel - 1, by omega⟩
  refine ⟨?_, ?_, rfl, ?_, ?_, rfl⟩
  · unfold StartRequestContext
    rw [hnone]
    exact startLoop_exit interp id n _ zeroRequestContext ctx m [] (by decide)
  · simp [GetRequestContext, hnone]
  · simp [GetRequestContext, PauseRequestContext, hnone]
  · intro key hkey
    simp [PauseRequestContext, Function.update_noteq hkey]

/-- Claim C12, the amended claim at a concrete input: the identifier `ghost` on
`keeperEmpty`. -/
theorem Start_and_Pause_unknown_identifier_witness :
    StartRequestContext idleCallbacks 1 keeperEmpty ctx0 "ghost"
      = some (Outcome.returned none keeperEmpty []) ∧
    (GetRequestContext keeperEmpty ctx0 "ghost").2 = false ∧
    (PauseRequestContext keeperEmpty ctx0 "ghost").2 = none ∧
    GetRequestContext (PauseRequestContext keeperEmpty ctx0 "ghost").1 ctx0 "ghost"
      = ({ zeroRequestContext with State := RequestContextState.Pause }, true) ∧
    (∀ key, key ≠ "ghost" →
      (PauseRequestContext keeperEmpty ctx0 "ghost").1.cxtMap key = keeperEmpty.cxtMap key) ∧
    (PauseRequestContext keeperEmpty ctx0 "ghost").1.callbackMap = keeperEmpty.callbackMap :=
  Start_and_Pause_unknown_identifier idleCallbacks keeperEmpty ctx0 "ghost" 1 rfl (by decide)

/-! ## C13, C14, C15: `UpdateRequestContext` -/

/-- Claim C13, counterexample: the context of `keeperExhausted` has batch counter 3; an
update with `repeatedTotal = 1` returns nil, it is not rejected. -/
theorem UpdateRequestContext_lower_total_returns_nil :
    (keeperExhausted.cxtMap "mockRequest").map (fun c => c.BatchCounter) = some 3 ∧
    (UpdateRequestContext keeperExhausted ctx0 "mockRequest" [[1]] [] 10 1).2 = none := by
  decide

/-- Claim C13, amended: for every stored context with batch counter `b`, an update with
a `repeatedTotal` below `b` returns nil (it is not rejected) and leaves the stored
context unchanged. -/
theorem UpdateRequestContext_lower_total (m : MockServiceKeeper) (ctx : Context)
    (id : String) (c : RequestContext) (providers : List AccAddress)
    (serviceFeeCap : Coins) (repeatedFreq : Nat) (repeatedTotal : Int)
    (hstored : m.cxtMap id = some c) (_hlow : repeatedTotal < (c.BatchCounter : Int)) :
    (UpdateRequestContext m ctx id providers serviceFeeCap repeatedFreq repeatedTotal).2
      = none ∧
    GetRequestContext
        (UpdateRequestContext m ctx id providers serviceFeeCap repeatedFreq repeatedTotal).1
        ctx id
      = (c, true) := by
  refine ⟨rfl, ?_⟩
  simp [UpdateRequestContext, GetRequestContext, hstored]

/-- Claim C13, the amended claim at a concrete input: the update of
`keeperExhausted` (batch counter 3) with total 1. -/
theorem UpdateRequestContext_lower_total_witness :
    (UpdateRequestContext keeperExhausted ctx0 "mockRequest" [[1]] [] 10 1).2 = none ∧
    GetRequestContext
        (UpdateRequestContext keeperExhausted ctx0 "mockRequest" [[1]] [] 10 1).1
        ctx0 "mockRequest"
      = ({ zeroRequestContext with
             RepeatedTotal := 3, BatchCounter := 3,
             State := RequestContextState.Completed, ModuleName := "oracle" }, true) :=
  UpdateRequestContext_lower_total keeperExhausted ctx0 "mockRequest"
    { zeroRequestContext with
        RepeatedTotal := 3, BatchCounter := 3,
        State := RequestContextState.Completed, ModuleName := "oracle" }
    [[1]] [] 10 1 rfl (by decide)

/-- Claim C14, counterexample: the running context of `keeperThree` is updated with one
provider, a fee cap, frequency 20 and total 9.  The update returns nil and the
lookup still finds three providers, no fee cap, frequency 10 and total 3. -/
theorem UpdateRequestContext_keeps_old_values :
    (UpdateRequestContext keeperThree ctx0 "mockRequest" [[7]]
        [{ Denom := "iris-atto", Amount := 5 }] 20 9).2 = none ∧
    (GetRequestContext
        (UpdateRequestContext keeperThree ctx0 "mockRequest" [[7]]
          [{ Denom := "iris-atto", Amount := 5 }] 20 9).1 ctx0 "mockRequest").2 = true ∧
    (GetRequestContext
        (UpdateRequestContext keeperThree ctx0 "mockRequest" [[7]]
          [{ Denom := "iris-atto", Amount := 5 }] 20 9).1 ctx0 "mockRequest").1.Providers
      = [[1], [2], [3]] ∧
    (GetRequestContext
        (UpdateRequestContext keeperThree ctx0 "mockRequest" [[7]]
          [{ Denom := "iris-atto", Amount := 5 }] 20 9).1 ctx0 "mockRequest").1.ServiceFeeCap
      = [] ∧
    (GetRequestContext
        (UpdateRequestContext keeperThree ctx0 "mockRequest" [[7]]
          [{ Denom := "iris-atto", Amount := 5 }] 20 9).1 ctx0
        "mockRequest").1.RepeatedFrequency = 10 ∧
    (GetRequestContext
        (UpdateRequestContext keeperThree ctx0 "mockRequest" [[7]]
          [{ Denom := "iris-atto", Amount := 5 }] 20 9).1 ctx0
        "mockRequest").1.RepeatedTotal = 3 := by
  decide

/-- Claim C14, amended: for every stored context, `Completed` or not,
`UpdateRequestContext` returns nil and the lookup afterwards finds the providers,
fee cap, frequency and total the context had before the call, not the four
arguments. -/
theorem UpdateRequestContext_is_noop (m : MockServiceKeeper) (ctx : Context)
    (id : String) (c : RequestContext) (providers : List AccAddress)
    (serviceFeeCap : Coins) (repeatedFreq : Nat) (repeatedTotal : Int)
    (hstored : m.cxtMap id = some c) :
    (UpdateRequestContext m ctx id providers serviceFeeCap repeatedFreq repeatedTotal).2
      = none ∧
    (GetRequestContext
        (UpdateRequestContext m ctx id providers serviceFeeCap repeatedFreq repeatedTotal).1
        ctx id).2 = true ∧
    (GetRequestContext
        (UpdateRequestContext m ctx id providers serviceFeeCap repeatedFreq repeatedTotal).1
        ctx id).1.Providers = c.Providers ∧
    (GetRequestContext
        (UpdateRequestContext m ctx id providers serviceFeeCap repeatedFreq repeatedTotal).1
        ctx id).1.ServiceFeeCap = c.ServiceFeeCap ∧
    (GetRequestContext
        (UpdateRequestContext m ctx id providers serviceFeeCap repeatedFreq repeatedTotal).1
        ctx id).1.RepeatedFrequency = c.RepeatedFrequency ∧
    (GetRequestContext
        (UpdateRequestContext m ctx id providers serviceFeeCap repeatedFreq repeatedTotal).1
        ctx id).1.RepeatedTotal = c.RepeatedTotal := by
  simp [UpdateRequestContext, GetRequestContext, hstored]

/-- Claim C14, the amended claim at a concrete input: the update of the context of
`keeperThree`. -/
theorem UpdateRequestContext_is_noop_witness :
    (UpdateRequestContext keeperThree ctx0 "mockRequest" [[7]] [] 20 9).2 = none ∧
    (GetRequestContext (UpdateRequestContext keeperThree ctx0 "mockRequest" [[7]] [] 20 9).1
        ctx0 "mockRequest").2 = true ∧
    (GetRequestContext (UpdateRequestContext keeperThree ctx0 "mockRequest" [[7]] [] 20 9).1
        ctx0 "mockRequest").1.Providers
      = (createdContext "price" [[1], [2], [3]] [9] "in" [] 5 true 10 3
          RequestContextState.Running 2 "oracle").Providers ∧
    (GetRequestContext (UpdateRequestContext keeperThree ctx0 "mockRequest" [[7]] [] 20 9).1
        ctx0 "mockRequest").1.ServiceFeeCap
      = (createdContext "price" [[1], [2], [3]] [9] "in" [] 5 true 10 3
          RequestContextState.Running 2 "oracle").ServiceFeeCap ∧
    (GetRequestContext (UpdateRequestContext keeperThree ctx0 "mockRequest" [[7]] [] 20 9).1
        ctx0 "mockRequest").1.RepeatedFrequency
      = (createdContext "price" [[1], [2], [3]] [9] "in" [] 5 true 10 3
          RequestContextState.Running 2 "oracle").RepeatedFrequency ∧
    (GetRequestContext (UpdateRequestContext keeperThree ctx0 "mockRequest" [[7]] [] 20 9).1
        ctx0 "mockRequest").1.RepeatedTotal
      = (createdContext "price" [[1], [2], [3]] [9] "in" [] 5 true 10 3
          RequestContextState.Running 2 "oracle").RepeatedTotal :=
  UpdateRequestContext_is_noop keeperThree ctx0 "mockRequest"
    (createdContext "price" [[1], [2], [3]] [9] "in" [] 5 true 10 3
      RequestContextState.Running 2 "oracle")
    [[7]] [] 20 9 rfl

/-- Claim C15: `UpdateRequestContext` changes neither the state nor the batch counter,
consumer, input, service name or module name of the addressed context, and it
changes no other stored context; it has one outcome only, nil, so this holds of
every call. -/
theorem UpdateRequestContext_frame (m : MockServiceKeeper) (ctx : Context)
    (id : String) (providers : List AccAddress) (serviceFeeCap : Coins)
    (repeatedFreq : Nat) (repeatedTotal : Int) :
    ((UpdateRequestContext m ctx id providers serviceFeeCap repeatedFreq
        repeatedTotal).1.cxtMap id).map
        (fun c => (c.State, c.BatchCounter, c.Consumer, c.Input, c.ServiceName, c.ModuleName))
      = (m.cxtMap id).map
        (fun c => (c.State, c.BatchCounter, c.Consumer, c.Input, c.ServiceName, c.ModuleName)) ∧
    (∀ key, key ≠ id →
      (UpdateRequestContext m ctx id providers serviceFeeCap repeatedFreq
        repeatedTotal).1.cxtMap key = m.cxtMap key) ∧
    (UpdateRequestContext m ctx id providers serviceFeeCap repeatedFreq
        repeatedTotal).1.callbackMap = m.callbackMap :=
  ⟨rfl, fun _ _ => rfl, rfl⟩

/-! ## Further facts about `StartRequestContext` -/

/-- A batch whose module has no registered callback: the loop stores the batch and
panics on the call of the nil function value. -/
theorem startLoop_no_callback (interp : CallbackId → ResponseCallback) (id : String)
    (fuel : Nat) (i : Int) (reqCtx : RequestContext) (ctx : Context) (m : MockServiceKeeper)
    (calls : List CallRecord) (hle : i ≤ reqCtx.RepeatedTotal)
    (hreg : m.callbackMap reqCtx.ModuleName = none) :
    startLoop interp id (fuel + 1) i reqCtx ctx m calls
      = some (Outcome.panicked
          { m with
              cxtMap := Function.update m.cxtMap id
                (some { reqCtx with BatchCounter := wrapUint64 i,
                                    State := RequestContextState.Running }) }
          calls) := by
  rw [startLoop]
  simp only [hle, if_true, hreg]

/-- The counter value the loop of `StartRequestContext` starts from, for a batch
counter below the largest `int64`. -/
theorem startCounter_eq (b : Nat) (hb : (b : Int) < maxInt64) :
    wrapInt64 (wrapUint64 ((b : Int) + 1)) = (b : Int) + 1 := by
  have hb2 : (b : Int) < 9223372036854775807 := by
    unfold maxInt64 at hb; exact hb
  have h1 : wrapUint64 ((b : Int) + 1) = b + 1 := by
    have := wrapUint64_natCast (b + 1) (by omega)
    simpa using this
  rw [h1, wrapInt64_of_range]
  · push_cast; rfl
  · unfold minInt64; omega
  · unfold maxInt64; omega

/-- A stored context with no batch left: `StartRequestContext` returns nil at once. -/
theorem StartRequestContext_no_batch_left (interp : CallbackId → ResponseCallback)
    (m : MockServiceKeeper) (ctx : Context) (id : String) (c : RequestContext)
    (hstored : m.cxtMap id = some c) (hex : c.RepeatedTotal ≤ (c.BatchCounter : Int))
    (hmax : (c.BatchCounter : Int) < maxInt64) (fuel : Nat) :
    StartRequestContext interp (fuel + 1) m ctx id = some (Outcome.returned none m []) := by
  unfold StartRequestContext
  simp only [hstored, Option.getD_some, startCounter_eq _ hmax]
  exact startLoop_exit interp id fuel _ c ctx m [] (by omega)

/-- Every callback invocation the loop adds carries the package list `responses` and
the identifier of the call. -/
theorem startLoop_new_calls (interp : CallbackId → ResponseCallback) (id : String) :
    ∀ (fuel : Nat) (i : Int) (reqCtx : RequestContext) (ctx : Context)
      (m : MockServiceKeeper) (calls : List CallRecord) (o : Outcome),
      startLoop interp id fuel i reqCtx ctx m calls = some o →
      ∀ r ∈ o.calls, r ∈ calls ∨ (r.responses = responses ∧ r.requestContextID = id) := by
  intro fuel
  induction fuel with
  | zero => intro i reqCtx ctx m calls o h; simp [startLoop] at h
  | succ n ih =>
    intro i reqCtx ctx m calls o h r hr
    rw [startLoop] at h
    by_cases hi : i ≤ reqCtx.RepeatedTotal
    · simp only [hi, if_true] at h
      cases hcb : m.callbackMap reqCtx.ModuleName with
      | none =>
        simp only [hcb, Option.some.injEq] at h
        subst h
        exact Or.inl hr
      | some cb =>
        simp only [hcb] at h
        rcases ih _ _ _ _ _ _ h r hr with hin | hnew
        · rcases List.mem_append.mp hin with hold | hlast
          · exact Or.inl hold
          · rw [List.mem_singleton] at hlast
            subst hlast
            exact Or.inr ⟨rfl, rfl⟩
        · exact Or.inr hnew
    · simp only [hi, if_false, Option.some.injEq] at h
      subst h
      exact Or.inl hr

/-! ## C17: a context stored as `Completed` -/

/-- Claim C17, counterexample: the context of `keeperCompleted` is stored as `Completed`
with batch counter 0 and total 2.  `PauseRequestContext` changes its state to
`Pause`; `StartRequestContext` runs two batches and leaves state `Running` and
batch counter 2. -/
theorem Completed_context_is_changed :
    (keeperCompleted.cxtMap "mockRequest").map (fun c => (c.State, c.BatchCounter))
      = some (RequestContextState.Completed, 0) ∧
    resultSummary "mockRequest" (PauseRequestContext keeperCompleted ctx0 "mockRequest")
      = (true, some (RequestContextState.Pause, 0)) ∧
    (StartRequestContext idleCallbacks 3 keeperCompleted ctx0 "mockRequest").map
        (Outcome.summary "mockRequest")
      = some (true, 2, some (RequestContextState.Running, 2)) := by
  decide

/-- Claim C17, amended: `Completed` is not terminal in the keeper.  For a stored context
in state `Completed`, `UpdateRequestContext` changes no field, and
`StartRequestContext` changes no field when no batch is left
(`BatchCounter = RepeatedTotal < 2^63 - 1`); but `PauseRequestContext` changes the
state to `Pause`, the other fields kept, and `StartRequestContext` with batches
left (`BatchCounter < RepeatedTotal < 2^63 - 1`, registered callback that leaves
the keeper alone) runs them and leaves state `Running`. -/
theorem Completed_not_terminal (interp : CallbackId → ResponseCallback)
    (m : MockServiceKeeper) (ctx : Context) (id : String) (c : RequestContext)
    (hstored : m.cxtMap id = some c) (hcomp : c.State = RequestContextState.Completed) :
    (∀ providers serviceFeeCap repeatedFreq repeatedTotal,
      (UpdateRequestContext m ctx id providers serviceFeeCap repeatedFreq
        repeatedTotal).1.cxtMap id = some c) ∧
    ((c.BatchCounter : Int) = c.RepeatedTotal → c.RepeatedTotal < maxInt64 →
      ∀ fuel, 0 < fuel →
        StartRequestContext interp fuel m ctx id = some (Outcome.returned none m [])) ∧
    ((PauseRequestContext m ctx id).1.cxtMap id
        = some { c with State := RequestContextState.Pause } ∧
      (PauseRequestContext m ctx id).1.cxtMap id ≠ some c) ∧
    (∀ cb, m.callbackMap c.ModuleName = some cb → keepsKeeper (interp cb) →
      (c.BatchCounter : Int) < c.RepeatedTotal → c.RepeatedTotal < maxInt64 →
      ∀ fuel : Nat, c.RepeatedTotal - c.BatchCounter < fuel →
        ∃ o : Outcome,
          StartRequestContext interp fuel m ctx id = some o
            ∧ o.returnedNil = true
            ∧ o.keeper.cxtMap id
                = some { c with BatchCounter := c.RepeatedTotal.toNat,
                                State := RequestContextState.Running }) := by
  have hst : (PauseRequestContext m ctx id).1.cxtMap id
      = some { c with State := RequestContextState.Pause } := by
    simp [PauseRequestContext, hstored]
  refine ⟨fun _ _ _ _ => hstored, ?_, ⟨hst, ?_⟩, ?_⟩
  · intro hex hmax fuel hfuel
    obtain ⟨n, rfl⟩ : ∃ n, fuel = n + 1 := ⟨fuel - 1, by omega⟩
    exact StartRequestContext_no_batch_left interp m ctx id c hstored (by omega)
      (by omega) n
  · intro heq
    rw [hst] at heq
    have hs := congrArg (fun o => o.map (fun x => x.State)) heq
    simp [hcomp] at hs
  · intro cb hreg hcb hlt hmax fuel hfuel
    obtain ⟨m2, hrun, -, -, hfin⟩ :=
      StartRequestContext_runs interp m ctx id c cb hstored hreg hcb hlt hmax fuel hfuel
    exact ⟨_, hrun, rfl, hfin⟩

/-- Claim C17, the amended claim at a concrete input: the context of `keeperExhausted`,
stored as `Completed` with batch counter and total 3. -/
theorem Completed_not_terminal_witness :
    (∀ providers serviceFeeCap repeatedFreq repeatedTotal,
      (UpdateRequestContext keeperExhausted ctx0 "mockRequest" providers serviceFeeCap
        repeatedFreq repeatedTotal).1.cxtMap "mockRequest"
        = keeperExhausted.cxtMap "mockRequest") ∧
    (StartRequestContext idleCallbacks 1 keeperExhausted ctx0 "mockRequest"
      = some (Outcome.returned none keeperExhausted [])) ∧
    ((PauseRequestContext keeperExhausted ctx0 "mockRequest").1.cxtMap "mockRequest"
      ≠ keeperExhausted.cxtMap "mockRequest") :=
  have h := Completed_not_terminal idleCallbacks keeperExhausted ctx0 "mockRequest"
    { zeroRequestContext with
        RepeatedTotal := 3, BatchCounter := 3,
        State := RequestContextState.Completed, ModuleName := "oracle" }
    rfl rfl
  ⟨h.1, h.2.1 (by decide) (by decide) 1 (by decide), h.2.2.1.2⟩

/-! ## C18: a module without a registered callback -/

/-- Claim C18: for every stored context with at least one batch left whose module has
no registered callback, `StartRequestContext` does not return: with any fuel to
run at all it stores the next batch and panics on the call of the nil callback,
before any callback invocation, and with no amount of fuel does it return. -/
theorem StartRequestContext_without_callback_panics (interp : CallbackId → ResponseCallback)
    (m : MockServiceKeeper) (ctx : Context) (id : String) (c : RequestContext)
    (hstored : m.cxtMap id = some c) (hleft : (c.BatchCounter : Int) < c.RepeatedTotal)
    (hrange : c.RepeatedTotal ≤ maxInt64) (hreg : m.callbackMap c.ModuleName = none) :
    (∀ fuel : Nat, 0 < fuel →
      StartRequestContext interp fuel m ctx id
        = some (Outcome.panicked
            { m with
                cxtMap := Function.update m.cxtMap id
                  (some { c with BatchCounter := c.BatchCounter + 1,
                                 State := RequestContextState.Running }) }
            [])) ∧
    (∀ (fuel : Nat) (err : Option SdkError) (m2 : MockServiceKeeper)
        (calls : List CallRecord),
      StartRequestContext interp fuel m ctx id ≠ some (Outcome.returned err m2 calls)) := by
  have hb : (c.BatchCounter : Int) < maxInt64 := lt_of_lt_of_le hleft hrange
  have hb2 : (c.BatchCounter : Int) < 9223372036854775807 := by
    unfold maxInt64 at hb; exact hb
  have hpanic : ∀ fuel : Nat,
      StartRequestContext interp (fuel + 1) m ctx id
        = some (Outcome.panicked
            { m with
                cxtMap := Function.update m.cxtMap id
                  (some { c with BatchCounter := c.BatchCounter + 1,
                                 State := RequestContextState.Running }) }
            []) := by
    intro fuel
    unfold StartRequestContext
    simp only [hstored, Option.getD_some, startCounter_eq _ hb]
    rw [startLoop_no_callback interp id fuel _ c ctx m [] (by omega) hreg]
    have hw : wrapUint64 ((c.BatchCounter : Int) + 1) = c.BatchCounter + 1 := by
      have := wrapUint64_natCast (c.BatchCounter + 1) (by omega)
      simpa using this
    rw [hw]
  refine ⟨?_, ?_⟩
  · intro fuel hfuel
    obtain ⟨n, rfl⟩ : ∃ n, fuel = n + 1 := ⟨fuel - 1, by omega⟩
    exact hpanic n
  · intro fuel err m2 calls
    cases fuel with
    | zero => simp [StartRequestContext, startLoop]
    | succ n => rw [hpanic n]; simp

/-- Claim C18, at a concrete input: the three-batch context of `keeperNoCallback`. -/
theorem StartRequestContext_without_callback_panics_witness :
    (∀ fuel : Nat, 0 < fuel →
      StartRequestContext idleCallbacks fuel keeperNoCallback ctx0 "mockRequest"
        = some (Outcome.panicked
            { keeperNoCallback with
                cxtMap := Function.update keeperNoCallback.cxtMap "mockRequest"
                  (some { createdContext "price" [[1], [2], [3]] [9] "in" [] 5 true 10 3
                            RequestContextState.Running 2 "oracle" with
                          BatchCounter := 0 + 1,
                          State := RequestContextState.Running }) }
            [])) ∧
    (∀ (fuel : Nat) (err : Option SdkError) (m2 : MockServiceKeeper)
        (calls : List CallRecord),
      StartRequestContext idleCallbacks fuel keeperNoCallback ctx0 "mockRequest"
        ≠ some (Outcome.returned err m2 calls)) :=
  StartRequestContext_without_callback_panics idleCallbacks keeperNoCallback ctx0
    "mockRequest"
    (createdContext "price" [[1], [2], [3]] [9] "in" [] 5 true 10 3
      RequestContextState.Running 2 "oracle")
    rfl (by decide) (by decide) rfl

/-! ## C19: the responses handed to the callback -/

/-- Claim C19, counterexample: the context of `keeperThree` has three providers and that
of `keeperNoProviders` has none; every callback invocation of their three batches
receives four responses. -/
theorem StartRequestContext_hands_four_responses :
    (GetRequestContext keeperThree ctx0 "mockRequest").1.Providers.length = 3 ∧
    (callsOf (StartRequestContext idleCallbacks 4 keeperThree ctx0 "mockRequest")).map
        (fun r => r.responses.length) = [4, 4, 4] ∧
    (GetRequestContext keeperNoProviders ctx0 "mockRequest").1.Providers.length = 0 ∧
    (callsOf (StartRequestContext idleCallbacks 4 keeperNoProviders ctx0 "mockRequest")).map
        (fun r => r.responses.length) = [4, 4, 4] := by
  decide

/-- Claim C19, amended: for every context and every batch, the response sequence handed
to the callback is the package list `responses`, four fixed responses, whatever the
providers of the context: its length is 4 also for a context with fewer than four
providers or with none. -/
theorem StartRequestContext_hands_fixed_responses (interp : CallbackId → ResponseCallback)
    (fuel : Nat) (m : MockServiceKeeper) (ctx : Context) (id : String) (r : CallRecord)
    (hr : r ∈ callsOf (StartRequestContext interp fuel m ctx id)) :
    r.responses = responses ∧ r.responses.length = 4 ∧ r.requestContextID = id := by
  unfold callsOf at hr
  cases hrun : StartRequestContext interp fuel m ctx id with
  | none => simp [hrun] at hr
  | some o =>
    simp only [hrun, Option.map_some', Option.getD_some] at hr
    unfold StartRequestContext at hrun
    rcases startLoop_new_calls interp id _ _ _ _ _ _ o hrun r hr with hnil | ⟨h1, h2⟩
    · simp at hnil
    · exact ⟨h1, by rw [h1]; rfl, h2⟩

/-- Claim C19, the amended claim at a concrete input: the first callback invocation for
the context of `keeperNoProviders`, which has no provider. -/
theorem StartRequestContext_hands_fixed_responses_witness :
    batchRecord 1 "mockRequest"
        (createdContext "price" [] [9] "in" [] 5 true 10 3 RequestContextState.Running 2
          "oracle") ctx0 1 0
      ∈ callsOf (StartRequestContext idleCallbacks 4 keeperNoProviders ctx0 "mockRequest") ∧
    (batchRecord 1 "mockRequest"
        (createdContext "price" [] [9] "in" [] 5 true 10 3 RequestContextState.Running 2
          "oracle") ctx0 1 0).responses = responses ∧
    (batchRecord 1 "mockRequest"
        (createdContext "price" [] [9] "in" [] 5 true 10 3 RequestContextState.Running 2
          "oracle") ctx0 1 0).responses.length = 4 ∧
    (batchRecord 1 "mockRequest"
        (createdContext "price" [] [9] "in" [] 5 true 10 3 RequestContextState.Running 2
          "oracle") ctx0 1 0).requestContextID = "mockRequest" :=
  ⟨by decide,
   StartRequestContext_hands_fixed_responses idleCallbacks 4 keeperNoProviders ctx0
     "mockRequest" _ (by decide)⟩

/-! ## C20: when a batch closes -/

/-- Claim C20, counterexample: the context of `keeperNoProviders` has no provider, so
nobody responds; its response threshold is 2 and its timeout 5 blocks.  Started at
block 0, its three batches close at blocks 1, 2 and 3, and every callback
invocation receives four responses, not an empty sequence. -/
theorem StartRequestContext_closes_batches_at_once :
    (GetRequestContext keeperNoProviders ctx0 "mockRequest").1.Providers = [] ∧
    (GetRequestContext keeperNoProviders ctx0 "mockRequest").1.ResponseThreshold = 2 ∧
    (GetRequestContext keeperNoProviders ctx0 "mockRequest").1.Timeout = 5 ∧
    ctx0.BlockHeight = 0 ∧
    (callsOf (StartRequestContext idleCallbacks 4 keeperNoProviders ctx0 "mockRequest")).map
        (fun r => (r.ctx.BlockHeight, r.responses.length)) = [(1, 4), (2, 4), (3, 4)] := by
  decide

/-- Claim C20, amended: the keeper reads neither the providers nor the response
threshold nor the timeout of a context.  For every stored context with batches
left (`BatchCounter < RepeatedTotal < 2^63 - 1`, registered callback that leaves
the keeper alone), every batch closes inside the call of `StartRequestContext`:
the callback fires once per batch, for the batch number `j` (from zero) in the
execution context reached by `j + 1` block steps from the one of the call, and
each time it receives the four fixed `responses`, never an empty sequence. -/
theorem StartRequestContext_ignores_threshold_and_timeout
    (interp : CallbackId → ResponseCallback) (m : MockServiceKeeper) (ctx : Context)
    (id : String) (c : RequestContext) (cb : CallbackId)
    (hstored : m.cxtMap id = some c) (hreg : m.callbackMap c.ModuleName = some cb)
    (hcb : keepsKeeper (interp cb)) (hlt : (c.BatchCounter : Int) < c.RepeatedTotal)
    (hmax : c.RepeatedTotal < maxInt64) (fuel : Nat)
    (hfuel : c.RepeatedTotal - c.BatchCounter < fuel) :
    ∃ o : Outcome,
      StartRequestContext interp fuel m ctx id = some o
        ∧ o.returnedNil = true
        ∧ o.calls.map (fun r => (r.ctx, r.responses))
            = (List.range (c.RepeatedTotal - c.BatchCounter).toNat).map
                (fun j => (nextBlock^[j + 1] ctx, responses))
        ∧ (∀ r ∈ o.calls, r.responses ≠ []) := by
  obtain ⟨m2, hrun, -, -, -⟩ :=
    StartRequestContext_runs interp m ctx id c cb hstored hreg hcb hlt hmax fuel hfuel
  refine ⟨_, hrun, rfl, ?_, ?_⟩
  · simp only [Outcome.calls, List.map_map]
    apply List.map_congr_left
    intro j _
    rfl
  · intro r hr
    simp only [Outcome.calls, List.mem_map] at hr
    obtain ⟨j, -, rfl⟩ := hr
    simp [batchRecord, responses]

/-- Claim C20, the amended claim at a concrete input: the context of
`keeperNoProviders` (no provider, threshold 2, timeout 5), started with fuel 4. -/
theorem StartRequestContext_ignores_threshold_and_timeout_witness :
    ∃ o : Outcome,
      StartRequestContext idleCallbacks 4 keeperNoProviders ctx0 "mockRequest" = some o
        ∧ o.returnedNil = true
        ∧ o.calls.map (fun r => (r.ctx, r.responses))
            = (List.range ((3 : Int) - (0 : Nat)).toNat).map
                (fun j => (nextBlock^[j + 1] ctx0, responses))
        ∧ (∀ r ∈ o.calls, r.responses ≠ []) :=
  StartRequestContext_ignores_threshold_and_timeout idleCallbacks keeperNoProviders ctx0
    "mockRequest"
    (createdContext "price" [] [9] "in" [] 5 true 10 3 RequestContextState.Running 2 "oracle")
    1 rfl (by decide) (fun _ _ _ _ => rfl) (by decide) (by decide) 4 (by decide)

/-! ## C16: the batch counter never passes the total -/

/-- More fuel does not change a result of `StartRequestContext` already reached. -/
theorem StartRequestContext_fuel_mono (interp : CallbackId → ResponseCallback)
    (fuel fuel2 : Nat) (hle : fuel ≤ fuel2) (m : MockServiceKeeper) (ctx : Context)
    (id : String) (o : Outcome) (h : StartRequestContext interp fuel m ctx id = some o) :
    StartRequestContext interp fuel2 m ctx id = some o := by
  unfold StartRequestContext at h ⊢
  exact startLoop_fuel_mono interp id fuel fuel2 hle _ _ _ _ _ o h

/-- With callbacks that leave the keeper alone and the largest `int64` as the total, the
loop does not return: it runs on, or it panics on a nil callback. -/
theorem startLoop_maxTotal_not_returned (interp : CallbackId → ResponseCallback)
    (id : String) (hall : ∀ cb, keepsKeeper (interp cb)) :
    ∀ (fuel : Nat) (i : Int) (reqCtx : RequestContext) (ctx : Context)
      (m : MockServiceKeeper) (calls : List CallRecord),
      reqCtx.RepeatedTotal = maxInt64 →
      i ≤ maxInt64 →
      ∀ (err : Option SdkError) (m2 : MockServiceKeeper) (calls2 : List CallRecord),
        startLoop interp id fuel i reqCtx ctx m calls
          ≠ some (Outcome.returned err m2 calls2) := by
  intro fuel
  induction fuel with
  | zero => intro i reqCtx ctx m calls _ _ err m2 calls2; simp [startLoop]
  | succ n ih =>
    intro i reqCtx ctx m calls htot hi err m2 calls2
    rw [startLoop]
    have hle : i ≤ reqCtx.RepeatedTotal := by rw [htot]; exact hi
    simp only [hle, if_true]
    cases hcb : m.callbackMap reqCtx.ModuleName with
    | none => simp
    | some cb =>
      simp only []
      rw [hall cb]
      refine ih _ _ _ _ _ ?_ (wrapInt64_le_max _) err m2 calls2
      exact htot

/-- A call of `StartRequestContext` that returns keeps the invariant, when the callbacks
leave the keeper alone. -/
theorem StartRequestContext_keeps_batchInvariant (interp : CallbackId → ResponseCallback)
    (hall : ∀ cb, keepsKeeper (interp cb)) (m : MockServiceKeeper) (ctx : Context)
    (id : String) (fuel : Nat) (err : Option SdkError) (m2 : MockServiceKeeper)
    (calls : List CallRecord) (hinv : batchInvariant m)
    (hrun : StartRequestContext interp fuel m ctx id
              = some (Outcome.returned err m2 calls)) :
    batchInvariant m2 := by
  cases hst : m.cxtMap id with
  | none =>
    cases fuel with
    | zero => simp [StartRequestContext, startLoop] at hrun
    | succ n =>
      have hexit : StartRequestContext interp (n + 1) m ctx id
          = some (Outcome.returned none m []) := by
        unfold StartRequestContext
        rw [hst]
        exact startLoop_exit interp id n _ zeroRequestContext ctx m [] (by decide)
      rw [hexit] at hrun
      simp only [Option.some.injEq, Outcome.returned.injEq] at hrun
      rw [← hrun.2.1]
      exact hinv
  | some c =>
    obtain ⟨hmin, hmax, hb⟩ := hinv id c hst
    have hmin2 : -9223372036854775808 ≤ c.RepeatedTotal := by
      unfold minInt64 at hmin; exact hmin
    have hmax2 : c.RepeatedTotal ≤ 9223372036854775807 := by
      unfold maxInt64 at hmax; exact hmax
    by_cases htop : c.RepeatedTotal = maxInt64
    · exfalso
      unfold StartRequestContext at hrun
      rw [hst] at hrun
      exact startLoop_maxTotal_not_returned interp id hall fuel _ c ctx m [] htop
        (wrapInt64_le_max _) err m2 calls hrun
    · have hlt : c.RepeatedTotal < maxInt64 := lt_of_le_of_ne hmax htop
      have hlt2 : c.RepeatedTotal < 9223372036854775807 := by
        unfold maxInt64 at hlt; exact hlt
      have hbmax : (c.BatchCounter : Int) < maxInt64 := by
        unfold maxInt64
        rcases hb with hb | hb
        · omega
        · rw [hb]; decide
      by_cases hleft : (c.BatchCounter : Int) < c.RepeatedTotal
      · cases hcb : m.callbackMap c.ModuleName with
        | none =>
          exfalso
          cases fuel with
          | zero => simp [StartRequestContext, startLoop] at hrun
          | succ n =>
            unfold StartRequestContext at hrun
            simp only [hst, Option.getD_some, startCounter_eq _ hbmax] at hrun
            rw [startLoop_no_callback interp id n _ c ctx m [] (by omega) hcb] at hrun
            simp at hrun
        | some cb =>
          obtain ⟨m3, hrun3, -, hother, hfin⟩ :=
            StartRequestContext_runs interp m ctx id c cb hst hcb (hall cb) hleft hlt
              (fuel + (c.RepeatedTotal - c.BatchCounter).toNat + 1) (by omega)
          have hrun2 := StartRequestContext_fuel_mono interp fuel
            (fuel + (c.RepeatedTotal - c.BatchCounter).toNat + 1) (by omega) m ctx id _ hrun
          rw [hrun3] at hrun2
          simp only [Option.some.injEq, Outcome.returned.injEq] at hrun2
          obtain ⟨-, hm2, -⟩ := hrun2
          subst hm2
          intro key d hd
          by_cases hkey : key = id
          · subst hkey
            rw [hfin] at hd
            simp only [Option.some.injEq] at hd
            subst hd
            refine ⟨hmin, hmax, Or.inl ?_⟩
            simp only []
            omega
          · rw [hother key hkey] at hd
            exact hinv key d hd
      · cases fuel with
        | zero => simp [StartRequestContext, startLoop] at hrun
        | succ n =>
          rw [StartRequestContext_no_batch_left interp m ctx id c hst (by omega) hbmax n]
            at hrun
          simp only [Option.some.injEq, Outcome.returned.injEq] at hrun
          rw [← hrun.2.1]
          exact hinv

/-- Every reachable keeper satisfies the invariant, when the callbacks leave the keeper
alone. -/
theorem Reachable_batchInvariant (interp : CallbackId → ResponseCallback)
    (hall : ∀ cb, keepsKeeper (interp cb)) (m : MockServiceKeeper)
    (hreach : Reachable interp m) : batchInvariant m := by
  induction hreach with
  | empty m hempty =>
    intro id c hc
    rw [hempty id] at hc
    simp at hc
  | register m moduleName cb _ ih => exact ih
  | create m ctx serviceName providers consumer input serviceFeeCap timeout repeated
      repeatedFrequency repeatedTotal state respThreshold moduleName _ hmin hmax ih =>
    intro id c hc
    by_cases hid : id = "mockRequest"
    · subst hid
      rw [CreateRequestContext_stored] at hc
      simp only [Option.some.injEq] at hc
      subst hc
      exact ⟨hmin, hmax, Or.inr rfl⟩
    · have : (CreateRequestContext m ctx serviceName providers consumer input serviceFeeCap
          timeout repeated repeatedFrequency repeatedTotal state respThreshold
          moduleName).keeper.cxtMap id = m.cxtMap id := by
        simp [CreateRequestContext, Function.update_noteq hid]
      rw [this] at hc
      exact ih id c hc
  | update m ctx id providers serviceFeeCap repeatedFreq repeatedTotal _ ih => exact ih
  | start m ctx id fuel err m2 calls _ hrun ih =>
    exact StartRequestContext_keeps_batchInvariant interp hall m ctx id fuel err m2 calls
      ih hrun
  | pause m ctx id _ ih =>
    intro key c hc
    by_cases hkey : key = id
    · subst hkey
      simp only [PauseRequestContext, Function.update_same, Option.some.injEq] at hc
      subst hc
      cases hst : m.cxtMap key with
      | none =>
        simp only [Option.getD_none]
        exact ⟨by decide, by decide, Or.inr rfl⟩
      | some d =>
        simp only [Option.getD_some]
        exact ih key d hst
    · have : (PauseRequestContext m ctx id).1.cxtMap key = m.cxtMap key := by
        simp [PauseRequestContext, Function.update_noteq hkey]
      rw [this] at hc
      exact ih key c hc

/-- Claim C16, counterexample: one `CreateRequestContext` with the total -5 on the
keeper with an empty store.  The keeper checks no argument: the context is stored
with batch counter 0, which is above its total. -/
theorem BatchCounter_above_negative_total :
    Reachable idleCallbacks keeperNegativeTotal ∧
    (keeperNegativeTotal.cxtMap "mockRequest").map
        (fun c => (c.BatchCounter, c.RepeatedTotal)) = some (0, -5) ∧
    ∃ c : RequestContext,
      keeperNegativeTotal.cxtMap "mockRequest" = some c ∧
        ¬ ((c.BatchCounter : Int) ≤ c.RepeatedTotal) :=
  ⟨Reachable.create NewMockServiceKeeper ctx0
      "price" [[1], [2], [3]] [9] "in" [] 5 true 10 (-5) RequestContextState.Running 2 "oracle"
      (Reachable.empty NewMockServiceKeeper (fun _ => rfl)) (by decide) (by decide),
   by decide,
   createdContext "price" [[1], [2], [3]] [9] "in" [] 5 true 10 (-5)
     RequestContextState.Running 2 "oracle",
   rfl, by decide⟩

/-- Claim C16, amended: in every keeper state reached from an empty store by calls of
`CreateRequestContext`, `StartRequestContext`, `PauseRequestContext` and
`UpdateRequestContext` (and registrations of callbacks, the callbacks leaving the
keeper alone), every stored context with a total `RepeatedTotal ≥ 0` satisfies
`BatchCounter ≤ RepeatedTotal`, and every stored context with a negative total has
batch counter 0. -/
theorem BatchCounter_le_RepeatedTotal (interp : CallbackId → ResponseCallback)
    (hall : ∀ cb, keepsKeeper (interp cb)) (m : MockServiceKeeper)
    (hreach : Reachable interp m) (id : String) (c : RequestContext)
    (hstored : m.cxtMap id = some c) :
    (0 ≤ c.RepeatedTotal → (c.BatchCounter : Int) ≤ c.RepeatedTotal) ∧
    (c.RepeatedTotal < 0 → c.BatchCounter = 0) := by
  obtain ⟨-, -, hb⟩ := Reachable_batchInvariant interp hall m hreach id c hstored
  constructor
  · intro hfinite
    rcases hb with hb | hb
    · exact hb
    · rw [hb]
      exact_mod_cast hfinite
  · intro hneg
    rcases hb with hb | hb
    · have h0 : (0 : Int) ≤ (c.BatchCounter : Int) := Int.natCast_nonneg _
      omega
    · exact hb

/-- The keeper `keeperThreeDone` is reachable: a registration, a creation, a pause and
a start that returns. -/
theorem keeperThreeDone_reachable : Reachable idleCallbacks keeperThreeDone :=
  Reachable.start (PauseRequestContext keeperThree ctx0 "mockRequest").1 ctx0 "mockRequest" 4
    none keeperThreeDone _
    (Reachable.pause keeperThree ctx0 "mockRequest"
      (Reachable.create (RegisterResponseCallback NewMockServiceKeeper "oracle" 1).1 ctx0
        "price" [[1], [2], [3]] [9] "in" [] 5 true 10 3 RequestContextState.Running 2 "oracle"
        (Reachable.register NewMockServiceKeeper "oracle" 1
          (Reachable.empty NewMockServiceKeeper (fun _ => rfl)))
        (by decide) (by decide)))
    rfl

/-- Claim C16, the amended claim at concrete inputs: the context of `keeperThreeDone`,
whose three batches have run after a pause (batch counter 3, total 3), and the
context of `keeperNegativeTotal` (batch counter 0, total -5). -/
theorem BatchCounter_le_RepeatedTotal_witness :
    ((keeperThreeDone.cxtMap "mockRequest").map
        (fun c => (c.BatchCounter, c.RepeatedTotal)) = some (3, 3) ∧
     ((0 : Int) ≤ 3 → ((3 : Nat) : Int) ≤ 3) ∧ ((3 : Int) < 0 → (3 : Nat) = 0)) ∧
    ((keeperNegativeTotal.cxtMap "mockRequest").map
        (fun c => (c.BatchCounter, c.RepeatedTotal)) = some (0, -5) ∧
     ((0 : Int) ≤ -5 → ((0 : Nat) : Int) ≤ -5) ∧ ((-5 : Int) < 0 → (0 : Nat) = 0)) :=
  ⟨⟨by decide,
    BatchCounter_le_RepeatedTotal idleCallbacks (fun _ _ _ _ _ => rfl) keeperThreeDone
      keeperThreeDone_reachable "mockRequest"
      { createdContext "price" [[1], [2], [3]] [9] "in" [] 5 true 10 3
          RequestContextState.Running 2 "oracle" with BatchCounter := 3 }
      (by decide)⟩,
   ⟨by decide,
    BatchCounter_le_RepeatedTotal idleCallbacks (fun _ _ _ _ _ => rfl) keeperNegativeTotal
      (Reachable.create NewMockServiceKeeper ctx0
        "price" [[1], [2], [3]] [9] "in" [] 5 true 10 (-5) RequestContextState.Running 2
        "oracle" (Reachable.empty NewMockServiceKeeper (fun _ => rfl)) (by decide)
        (by decide))
      "mockRequest"
      (createdContext "price" [[1], [2], [3]] [9] "in" [] 5 true 10 (-5)
        RequestContextState.Running 2 "oracle")
      rfl⟩⟩

/-! ## C21: the block height seen by the callback -/

/-- Block steps that stay within `int64` add one to the height each. -/
theorem nextBlock_iterate_height (j : Nat) (ctx : Context)
    (hmin : minInt64 ≤ ctx.BlockHeight) (hmax : ctx.BlockHeight + j ≤ maxInt64) :
    (nextBlock^[j] ctx).BlockHeight = ctx.BlockHeight + j := by
  induction j with
  | zero => simp
  | succ n ih =>
    have hn : ctx.BlockHeight + (n : Int) ≤ maxInt64 := by
      push_cast at hmax; omega
    rw [Function.iterate_succ_apply']
    show wrapInt64 ((nextBlock^[n] ctx).BlockHeight + 1) = ctx.BlockHeight + ((n + 1 : Nat) : Int)
    rw [ih hn, wrapInt64_of_range]
    · push_cast; ring
    · unfold minInt64 at hmin ⊢; omega
    · push_cast at hmax; omega

/-- In the model of the execution context, where `BlockHeight` reads the height of the
block header: the repeated context of `keeperThree` has frequency 10 and is started
at block height 0; its three callbacks see the heights 1, 2 and 3. -/
theorem StartRequestContext_heights_of_three_batches :
    (GetRequestContext keeperThree ctx0 "mockRequest").1.Repeated = true ∧
    (GetRequestContext keeperThree ctx0 "mockRequest").1.RepeatedFrequency = 10 ∧
    ctx0.BlockHeight = 0 ∧
    (callsOf (StartRequestContext idleCallbacks 4 keeperThree ctx0 "mockRequest")).map
        (fun r => r.ctx.BlockHeight) = [1, 2, 3] := by
  decide

/-- In the model of the execution context, where `BlockHeight` reads the height of the
block header: for a context started at block height `h0`, whatever its frequency,
the execution context passed to the callback of the `i`-th batch run by
`StartRequestContext` (`i = 1, 2, ...`) has block height `h0 + i`.  (Stored context
with batches left, `BatchCounter < RepeatedTotal < 2^63 - 1`, registered callback
that leaves the keeper alone, heights within `int64`.) -/
theorem StartRequestContext_height_per_batch (interp : CallbackId → ResponseCallback)
    (m : MockServiceKeeper) (ctx : Context) (id : String) (c : RequestContext)
    (cb : CallbackId) (hstored : m.cxtMap id = some c)
    (hreg : m.callbackMap c.ModuleName = some cb) (hcb : keepsKeeper (interp cb))
    (hlt : (c.BatchCounter : Int) < c.RepeatedTotal) (hmax : c.RepeatedTotal < maxInt64)
    (hh0 : minInt64 ≤ ctx.BlockHeight)
    (hh1 : ctx.BlockHeight + (c.RepeatedTotal - c.BatchCounter) ≤ maxInt64)
    (fuel : Nat) (hfuel : c.RepeatedTotal - c.BatchCounter < fuel) :
    ∃ o : Outcome,
      StartRequestContext interp fuel m ctx id = some o
        ∧ o.returnedNil = true
        ∧ o.calls.map (fun r => r.ctx.BlockHeight)
            = (List.range (c.RepeatedTotal - c.BatchCounter).toNat).map
                (fun j => ctx.BlockHeight + ((j + 1 : Nat) : Int)) := by
  obtain ⟨m2, hrun, -, -, -⟩ :=
    StartRequestContext_runs interp m ctx id c cb hstored hreg hcb hlt hmax fuel hfuel
  refine ⟨_, hrun, rfl, ?_⟩
  simp only [Outcome.calls, List.map_map]
  apply List.map_congr_left
  intro j hj
  have hj2 : j < (c.RepeatedTotal - c.BatchCounter).toNat := List.mem_range.mp hj
  simp only [Function.comp, batchRecord]
  exact nextBlock_iterate_height (j + 1) ctx hh0 (by push_cast; omega)

/-- The heights of the model at a concrete input: the context of `keeperThree`,
frequency 10, started at height 0 with fuel 4. -/
theorem StartRequestContext_height_per_batch_witness :
    ∃ o : Outcome,
      StartRequestContext idleCallbacks 4 keeperThree ctx0 "mockRequest" = some o
        ∧ o.returnedNil = true
        ∧ o.calls.map (fun r => r.ctx.BlockHeight)
            = (List.range ((3 : Int) - (0 : Nat)).toNat).map
                (fun j => ctx0.BlockHeight + ((j + 1 : Nat) : Int)) :=
  StartRequestContext_height_per_batch idleCallbacks keeperThree ctx0 "mockRequest"
    (createdContext "price" [[1], [2], [3]] [9] "in" [] 5 true 10 3
      RequestContextState.Running 2 "oracle")
    1 rfl (by decide) (fun _ _ _ _ => rfl) (by decide) (by decide) (by decide) (by decide)
    4 (by decide)

/-- Iterated block steps form a chain: each context is the block step of the one
before it. -/
theorem nextBlock_chain (k : Nat) (ctx : Context) :
    List.Chain (fun prev next => next = nextBlock prev) ctx
      ((List.range k).map (fun j => nextBlock^[j + 1] ctx)) := by
  induction k generalizing ctx with
  | zero => simp
  | succ n ih =>
    rw [List.range_succ_eq_map, List.map_cons, List.map_map]
    refine List.Chain.cons rfl ?_
    exact ih (nextBlock ctx)

/-- Claim C21, counterexample: two repeated contexts of three batches that differ in
their frequency only, 10 and 20, both started in the context `ctx0`.  The three
callbacks of the one are called in the same execution contexts as the three
callbacks of the other, so whatever the height of an execution context is, the
heights cannot be `h0 + 10 i` for the one and `h0 + 20 i` for the other. -/
theorem StartRequestContext_same_contexts_for_two_frequencies :
    (GetRequestContext (keeperFrequency 10) ctx0 "mockRequest").1.RepeatedFrequency = 10 ∧
    (GetRequestContext (keeperFrequency 20) ctx0 "mockRequest").1.RepeatedFrequency = 20 ∧
    (contextsOf
      (StartRequestContext idleCallbacks 4 (keeperFrequency 10) ctx0 "mockRequest")).length
      = 3 ∧
    contextsOf (StartRequestContext idleCallbacks 4 (keeperFrequency 10) ctx0 "mockRequest")
      = contextsOf
          (StartRequestContext idleCallbacks 4 (keeperFrequency 20) ctx0 "mockRequest") ∧
    ∀ height : Context → Int,
      ¬ ((contextsOf
            (StartRequestContext idleCallbacks 4 (keeperFrequency 10) ctx0
              "mockRequest")).map height
          = [height ctx0 + 1 * 10, height ctx0 + 2 * 10, height ctx0 + 3 * 10] ∧
         (contextsOf
            (StartRequestContext idleCallbacks 4 (keeperFrequency 20) ctx0
              "mockRequest")).map height
          = [height ctx0 + 1 * 20, height ctx0 + 2 * 20, height ctx0 + 3 * 20]) := by
  have heq :
      contextsOf (StartRequestContext idleCallbacks 4 (keeperFrequency 10) ctx0 "mockRequest")
        = contextsOf
            (StartRequestContext idleCallbacks 4 (keeperFrequency 20) ctx0 "mockRequest") := by
    decide
  refine ⟨by decide, by decide, by decide, heq, ?_⟩
  rintro height ⟨h10, h20⟩
  rw [heq, h20] at h10
  simp only [List.cons.injEq] at h10
  omega

/-- Claim C21, amended: the execution context passed to the callback of a batch is the
one of the batch before it (for the first batch, the one `StartRequestContext` was
called with) with its block header replaced by a header with the same chain, the
height `BlockHeight() + 1` and the time `BlockTime()` plus two minutes.  The
frequency of the context is not read: the same context with any other frequency is
run in the same execution contexts.  (Stored context with batches left,
`BatchCounter < RepeatedTotal < 2^63 - 1`, registered callback that leaves the
keeper alone; the call returns nil after one callback invocation per batch.) -/
theorem StartRequestContext_block_step_per_batch (interp : CallbackId → ResponseCallback)
    (m : MockServiceKeeper) (ctx : Context) (id : String) (c : RequestContext)
    (cb : CallbackId) (hstored : m.cxtMap id = some c)
    (hreg : m.callbackMap c.ModuleName = some cb) (hcb : keepsKeeper (interp cb))
    (hlt : (c.BatchCounter : Int) < c.RepeatedTotal) (hmax : c.RepeatedTotal < maxInt64)
    (frequency : Nat) (fuel : Nat) (hfuel : c.RepeatedTotal - c.BatchCounter < fuel) :
    ∃ o o2 : Outcome,
      StartRequestContext interp fuel m ctx id = some o
        ∧ StartRequestContext interp fuel (setFrequency m id frequency) ctx id = some o2
        ∧ o.returnedNil = true
        ∧ o.calls.length = (c.RepeatedTotal - c.BatchCounter).toNat
        ∧ List.Chain
            (fun prev next =>
              next = prev.WithBlockHeader
                { ChainID := prev.BlockHeader.ChainID,
                  Height := wrapInt64 (prev.BlockHeight + 1),
                  Time := prev.BlockTime + 2 * minute })
            ctx (o.calls.map (fun r => r.ctx))
        ∧ o2.calls.map (fun r => r.ctx) = o.calls.map (fun r => r.ctx) := by
  obtain ⟨m2, hrun, -, -, -⟩ :=
    StartRequestContext_runs interp m ctx id c cb hstored hreg hcb hlt hmax fuel hfuel
  have hst2 : (setFrequency m id frequency).cxtMap id
      = some { c with RepeatedFrequency := frequency } := by
    simp [setFrequency, hstored]
  obtain ⟨m3, hrun2, -, -, -⟩ :=
    StartRequestContext_runs interp (setFrequency m id frequency) ctx id
      { c with RepeatedFrequency := frequency } cb hst2 hreg hcb hlt hmax fuel hfuel
  refine ⟨_, _, hrun, hrun2, rfl, ?_, ?_, ?_⟩
  · simp [Outcome.calls]
  · have hmap : (Outcome.returned none m2
          ((List.range (c.RepeatedTotal - c.BatchCounter).toNat).map
            (batchRecord cb id c ctx (c.BatchCounter + 1)))).calls.map (fun r => r.ctx)
        = (List.range (c.RepeatedTotal - c.BatchCounter).toNat).map
            (fun j => nextBlock^[j + 1] ctx) := by
      simp only [Outcome.calls, List.map_map]
      apply List.map_congr_left
      intro j _
      rfl
    rw [hmap]
    exact nextBlock_chain _ ctx
  · simp only [Outcome.calls, List.map_map]
    apply List.map_congr_left
    intro j _
    rfl

/-- Claim C21, the amended claim at a concrete input: the context of `keeperThree`,
frequency 10, started in `ctx0` with fuel 4, and the same context with frequency
20. -/
theorem StartRequestContext_block_step_per_batch_witness :
    ∃ o o2 : Outcome,
      StartRequestContext idleCallbacks 4 keeperThree ctx0 "mockRequest" = some o
        ∧ StartRequestContext idleCallbacks 4 (setFrequency keeperThree "mockRequest" 20) ctx0
            "mockRequest" = some o2
        ∧ o.returnedNil = true
        ∧ o.calls.length = ((3 : Int) - (0 : Nat)).toNat
        ∧ List.Chain
            (fun prev next =>
              next = prev.WithBlockHeader
                { ChainID := prev.BlockHeader.ChainID,
                  Height := wrapInt64 (prev.BlockHeight + 1),
                  Time := prev.BlockTime + 2 * minute })
            ctx0 (o.calls.map (fun r => r.ctx))
        ∧ o2.calls.map (fun r => r.ctx) = o.calls.map (fun r => r.ctx) :=
  StartRequestContext_block_step_per_batch idleCallbacks keeperThree ctx0 "mockRequest"
    (createdContext "price" [[1], [2], [3]] [9] "in" [] 5 true 10 3
      RequestContextState.Running 2 "oracle")
    1 rfl (by decide) (fun _ _ _ _ => rfl) (by decide) (by decide) 20 4 (by decide)

/-! ## C22: a pause from inside a callback -/

/-- The loop with a callback that may change the stored contexts but keeps the callback
registry: all remaining batches run, each invocation finds the batch just stored,
and the keeper returned is the one the last invocation leaves. -/
theorem startLoop_runs_preserving (interp : CallbackId → ResponseCallback) (id : String)
    (cb : CallbackId)
    (hp : ∀ ctx rs m, (interp cb ctx id rs m).callbackMap = m.callbackMap) :
    ∀ (k : Nat) (i : Int) (reqCtx : RequestContext) (ctx : Context)
      (m : MockServiceKeeper) (calls : List CallRecord),
      m.callbackMap reqCtx.ModuleName = some cb →
      i + k = reqCtx.RepeatedTotal + 1 →
      reqCtx.RepeatedTotal < maxInt64 →
      minInt64 ≤ i →
      ∃ m2 : MockServiceKeeper,
        startLoop interp id (k + 1) i reqCtx ctx m calls
            = some (Outcome.returned none m2
                (calls ++ (List.range k).map (batchRecord cb id reqCtx ctx i)))
          ∧ m2.callbackMap = m.callbackMap
          ∧ (0 < k → ∃ m1 : MockServiceKeeper,
              m2 = interp cb (nextBlock^[k] ctx) id responses
                { m1 with
                    cxtMap := Function.update m1.cxtMap id
                      (some { reqCtx with BatchCounter := wrapUint64 reqCtx.RepeatedTotal,
                                          State := RequestContextState.Running }) }) := by
  intro k
  induction k with
  | zero =>
    intro i reqCtx ctx m calls _ hik _ _
    refine ⟨m, ?_, rfl, fun h => absurd h (lt_irrefl 0)⟩
    have hlt : reqCtx.RepeatedTotal < i := by
      have : i = reqCtx.RepeatedTotal + 1 := by simpa using hik
      omega
    rw [startLoop_exit interp id 0 i reqCtx ctx m calls hlt]
    simp
  | succ n ih =>
    intro i reqCtx ctx m calls hreg hik hmax hmin
    have hle : i ≤ reqCtx.RepeatedTotal := by
      push_cast at hik
      omega
    have hwrap : wrapInt64 (i + 1) = i + 1 := by
      apply wrapInt64_of_range
      · unfold minInt64 at hmin ⊢; omega
      · unfold maxInt64 at hmax ⊢; omega
    obtain ⟨m2, hrun, hcbm, hlast⟩ :=
      ih (i + 1)
        { reqCtx with BatchCounter := wrapUint64 i, State := RequestContextState.Running }
        (nextBlock ctx)
        (interp cb (nextBlock ctx) id responses
          { m with
              cxtMap := Function.update m.cxtMap id
                (some { reqCtx with BatchCounter := wrapUint64 i,
                                    State := RequestContextState.Running }) })
        (calls ++ [{ callback := cb, ctx := nextBlock ctx, requestContextID := id,
                     responses := responses,
                     stored := some { reqCtx with BatchCounter := wrapUint64 i,
                                                  State := RequestContextState.Running } }])
        (by rw [hp]; exact hreg) (by push_cast at hik ⊢; omega) hmax
        (by unfold minInt64 at hmin ⊢; omega)
    refine ⟨m2, ?_, ?_, fun _ => ?_⟩
    · rw [startLoop]
      simp only [hle, if_true, hreg, hwrap, Function.update_same]
      rw [hrun]
      congr 2
      rw [List.range_succ_eq_map, List.map_cons, List.map_map, List.append_assoc]
      congr 1
      simp only [List.singleton_append]
      congr 1
      · simp [batchRecord]
      · apply List.map_congr_left
        intro j _
        simp only [batchRecord, Function.comp, Function.iterate_succ_apply]
        congr 3
        push_cast
        ring_nf
    · rw [hcbm, hp]
    · rcases Nat.eq_zero_or_pos n with hn | hn
      · subst hn
        have hi : i = reqCtx.RepeatedTotal := by
          push_cast at hik
          omega
        have hm2 : m2 = interp cb (nextBlock ctx) id responses
            { m with
                cxtMap := Function.update m.cxtMap id
                  (some { reqCtx with BatchCounter := wrapUint64 i,
                                      State := RequestContextState.Running }) } := by
          rw [startLoop_exit interp id 0 _ _ _ _ _ (by simp only []; omega)] at hrun
          simp only [Option.some.injEq, Outcome.returned.injEq, true_and] at hrun
          exact hrun.1.symm
        refine ⟨m, ?_⟩
        rw [hm2, hi]
        rfl
      · obtain ⟨m1, hm1⟩ := hlast hn
        exact ⟨m1, by rw [hm1, Function.iterate_succ_apply]⟩

/-- Claim C22, counterexample: the three-batch context of `keeperThree`, with a callback
that applies `PauseRequestContext` inside the callback of batch 1.
`StartRequestContext` still starts the batches 2 and 3, each found in the store in
state `Running`, and returns with state `Running` and batch counter 3; only a
pause inside the callback of the last batch is still in the store at the end. -/
theorem StartRequestContext_runs_on_after_pause :
    (callsOf (StartRequestContext (fun _ => pauseAt 1) 4 keeperThree ctx0 "mockRequest")).map
        (fun r => r.stored.map (fun c => (c.State, c.BatchCounter)))
      = [some (RequestContextState.Running, 1), some (RequestContextState.Running, 2),
         some (RequestContextState.Running, 3)] ∧
    (StartRequestContext (fun _ => pauseAt 1) 4 keeperThree ctx0 "mockRequest").map
        (Outcome.summary "mockRequest")
      = some (true, 3, some (RequestContextState.Running, 3)) ∧
    (StartRequestContext (fun _ => pauseAt 3) 4 keeperThree ctx0 "mockRequest").map
        (Outcome.summary "mockRequest")
      = some (true, 3, some (RequestContextState.Pause, 3)) := by
  decide

/-- Claim C22, amended: a `PauseRequestContext` applied from inside the callback of
batch `i < RepeatedTotal` does not stop the call.  `StartRequestContext` works on
its own copy of the context: the next batch overwrites the paused state, every
batch up to `RepeatedTotal` is started and found in the store in state `Running`
by its callback, and when the call returns the stored context has state `Running`
and batch counter `RepeatedTotal`.  (Stored context with
`BatchCounter < RepeatedTotal < 2^63 - 1`, fuel above the number of batches.) -/
theorem StartRequestContext_pause_inside_callback (interp : CallbackId → ResponseCallback)
    (m : MockServiceKeeper) (ctx : Context) (id : String) (c : RequestContext)
    (cb : CallbackId) (i : Nat) (hstored : m.cxtMap id = some c)
    (hreg : m.callbackMap c.ModuleName = some cb) (hcb : interp cb = pauseAt i)
    (hi : (i : Int) < c.RepeatedTotal)
    (hlt : (c.BatchCounter : Int) < c.RepeatedTotal) (hmax : c.RepeatedTotal < maxInt64)
    (fuel : Nat) (hfuel : c.RepeatedTotal - c.BatchCounter < fuel) :
    ∃ o : Outcome,
      StartRequestContext interp fuel m ctx id = some o
        ∧ o.returnedNil = true
        ∧ o.calls.length = (c.RepeatedTotal - c.BatchCounter).toNat
        ∧ o.calls.map (fun r => r.stored.map (fun s => (s.State, s.BatchCounter)))
            = (List.range (c.RepeatedTotal - c.BatchCounter).toNat).map
                (fun j => some (RequestContextState.Running, c.BatchCounter + 1 + j))
        ∧ o.keeper.cxtMap id
            = some { c with BatchCounter := c.RepeatedTotal.toNat,
                            State := RequestContextState.Running } := by
  have hmax2 : c.RepeatedTotal < 9223372036854775807 := by
    unfold maxInt64 at hmax; exact hmax
  have hbmax : (c.BatchCounter : Int) < maxInt64 := lt_trans hlt hmax
  have hp : ∀ ctx2 rs m2, (interp cb ctx2 id rs m2).callbackMap = m2.callbackMap := by
    intro ctx2 rs m2
    rw [hcb]
    unfold pauseAt
    split <;> rfl
  obtain ⟨m2, hrun, -, hlast⟩ :=
    startLoop_runs_preserving interp id cb hp (c.RepeatedTotal - c.BatchCounter).toNat
      ((c.BatchCounter : Int) + 1) c ctx m [] hreg (by omega) hmax
      (by unfold minInt64; omega)
  have hrun2 : StartRequestContext interp fuel m ctx id
      = some (Outcome.returned none m2
          ((List.range (c.RepeatedTotal - c.BatchCounter).toNat).map
            (batchRecord cb id c ctx ((c.BatchCounter : Int) + 1)))) := by
    unfold StartRequestContext
    simp only [hstored, Option.getD_some, startCounter_eq _ hbmax]
    have := startLoop_fuel_mono interp id _ fuel (by omega) _ _ _ _ _ _ hrun
    simpa using this
  refine ⟨_, hrun2, rfl, ?_, ?_, ?_⟩
  · simp [Outcome.calls]
  · simp only [Outcome.calls, List.map_map]
    apply List.map_congr_left
    intro j hj
    have hj2 : j < (c.RepeatedTotal - c.BatchCounter).toNat := List.mem_range.mp hj
    simp only [Function.comp, batchRecord, Option.map_some']
    congr 2
    have := wrapUint64_natCast (c.BatchCounter + 1 + j) (by omega)
    have h2 : ((c.BatchCounter : Int) + 1 + (j : Int)) = ((c.BatchCounter + 1 + j : Nat) : Int) := by
      push_cast; ring
    rw [h2, this]
  · obtain ⟨m1, hm1⟩ := hlast (by omega)
    have hw : wrapUint64 c.RepeatedTotal = c.RepeatedTotal.toNat :=
      wrapUint64_of_range _ (by omega) (by omega)
    simp only [Outcome.keeper]
    rw [hm1, hcb, hw]
    unfold pauseAt
    have hne : ¬ (c.RepeatedTotal.toNat = i) := by omega
    simp [hne]

/-- Claim C22, the amended claim at a concrete input: the context of `keeperThree`
with a pause inside the callback of batch 1. -/
theorem StartRequestContext_pause_inside_callback_witness :
    ∃ o : Outcome,
      StartRequestContext (fun _ => pauseAt 1) 4 keeperThree ctx0 "mockRequest" = some o
        ∧ o.returnedNil = true
        ∧ o.calls.length = ((3 : Int) - (0 : Nat)).toNat
        ∧ o.calls.map (fun r => r.stored.map (fun s => (s.State, s.BatchCounter)))
            = (List.range ((3 : Int) - (0 : Nat)).toNat).map
                (fun j => some (RequestContextState.Running, 0 + 1 + j))
        ∧ o.keeper.cxtMap "mockRequest"
            = some { createdContext "price" [[1], [2], [3]] [9] "in" [] 5 true 10 3
                       RequestContextState.Running 2 "oracle" with
                     BatchCounter := (3 : Int).toNat,
                     State := RequestContextState.Running } :=
  StartRequestContext_pause_inside_callback (fun _ => pauseAt 1) keeperThree ctx0
    "mockRequest"
    (createdContext "price" [[1], [2], [3]] [9] "in" [] 5 true 10 3
      RequestContextState.Running 2 "oracle")
    1 1 rfl (by decide) rfl (by decide) (by decide) (by decide) 4 (by decide)

end MockKeeper

namespace Service

/-! ## C23: valid service names -/

/-- An ASCII byte decodes to itself with width 1; any other first byte gives a rune that
is not ASCII, of width 1 at least. -/
theorem decodeRune_spec (b0 : Nat) (rest : List Nat) :
    (b0 < 128 → decodeRune (b0 :: rest) = (b0, 1)) ∧
    (128 ≤ b0 → 128 ≤ (decodeRune (b0 :: rest)).1 ∧ 1 ≤ (decodeRune (b0 :: rest)).2) := by
  constructor
  · intro h
    simp [decodeRune, h]
  · intro h
    have h0 : ¬ b0 < 128 := by omega
    unfold decodeRune
    simp only [h0, if_false]
    repeat' split
    all_goals (refine ⟨?_, ?_⟩ <;> dsimp only [runeError] <;> omega)

/-- A rune or byte that is not ASCII is outside the class. -/
theorem inClass_of_ge (r : Nat) (h : 128 ≤ r) : inClass r = false := by
  have h1 : ¬ r ≤ 122 := by omega
  have h2 : ¬ r ≤ 90 := by omega
  have h3 : ¬ r ≤ 57 := by omega
  have h4 : ¬ r = 95 := by omega
  have h5 : ¬ r = 45 := by omega
  simp [inClass, h1, h2, h3, h4, h5]

/-- Some rune is outside the class exactly when some byte is. -/
theorem runesAux_any (fuel : Nat) :
    ∀ bs : List Nat, bs.length ≤ fuel →
      ((runesAux fuel bs).any (fun r => !inClass r) = true ↔ ∃ b ∈ bs, inClass b = false) := by
  induction fuel with
  | zero =>
    intro bs hlen
    have : bs = [] := List.eq_nil_of_length_eq_zero (by omega)
    subst this
    simp [runesAux]
  | succ n ih =>
    intro bs hlen
    cases bs with
    | nil => simp [runesAux]
    | cons b rest =>
      obtain ⟨hascii, hother⟩ := decodeRune_spec b rest
      simp only [runesAux, List.any_cons, Bool.or_eq_true, Bool.not_eq_true']
      by_cases hb : b < 128
      · have hd := hascii hb
        have hrest : rest.length ≤ n := by simpa using hlen
        rw [hd]
        simp only [List.drop_one, List.tail_cons]
        rw [ih rest hrest]
        simp only [List.mem_cons, exists_eq_or_imp]
      · have hb2 : 128 ≤ b := by omega
        obtain ⟨hr, _⟩ := hother hb2
        constructor
        · intro _
          exact ⟨b, List.mem_cons_self _ _, inClass_of_ge b hb2⟩
        · intro _
          exact Or.inl (inClass_of_ge _ hr)

/-- The pattern matches exactly when some byte is outside the class. -/
theorem regMatch_iff (bs : List Nat) :
    regMatch bs = true ↔ ∃ b ∈ bs, inClass b = false := by
  unfold regMatch runes
  exact runesAux_any bs.length bs (le_refl _)

/-- Membership in the class, spelled out. -/
theorem inClass_iff (b : Nat) :
    inClass b = true ↔
      ((97 ≤ b ∧ b ≤ 122) ∨ (65 ≤ b ∧ b ≤ 90) ∨ (48 ≤ b ∧ b ≤ 57) ∨ b = 95 ∨ b = 45) := by
  simp [inClass, or_assoc]

/-- Claim C23: `validServiceName(name)` is true if and only if the name has between 1
and 128 bytes and every byte is an ASCII letter (`a`-`z` is 97-122, `A`-`Z` is
65-90), an ASCII digit (48-57), `_` (95) or `-` (45).  In particular the empty
name, a name of 129 bytes and a name with a space (32), a dot (46) or a byte that
is not ASCII (128 and above) are rejected. -/
theorem validServiceName_iff :
    (∀ name : List Nat,
      validServiceName name = true ↔
        (1 ≤ name.length ∧ name.length ≤ 128 ∧
          ∀ b ∈ name,
            (97 ≤ b ∧ b ≤ 122) ∨ (65 ≤ b ∧ b ≤ 90) ∨ (48 ≤ b ∧ b ≤ 57) ∨ b = 95 ∨ b = 45)) ∧
    validServiceName [] = false ∧
    (∀ name : List Nat, name.length = 129 → validServiceName name = false) ∧
    (∀ name : List Nat, 32 ∈ name → validServiceName name = false) ∧
    (∀ name : List Nat, 46 ∈ name → validServiceName name = false) ∧
    (∀ (name : List Nat) (b : Nat), b ∈ name → 128 ≤ b → validServiceName name = false) := by
  have hiff : ∀ name : List Nat,
      validServiceName name = true ↔
        (1 ≤ name.length ∧ name.length ≤ 128 ∧
          ∀ b ∈ name,
            (97 ≤ b ∧ b ≤ 122) ∨ (65 ≤ b ∧ b ≤ 90) ∨ (48 ≤ b ∧ b ≤ 57) ∨ b = 95 ∨ b = 45) := by
    intro name
    unfold validServiceName
    by_cases hlen : name.length = 0 ∨ name.length > 128
    · simp only [hlen, if_true]
      constructor
      · intro h; cases h
      · rintro ⟨h1, h2, -⟩; omega
    · simp only [hlen, if_false, Bool.not_eq_true']
      have hm : regMatch name = false ↔ ¬ ∃ b ∈ name, inClass b = false := by
        rw [← regMatch_iff]; simp
      rw [hm]
      constructor
      · intro h
        refine ⟨by omega, by omega, ?_⟩
        intro b hb
        rw [← inClass_iff]
        by_contra hc
        exact h ⟨b, hb, by simpa using hc⟩
      · rintro ⟨-, -, h⟩ ⟨b, hb, hc⟩
        have := (inClass_iff b).mpr (h b hb)
        rw [this] at hc
        cases hc
  have hbad : ∀ (name : List Nat) (b : Nat), b ∈ name → inClass b = false →
      validServiceName name = false := by
    intro name b hb hc
    cases hv : validServiceName name with
    | false => rfl
    | true =>
      have := ((hiff name).mp hv).2.2 b hb
      rw [← inClass_iff, hc] at this
      cases this
  refine ⟨hiff, by decide, ?_, ?_, ?_, ?_⟩
  · intro name h129
    simp [validServiceName, h129]
  · intro name h
    exact hbad name 32 h (by decide)
  · intro name h
    exact hbad name 46 h (by decide)
  · intro name b hb hge
    exact hbad name b hb (inClass_of_ge b hge)

/-! ## C26: an empty provider address -/

/-- Claim C26, at the failing inputs: the five messages with the valid service name `svc`,
non-empty chain identifiers, all other checks passing and an empty provider.
Each `ValidateBasic` returns nil: the invalid-address error is built and dropped.
In general the result of each of the five methods does not depend on the provider
at all. -/
theorem ValidateBasic_accepts_empty_provider :
    MsgSvcBind.ValidateBasic acceptAll
        { DefName := nameSvc, DefChainID := "chain", BindChainID := "chain", Provider := [],
          BindingType := 1, Deposit := [], Prices := [],
          Level := { AvgRspTime := 1, UsableTime := 1 } } = none ∧
    MsgSvcBindingUpdate.ValidateBasic acceptAll
        { DefName := nameSvc, DefChainID := "chain", BindChainID := "chain", Provider := [],
          BindingType := 1, Deposit := [], Prices := [],
          Level := { AvgRspTime := 1, UsableTime := 1 } } = none ∧
    MsgSvcDisable.ValidateBasic
        { DefName := nameSvc, DefChainID := "chain", BindChainID := "chain",
          Provider := [] } = none ∧
    MsgSvcEnable.ValidateBasic acceptAll
        { DefName := nameSvc, DefChainID := "chain", BindChainID := "chain", Provider := [],
          Deposit := [] } = none ∧
    MsgSvcRefundDeposit.ValidateBasic
        { DefName := nameSvc, DefChainID := "chain", BindChainID := "chain",
          Provider := [] } = none ∧
    (∀ (k : Checks) (msg : MsgSvcBind) (p : AccAddress),
      MsgSvcBind.ValidateBasic k { msg with Provider := p }
        = MsgSvcBind.ValidateBasic k msg) ∧
    (∀ (k : Checks) (msg : MsgSvcBindingUpdate) (p : AccAddress),
      MsgSvcBindingUpdate.ValidateBasic k { msg with Provider := p }
        = MsgSvcBindingUpdate.ValidateBasic k msg) ∧
    (∀ (msg : MsgSvcDisable) (p : AccAddress),
      MsgSvcDisable.ValidateBasic { msg with Provider := p }
        = MsgSvcDisable.ValidateBasic msg) ∧
    (∀ (k : Checks) (msg : MsgSvcEnable) (p : AccAddress),
      MsgSvcEnable.ValidateBasic k { msg with Provider := p }
        = MsgSvcEnable.ValidateBasic k msg) ∧
    (∀ (msg : MsgSvcRefundDeposit) (p : AccAddress),
      MsgSvcRefundDeposit.ValidateBasic { msg with Provider := p }
        = MsgSvcRefundDeposit.ValidateBasic msg) := by
  refine ⟨by decide, by decide, by decide, by decide, by decide, ?_, ?_, ?_, ?_, ?_⟩
  · intro k msg p; rfl
  · intro k msg p; rfl
  · intro msg p; rfl
  · intro k msg p; rfl
  · intro msg p; rfl

/-! ## C27: `methodToMethodProperty` and `validateMethods` -/

/-- Claim C27, at the failing input: the method `get` with the attribute
`output_cached = bogus`, which the cached-enum parser rejects.  `validateMethods`
reports the invalid enum; `methodToMethodProperty` returns no error and a property
holding the value the parser gave beside its error.  In general
`methodToMethodProperty` returns an error exactly when `output_privacy` is present
and rejected by its parser: its second test reads the named result `err`, still
nil, instead of `err1`, so the outcome of the cached-enum parser is never looked
at. -/
theorem methodToMethodProperty_ignores_cached_error :
    validateMethods sampleEnums [methodBogusCached]
      = (false, some (SvcError.InvalidOutputCachedEnum "bogus")) ∧
    methodToMethodProperty sampleEnums 7 methodBogusCached
      = ({ ID := 7, Name := "get", Description := "", OutputPrivacy := 1,
           OutputCached := 255 }, none) ∧
    (∀ (e : Enums) (index : Int) (method : Method),
      (methodToMethodProperty e index method).2.isSome = true ↔
        ((method.Attributes outputPrivacy).isSome = true ∧
          (e.OutputPrivacyEnumFromString (method.attr outputPrivacy)).2.isSome = true)) := by
  refine ⟨by decide, by decide, ?_⟩
  intro e index method
  unfold methodToMethodProperty
  by_cases hp : (method.Attributes outputPrivacy).isSome = true
  · by_cases he : (e.OutputPrivacyEnumFromString (method.attr outputPrivacy)).2.isSome = true
    · simp [hp, he]
    · simp [hp, he]
  · simp [hp]

end Service

namespace Asset

/-! ## Arithmetic of the decimals -/

theorem precisionReuse_pos (prec : Nat) : 0 < precisionReuse prec := by
  unfold precisionReuse
  positivity

/-- Chopping an exact multiple of `10^prec` gives the multiplier back. -/
theorem chopNonneg_mul (prec : Nat) (x : Int) :
    chopNonneg prec (x * precisionReuse prec) = x := by
  have hP := precisionReuse_pos prec
  unfold chopNonneg
  simp only [Int.mul_tdiv_cancel x (ne_of_gt hP), Int.mul_tmod_left, if_true]

/-- Rounding an exact multiple of `10^prec` gives the multiplier back. -/
theorem chopPrecisionAndRound_mul (prec : Nat) (x : Int) :
    chopPrecisionAndRound prec (x * precisionReuse prec) = x := by
  unfold chopPrecisionAndRound
  split
  · rw [← Int.neg_mul, chopNonneg_mul, neg_neg]
  · exact chopNonneg_mul prec x

/-- The product of a whole number and a decimal is exact. -/
theorem Mul_NewDecFromInt (prec : Nat) (a : Int) (r : Dec) :
    Dec.Mul prec (NewDecFromInt prec a) r = a * r := by
  unfold Dec.Mul NewDecFromInt
  rw [show a * precisionReuse prec * r = (a * r) * precisionReuse prec by ring]
  exact chopPrecisionAndRound_mul prec (a * r)

/-- A decimal above one truncates to one at least. -/
theorem TruncateInt_ge_one (prec : Nat) (q : Dec) (hgt : q > NewDec prec 1) :
    1 ≤ Dec.TruncateInt prec q := by
  have hP := precisionReuse_pos prec
  have h : precisionReuse prec < q := by
    have h2 := hgt
    unfold NewDec at h2
    rw [one_mul] at h2
    exact h2
  unfold Dec.TruncateInt
  rw [Int.tdiv_eq_ediv (le_trans (le_of_lt hP) (le_of_lt h)) (le_of_lt hP)]
  exact Int.le_ediv_of_mul_le hP (by rw [one_mul]; exact le_of_lt h)

/-- The result of `convertFeeToInt` is a whole number of tokens, one at least. -/
theorem convertFeeToInt_whole (prec : Nat) (fee : Dec) :
    ∃ k : Int, 1 ≤ k ∧ convertFeeToInt prec fee = some (k * 10 ^ 18) := by
  have hP := precisionReuse_pos prec
  have hden : NewDecFromInt prec (NewIntWithDecimal 1 18) ≠ 0 := by
    unfold NewDecFromInt NewIntWithDecimal
    positivity
  unfold convertFeeToInt Dec.Quo
  simp only [hden, if_false]
  split_ifs with hgt
  · exact ⟨_, TruncateInt_ge_one prec _ hgt, by simp only [NewIntWithDecimal, one_mul]⟩
  · exact ⟨1, le_refl 1, by simp [NewIntWithDecimal]⟩

/-- A fee of `k` whole tokens times a ratio of at most one converts to a fee of at most
`k` whole tokens. -/
theorem convertFeeToInt_ratio_le (prec : Nat) (k : Int) (r : Dec) (hk : 1 ≤ k)
    (hr : r ≤ precisionReuse prec) :
    ∃ k2 : Int, 1 ≤ k2 ∧ k2 ≤ k ∧
      convertFeeToInt prec (Dec.Mul prec (NewDecFromInt prec (k * 10 ^ 18)) r)
        = some (k2 * 10 ^ 18) := by
  have hP := precisionReuse_pos prec
  have hden : NewDecFromInt prec (NewIntWithDecimal 1 18) ≠ 0 := by
    unfold NewDecFromInt NewIntWithDecimal
    positivity
  have hq : (k * 10 ^ 18 * r * precisionReuse prec * precisionReuse prec).tdiv
      (NewDecFromInt prec (NewIntWithDecimal 1 18)) = (k * r) * precisionReuse prec := by
    rw [show k * 10 ^ 18 * r * precisionReuse prec * precisionReuse prec
        = (k * r * precisionReuse prec) * NewDecFromInt prec (NewIntWithDecimal 1 18) by
      unfold NewDecFromInt NewIntWithDecimal; ring]
    exact Int.mul_tdiv_cancel _ hden
  rw [Mul_NewDecFromInt]
  unfold convertFeeToInt Dec.Quo
  simp only [hden, if_false, hq, chopPrecisionAndRound_mul]
  split_ifs with hgt
  · have hgt2 : precisionReuse prec < k * r := by
      have h := hgt
      unfold NewDec at h
      rw [one_mul] at h
      exact h
    have hnn : 0 ≤ k * r := le_trans (le_of_lt hP) (le_of_lt hgt2)
    refine ⟨Dec.TruncateInt prec (k * r), TruncateInt_ge_one prec _ hgt, ?_,
      by simp only [NewIntWithDecimal, one_mul]⟩
    unfold Dec.TruncateInt
    rw [Int.tdiv_eq_ediv hnn (le_of_lt hP)]
    exact Int.ediv_le_of_le_mul hP
      (mul_le_mul_of_nonneg_left hr (le_trans zero_le_one hk))
  · exact ⟨1, le_refl 1, hk, by simp [NewIntWithDecimal]⟩

/-! ## C24: `convertFeeToInt` -/

/-- A fee of `c` tenths of a token, above one token, converts to `c / 10` whole tokens,
the tenths cut off (precision of one decimal at least). -/
theorem convertFeeToInt_tenths (n : Nat) (c : Int) (hc : 10 < c) :
    convertFeeToInt (n + 1) (NewDecFromInt (n + 1) (c * 10 ^ 17))
      = some (c / 10 * 10 ^ 18) := by
  have hQ := precisionReuse_pos n
  have hP := precisionReuse_pos (n + 1)
  have hPQ : precisionReuse (n + 1) = precisionReuse n * 10 := by
    unfold precisionReuse
    exact pow_succ 10 n
  have hden : NewDecFromInt (n + 1) (NewIntWithDecimal 1 18) ≠ 0 := by
    unfold NewDecFromInt NewIntWithDecimal
    positivity
  have hq : (NewDecFromInt (n + 1) (c * 10 ^ 17) * precisionReuse (n + 1)
        * precisionReuse (n + 1)).tdiv (NewDecFromInt (n + 1) (NewIntWithDecimal 1 18))
      = (c * precisionReuse n) * precisionReuse (n + 1) := by
    rw [show NewDecFromInt (n + 1) (c * 10 ^ 17) * precisionReuse (n + 1)
          * precisionReuse (n + 1)
        = (c * precisionReuse n * precisionReuse (n + 1))
            * NewDecFromInt (n + 1) (NewIntWithDecimal 1 18) by
      unfold NewDecFromInt NewIntWithDecimal; rw [hPQ]; ring]
    exact Int.mul_tdiv_cancel _ hden
  have hgt : c * precisionReuse n > NewDec (n + 1) 1 := by
    unfold NewDec
    rw [hPQ, one_mul, mul_comm (precisionReuse n) 10]
    exact mul_lt_mul_of_pos_right hc hQ
  unfold convertFeeToInt Dec.Quo
  simp only [hden, if_false, hq, chopPrecisionAndRound_mul, hgt, if_true]
  have ht : Dec.TruncateInt (n + 1) (c * precisionReuse n) = c / 10 := by
    unfold Dec.TruncateInt
    rw [Int.tdiv_eq_ediv (by positivity) (le_of_lt hP), hPQ,
      mul_comm (precisionReuse n) 10]
    exact Int.mul_ediv_mul_of_pos_left c 10 hQ
  rw [ht]
  simp [NewIntWithDecimal]

/-- Claim C24, at the failing input, the example of the claim: a fee of
`1.6 * 10^18`, that is 1.6 native tokens.  Whatever the precision of the
decimals, `convertFeeToInt` gives `1 * 10^18`, not `2 * 10^18`: the function
truncates (`TruncateInt`) where its comment says that it rounds. -/
theorem convertFeeToInt_truncates (prec : Nat) :
    convertFeeToInt prec (NewDecFromInt prec (16 * 10 ^ 17)) = some (1 * 10 ^ 18) ∧
    convertFeeToInt prec (NewDecFromInt prec (16 * 10 ^ 17)) ≠ some (2 * 10 ^ 18) := by
  have h : convertFeeToInt prec (NewDecFromInt prec (16 * 10 ^ 17)) = some (1 * 10 ^ 18) := by
    cases prec with
    | zero => decide
    | succ n =>
      rw [convertFeeToInt_tenths n 16 (by decide)]
      norm_num
  refine ⟨h, ?_⟩
  rw [h]
  norm_num

/-! ## C25: the ratios of the parameters -/

/-- Claim C25: each of `validateAssetTaxRate`, `validateMintFTBaseFeeRatio` and
`validateGatewayAssetFeeRatio` returns nil if and only if its argument `v` is
between 0 and 1, both included (as a decimal of precision `prec`:
`0 ≤ v ≤ 10^prec`); and `Params.Validate` under the keys `TokenTaxRate`,
`MintFTFeeRatio` and `GatewayAssetFeeRatio` returns the parsed decimal exactly when
the string parses as a decimal of that interval, and an error otherwise. -/
theorem ratio_validation (env : Env) :
    (∀ v : Dec, validateAssetTaxRate env.prec v = none ↔
      (0 ≤ v ∧ v ≤ precisionReuse env.prec)) ∧
    (∀ v : Dec, validateMintFTBaseFeeRatio env.prec v = none ↔
      (0 ≤ v ∧ v ≤ precisionReuse env.prec)) ∧
    (∀ v : Dec, validateGatewayAssetFeeRatio env.prec v = none ↔
      (0 ≤ v ∧ v ≤ precisionReuse env.prec)) ∧
    (∀ (key value : String),
      (key = "TokenTaxRate" ∨ key = "MintFTFeeRatio" ∨ key = "GatewayAssetFeeRatio") →
      (∀ d : Dec, Validate env key value = Except.ok (ParamValue.dec d) ↔
        (env.NewDecFromStr value = some d ∧ 0 ≤ d ∧ d ≤ precisionReuse env.prec)) ∧
      ((¬ ∃ d : Dec, env.NewDecFromStr value = some d ∧ 0 ≤ d ∧ d ≤ precisionReuse env.prec) →
        ∃ err : ParamError, Validate env key value = Except.error err)) := by
  have hone : NewDecWithPrec env.prec 1 0 = precisionReuse env.prec := by
    simp [NewDecWithPrec, precisionReuse]
  have hzero : NewDecWithPrec env.prec 0 0 = 0 := by
    simp [NewDecWithPrec]
  have hchk : ∀ P v : Int, (¬ (v > P ∨ v < 0)) ↔ (0 ≤ v ∧ v ≤ P) := by
    intro P v; omega
  have h1 : ∀ v : Dec, validateAssetTaxRate env.prec v = none ↔
      (0 ≤ v ∧ v ≤ precisionReuse env.prec) := by
    intro v
    unfold validateAssetTaxRate
    rw [hone, hzero]
    by_cases hc : v > precisionReuse env.prec ∨ v < 0
    · simp only [hc, if_true]
      constructor
      · intro h; cases h
      · intro hin; exact absurd hc ((hchk _ v).mpr hin)
    · simp only [hc, if_false, true_iff]
      exact (hchk _ v).mp hc
  have h2 : ∀ v : Dec, validateMintFTBaseFeeRatio env.prec v = none ↔
      (0 ≤ v ∧ v ≤ precisionReuse env.prec) := by
    intro v
    unfold validateMintFTBaseFeeRatio
    rw [hone, hzero]
    by_cases hc : v > precisionReuse env.prec ∨ v < 0
    · simp only [hc, if_true]
      constructor
      · intro h; cases h
      · intro hin; exact absurd hc ((hchk _ v).mpr hin)
    · simp only [hc, if_false, true_iff]
      exact (hchk _ v).mp hc
  have h3 : ∀ v : Dec, validateGatewayAssetFeeRatio env.prec v = none ↔
      (0 ≤ v ∧ v ≤ precisionReuse env.prec) := by
    intro v
    unfold validateGatewayAssetFeeRatio
    rw [hone, hzero]
    by_cases hc : v > precisionReuse env.prec ∨ v < 0
    · simp only [hc, if_true]
      constructor
      · intro h; cases h
      · intro hin; exact absurd hc ((hchk _ v).mpr hin)
    · simp only [hc, if_false, true_iff]
      exact (hchk _ v).mp hc
  refine ⟨h1, h2, h3, ?_⟩
  intro key value hkey
  rcases hkey with rfl | rfl | rfl
  · cases hp : env.NewDecFromStr value with
    | none => simp [Validate, hp]
    | some rate =>
      cases hv : validateAssetTaxRate env.prec rate with
      | none =>
        have hin := (h1 rate).mp hv
        simp [Validate, hp, hv, hin]
      | some err =>
        have hout : ¬ (0 ≤ rate ∧ rate ≤ precisionReuse env.prec) := by
          intro hin
          rw [(h1 rate).mpr hin] at hv
          cases hv
        simp only [Validate, hp, hv, if_true]
        constructor
        · intro d
          constructor
          · intro h; cases h
          · rintro ⟨hd, hin⟩
            simp only [Option.some.injEq] at hd
            subst hd
            exact absurd hin hout
        · intro _
          exact ⟨err, rfl⟩
  · cases hp : env.NewDecFromStr value with
    | none => simp [Validate, hp]
    | some rate =>
      cases hv : validateMintFTBaseFeeRatio env.prec rate with
      | none =>
        have hin := (h2 rate).mp hv
        simp [Validate, hp, hv, hin]
      | some err =>
        have hout : ¬ (0 ≤ rate ∧ rate ≤ precisionReuse env.prec) := by
          intro hin
          rw [(h2 rate).mpr hin] at hv
          cases hv
        simp only [Validate, hp, hv, if_true]
        constructor
        · intro d
          constructor
          · intro h; simp at h
          · rintro ⟨hd, hin⟩
            simp only [Option.some.injEq] at hd
            subst hd
            exact absurd hin hout
        · intro _
          exact ⟨err, by simp⟩
  · cases hp : env.NewDecFromStr value with
    | none => simp [Validate, hp]
    | some rate =>
      cases hv : validateGatewayAssetFeeRatio env.prec rate with
      | none =>
        have hin := (h3 rate).mp hv
        simp [Validate, hp, hv, hin]
      | some err =>
        have hout : ¬ (0 ≤ rate ∧ rate ≤ precisionReuse env.prec) := by
          intro hin
          rw [(h3 rate).mpr hin] at hv
          cases hv
        simp only [Validate, hp, hv, if_true]
        constructor
        · intro d
          constructor
          · intro h; simp at h
          · rintro ⟨hd, hin⟩
            simp only [Option.some.injEq] at hd
            subst hd
            exact absurd hin hout
        · intro _
          exact ⟨err, by simp⟩

/-! ## C28: the fee factor of a name of one byte -/

/-- Claim C28, at the failing input: a name of one byte.  `math.Log(1)` is 0, so the
factor string is `0.00` and the fee factor is the zero decimal; `calcFeeFactor`
returns it (its only guard is against the empty name) and `calcFeeByBase` panics
on the division by it, whatever the base fee. -/
theorem calcFeeByBase_panics_on_one_byte (env : Env) (name : List Nat) (baseFee : Int)
    (hlen : name.length = 1) (hstr : env.feeFactorStr 1 = "0.00")
    (hparse : env.NewDecFromStr "0.00" = some 0) :
    calcFeeFactor env name = some 0 ∧ calcFeeByBase env name baseFee = none := by
  have hf : calcFeeFactor env name = some 0 := by
    simp [calcFeeFactor, hlen, hstr, hparse]
  refine ⟨hf, ?_⟩
  simp [calcFeeByBase, hf, Dec.Quo]

/-- Claim C28, at a concrete input: the name `a` in the sample environment, with the
default base fee for issuing a token. -/
theorem calcFeeByBase_panics_on_one_byte_witness :
    calcFeeFactor sampleEnv [97] = some 0 ∧
    calcFeeByBase sampleEnv [97] (NewIntWithDecimal 300000 18) = none :=
  calcFeeByBase_panics_on_one_byte sampleEnv [97] (NewIntWithDecimal 300000 18) rfl rfl rfl

/-! ## C29: the split of a fee -/

/-- Claim C29: for every fee amount `f ≥ 0` and tax rate `r` between 0 and 1 (the
decimal `r / 10^prec` with `0 ≤ r ≤ 10^prec`), `feeHandler` sends the community
tax `tax = ⌊f * r / 10^prec⌋`, the product truncated, and burns `burned = f - tax`,
both in the denomination of the fee; both amounts are between 0 and `f` and
`tax + burned = f` exactly. -/
theorem feeHandler_split {σ ε : Type} (bk : BankKeeper σ ε) (prec : Nat) (params : Params)
    (communityTaxAddr : List Nat) (st : σ) (feeAcc : List Nat) (fee : Coin)
    (hf : 0 ≤ fee.Amount) (hr0 : 0 ≤ params.TokenTaxRate)
    (hr1 : params.TokenTaxRate ≤ precisionReuse prec) :
    ∃ tax burned : Int,
      tax = fee.Amount * params.TokenTaxRate / precisionReuse prec ∧
      burned = fee.Amount - tax ∧
      0 ≤ tax ∧ tax ≤ fee.Amount ∧ 0 ≤ burned ∧ burned ≤ fee.Amount ∧
      tax + burned = fee.Amount ∧
      feeHandler bk prec params communityTaxAddr st feeAcc fee
        = Except.bind
            (bk.SendCoins st feeAcc communityTaxAddr [{ Denom := fee.Denom, Amount := tax }])
            (fun st1 => bk.BurnCoins st1 feeAcc [{ Denom := fee.Denom, Amount := burned }]) := by
  have hP := precisionReuse_pos prec
  have hnn : 0 ≤ fee.Amount * params.TokenTaxRate := mul_nonneg hf hr0
  have htax0 : 0 ≤ fee.Amount * params.TokenTaxRate / precisionReuse prec :=
    Int.ediv_nonneg hnn (le_of_lt hP)
  have htax1 : fee.Amount * params.TokenTaxRate / precisionReuse prec ≤ fee.Amount :=
    Int.ediv_le_of_le_mul hP (mul_le_mul_of_nonneg_left hr1 hf)
  have htrunc : Dec.TruncateInt prec
      (Dec.Mul prec (NewDecFromInt prec fee.Amount) params.TokenTaxRate)
      = fee.Amount * params.TokenTaxRate / precisionReuse prec := by
    rw [Mul_NewDecFromInt]
    unfold Dec.TruncateInt
    exact Int.tdiv_eq_ediv hnn (le_of_lt hP)
  refine ⟨fee.Amount * params.TokenTaxRate / precisionReuse prec,
    fee.Amount - fee.Amount * params.TokenTaxRate / precisionReuse prec,
    rfl, rfl, htax0, htax1, by omega, by omega, by omega, ?_⟩
  unfold feeHandler
  simp only [htrunc, NewCoin, Coin.Minus, if_true]
  cases bk.SendCoins st feeAcc communityTaxAddr
      [{ Denom := fee.Denom,
         Amount := fee.Amount * params.TokenTaxRate / precisionReuse prec }] with
  | error err => rfl
  | ok st1 =>
    simp only [Except.bind]
    cases bk.BurnCoins st1 feeAcc
        [{ Denom := fee.Denom,
           Amount := fee.Amount - fee.Amount * params.TokenTaxRate / precisionReuse prec }] with
    | error err => rfl
    | ok st2 => rfl

/-- Claim C29, at a concrete input: a fee of 1001 `iris-atto` under the default tax rate
0.4, on the recording bank: 400 are sent as tax and 601 burned. -/
theorem feeHandler_split_witness :
    ∃ tax burned : Int,
      tax = (1001 : Int) * (DefaultParams 10).TokenTaxRate / precisionReuse 10 ∧
      burned = 1001 - tax ∧
      0 ≤ tax ∧ tax ≤ 1001 ∧ 0 ≤ burned ∧ burned ≤ 1001 ∧
      tax + burned = 1001 ∧
      feeHandler ledgerBank 10 (DefaultParams 10) [0] [] [1]
          { Denom := "iris-atto", Amount := 1001 }
        = Except.bind
            (ledgerBank.SendCoins [] [1] [0] [{ Denom := "iris-atto", Amount := tax }])
            (fun st1 => ledgerBank.BurnCoins st1 [1] [{ Denom := "iris-atto", Amount := burned }]) :=
  feeHandler_split ledgerBank 10 (DefaultParams 10) [0] [] [1]
    { Denom := "iris-atto", Amount := 1001 } (by decide) (by decide) (by decide)

/-! ## C30: the order of the fees -/

/-- A token issue fee that has been computed is a whole number of tokens, one at least. -/
theorem getTokenIssueFee_whole (env : Env) (params : Params) (symbol : List Nat)
    (issueFee : Coin) (h : getTokenIssueFee env params symbol = some issueFee) :
    ∃ k : Int, 1 ≤ k ∧ issueFee = NewCoin NativeTokenMinDenom (k * 10 ^ 18) := by
  unfold getTokenIssueFee at h
  cases hc : calcFeeByBase env symbol params.IssueFTBaseFee.Amount with
  | none => simp [hc] at h
  | some fee =>
    obtain ⟨k, hk, hconv⟩ := convertFeeToInt_whole env.prec fee
    simp only [hc, Option.some_bind, hconv, Option.map_some', Option.some.injEq] at h
    exact ⟨k, hk, h.symm⟩

/-- Claim C30: for every symbol and every parameter set whose mint fee ratio and gateway
asset fee ratio lie between 0 and 1 (`0 ≤ ratio ≤ 10^prec` as decimals), whenever
the token issue fee is computed, and it is computed for every symbol that is not
empty and whose fee factor is not zero, the three other fees are computed too; the
token mint fee is at most the token issue fee, the gateway token issue and mint
fees are at most the token issue and mint fees, and each of the four fees is a
whole multiple `k * 10^18` with `k ≥ 1`. -/
theorem fees_whole_and_ordered (env : Env) (params : Params) (symbol : List Nat)
    (hmint : 0 ≤ params.MintFTFeeRatio ∧ params.MintFTFeeRatio ≤ precisionReuse env.prec)
    (hgw : 0 ≤ params.GatewayAssetFeeRatio
      ∧ params.GatewayAssetFeeRatio ≤ precisionReuse env.prec) :
    (∀ factor : Dec, symbol.length ≠ 0 →
      env.NewDecFromStr (env.feeFactorStr symbol.length) = some factor → factor ≠ 0 →
      ∃ issueFee : Coin, getTokenIssueFee env params symbol = some issueFee) ∧
    (∀ issueFee : Coin, getTokenIssueFee env params symbol = some issueFee →
      ∃ mintFee gatewayIssueFee gatewayMintFee : Coin,
        getTokenMintFee env params symbol = some mintFee ∧
        getGatewayTokenIssueFee env params symbol = some gatewayIssueFee ∧
        getGatewayTokenMintFee env params symbol = some gatewayMintFee ∧
        mintFee.Amount ≤ issueFee.Amount ∧
        gatewayIssueFee.Amount ≤ issueFee.Amount ∧
        gatewayMintFee.Amount ≤ mintFee.Amount ∧
        ∀ fee ∈ [issueFee, mintFee, gatewayIssueFee, gatewayMintFee],
          ∃ k : Int, 1 ≤ k ∧ fee.Amount = k * 10 ^ 18) := by
  constructor
  · intro factor hlen hparse hnz
    obtain ⟨k, -, hconv⟩ := convertFeeToInt_whole env.prec
      (chopPrecisionAndRound env.prec
        ((NewDecFromInt env.prec params.IssueFTBaseFee.Amount * precisionReuse env.prec
          * precisionReuse env.prec).tdiv factor))
    refine ⟨NewCoin NativeTokenMinDenom (k * 10 ^ 18), ?_⟩
    simp [getTokenIssueFee, calcFeeByBase, calcFeeFactor, hlen, hparse, Dec.Quo, hnz, hconv]
  · intro issueFee hissue
    obtain ⟨k, hk, hk2⟩ := getTokenIssueFee_whole env params symbol issueFee hissue
    obtain ⟨km, hkm1, hkm2, hmintc⟩ :=
      convertFeeToInt_ratio_le env.prec k params.MintFTFeeRatio hk hmint.2
    obtain ⟨kg, hkg1, hkg2, hgic⟩ :=
      convertFeeToInt_ratio_le env.prec k params.GatewayAssetFeeRatio hk hgw.2
    obtain ⟨kgm, hkgm1, hkgm2, hgmc⟩ :=
      convertFeeToInt_ratio_le env.prec km params.GatewayAssetFeeRatio hkm1 hgw.2
    have hmintfee : getTokenMintFee env params symbol
        = some (NewCoin NativeTokenMinDenom (km * 10 ^ 18)) := by
      unfold getTokenMintFee
      rw [hissue]
      simp only [Option.some_bind, hk2, NewCoin, hmintc, Option.map_some']
    have hgifee : getGatewayTokenIssueFee env params symbol
        = some (NewCoin NativeTokenMinDenom (kg * 10 ^ 18)) := by
      unfold getGatewayTokenIssueFee
      rw [hissue]
      simp only [Option.some_bind, hk2, NewCoin, hgic, Option.map_some']
    have hgmfee : getGatewayTokenMintFee env params symbol
        = some (NewCoin NativeTokenMinDenom (kgm * 10 ^ 18)) := by
      unfold getGatewayTokenMintFee
      rw [hmintfee]
      simp only [Option.some_bind, NewCoin, hgmc, Option.map_some']
    have hpow : (0 : Int) ≤ 10 ^ 18 := by positivity
    refine ⟨_, _, _, hmintfee, hgifee, hgmfee, ?_, ?_, ?_, ?_⟩
    · rw [hk2]
      exact mul_le_mul_of_nonneg_right hkm2 hpow
    · rw [hk2]
      exact mul_le_mul_of_nonneg_right hkg2 hpow
    · exact mul_le_mul_of_nonneg_right hkgm2 hpow
    · intro fee hfee
      simp only [List.mem_cons, List.mem_singleton, List.not_mem_nil, or_false] at hfee
      rcases hfee with rfl | rfl | rfl | rfl
      · exact ⟨k, hk, by rw [hk2]; rfl⟩
      · exact ⟨km, hkm1, rfl⟩
      · exact ⟨kg, hkg1, rfl⟩
      · exact ⟨kgm, hkgm1, rfl⟩

/-- Claim C30, at a concrete input: the symbol `abc` under the default parameters of
precision 10, in the sample environment. -/
theorem fees_whole_and_ordered_witness :
    (∀ factor : Dec, ([97, 98, 99] : List Nat).length ≠ 0 →
      sampleEnv.NewDecFromStr (sampleEnv.feeFactorStr ([97, 98, 99] : List Nat).length)
        = some factor → factor ≠ 0 →
      ∃ issueFee : Coin,
        getTokenIssueFee sampleEnv (DefaultParams 10) [97, 98, 99] = some issueFee) ∧
    (∀ issueFee : Coin,
      getTokenIssueFee sampleEnv (DefaultParams 10) [97, 98, 99] = some issueFee →
      ∃ mintFee gatewayIssueFee gatewayMintFee : Coin,
        getTokenMintFee sampleEnv (DefaultParams 10) [97, 98, 99] = some mintFee ∧
        getGatewayTokenIssueFee sampleEnv (DefaultParams 10) [97, 98, 99]
          = some gatewayIssueFee ∧
        getGatewayTokenMintFee sampleEnv (DefaultParams 10) [97, 98, 99]
          = some gatewayMintFee ∧
        mintFee.Amount ≤ issueFee.Amount ∧
        gatewayIssueFee.Amount ≤ issueFee.Amount ∧
        gatewayMintFee.Amount ≤ mintFee.Amount ∧
        ∀ fee ∈ [issueFee, mintFee, gatewayIssueFee, gatewayMintFee],
          ∃ k : Int, 1 ≤ k ∧ fee.Amount = k * 10 ^ 18) :=
  fees_whole_and_ordered sampleEnv (DefaultParams 10) [97, 98, 99] (by decide) (by decide)

/-- The four fees of the symbol `abc` under the default parameters, in whole tokens:
300000 to issue, 30000 to mint, 30000 and 3000 for a gateway token. -/
theorem fees_of_abc :
    getTokenIssueFee sampleEnv (DefaultParams 10) [97, 98, 99]
      = some (NewCoin NativeTokenMinDenom (300000 * 10 ^ 18)) ∧
    getTokenMintFee sampleEnv (DefaultParams 10) [97, 98, 99]
      = some (NewCoin NativeTokenMinDenom (30000 * 10 ^ 18)) ∧
    getGatewayTokenIssueFee sampleEnv (DefaultParams 10) [97, 98, 99]
      = some (NewCoin NativeTokenMinDenom (30000 * 10 ^ 18)) ∧
    getGatewayTokenMintFee sampleEnv (DefaultParams 10) [97, 98, 99]
      = some (NewCoin NativeTokenMinDenom (3000 * 10 ^ 18)) := by
  decide

end Asset

namespace Gov

/-! ## The dispatcher of the governance querier -/

/-- On a path with a first element the querier is the switch on that element, called
with the rest of the path. -/
theorem NewQuerier_cons {κ χ ρ ε : Type} (e : Endpoints κ χ ρ ε) (keeper : κ) (ctx : χ)
    (p : String) (rest : List String) (req : ρ) :
    NewQuerier e keeper ctx (p :: rest) req =
      if p = QueryProposals then e.queryProposals ctx rest req keeper
      else if p = QueryProposal then e.queryProposal ctx rest req keeper
      else if p = QueryDeposits then e.queryDeposits ctx rest req keeper
      else if p = QueryDeposit then e.queryDeposit ctx rest req keeper
      else if p = QueryVotes then e.queryVotes ctx rest req keeper
      else if p = QueryVote then e.queryVote ctx rest req keeper
      else if p = QueryTally then e.queryTally ctx rest req keeper
      else Outcome.returned none (some (e.ErrUnknownRequest "unknown gov query endpoint")) :=
  rfl

/-- On the empty path the index `path[0]` is out of range. -/
theorem NewQuerier_nil {κ χ ρ ε : Type} (e : Endpoints κ χ ρ ε) (keeper : κ) (ctx : χ)
    (req : ρ) :
    NewQuerier e keeper ctx [] req
      = Outcome.panicked (RuntimeError.indexOutOfRange 0 0) :=
  rfl

/-- Runs of the querier over the echo endpoints: each endpoint is reached with the
rest of the path, an unknown first element is an error, the empty path a panic. -/
theorem NewQuerier_runs :
    NewQuerier echoEndpoints () () ["proposals"] () = Outcome.returned (some [1, 0]) none ∧
    NewQuerier echoEndpoints () () ["proposal", "7"] () = Outcome.returned (some [2, 1]) none ∧
    NewQuerier echoEndpoints () () ["deposits", "a", "b"] ()
      = Outcome.returned (some [3, 2]) none ∧
    NewQuerier echoEndpoints () () ["deposit"] () = Outcome.returned (some [4, 0]) none ∧
    NewQuerier echoEndpoints () () ["votes"] () = Outcome.returned (some [5, 0]) none ∧
    NewQuerier echoEndpoints () () ["vote"] () = Outcome.returned (some [6, 0]) none ∧
    NewQuerier echoEndpoints () () ["tally"] () = Outcome.returned (some [7, 0]) none ∧
    NewQuerier echoEndpoints () () ["params"] ()
      = Outcome.returned none (some "unknown gov query endpoint") ∧
    NewQuerier echoEndpoints () () [""] ()
      = Outcome.returned none (some "unknown gov query endpoint") ∧
    NewQuerier echoEndpoints () () [] ()
      = Outcome.panicked (RuntimeError.indexOutOfRange 0 0) := by
  decide

/-- When no query function panics with an index out of range, the querier does so
exactly on the empty path. -/
theorem NewQuerier_indexOutOfRange_iff {κ χ ρ ε : Type} (e : Endpoints κ χ ρ ε)
    (keeper : κ) (ctx : χ) (path : List String) (req : ρ)
    (hq : ∀ f ∈ [e.queryProposals, e.queryProposal, e.queryDeposits, e.queryDeposit,
        e.queryVotes, e.queryVote, e.queryTally],
      ∀ c q r k i n, f c q r k ≠ Outcome.panicked (RuntimeError.indexOutOfRange i n)) :
    (∃ i n, NewQuerier e keeper ctx path req
        = Outcome.panicked (RuntimeError.indexOutOfRange i n)) ↔ path = [] := by
  constructor
  · rintro ⟨i, n, h⟩
    cases path with
    | nil => rfl
    | cons p rest =>
      exfalso
      rw [NewQuerier_cons] at h
      simp only [List.mem_cons, List.mem_singleton, forall_eq_or_imp, forall_eq,
        List.not_mem_nil, false_imp_iff, implies_true, and_true] at hq
      obtain ⟨h1, h2, h3, h4, h5, h6, h7⟩ := hq
      split_ifs at h
      · exact h1 _ _ _ _ _ _ h
      · exact h2 _ _ _ _ _ _ h
      · exact h3 _ _ _ _ _ _ h
      · exact h4 _ _ _ _ _ _ h
      · exact h5 _ _ _ _ _ _ h
      · exact h6 _ _ _ _ _ _ h
      · exact h7 _ _ _ _ _ _ h
  · rintro rfl
    exact ⟨0, 0, rfl⟩

/-- Claim C31 (not as stated): the querier of `NewQuerier` is not total on its path
argument. On the empty path the switch evaluates `path[0]` on a slice of length 0 and
the call panics with an index out of range, whatever the endpoints, the keeper, the
context and the request are. On every path with a first element `p` it does what the
claim says: it calls the query function of the endpoint named `p` with the remaining
elements, and returns the error `unknown gov query endpoint` when `p` is none of the
seven names. -/
theorem NewQuerier_panics_on_empty_path {κ χ ρ ε : Type} (e : Endpoints κ χ ρ ε)
    (keeper : κ) (ctx : χ) (req : ρ) :
    NewQuerier e keeper ctx [] req
        = Outcome.panicked (RuntimeError.indexOutOfRange 0 0) ∧
      ∀ (p : String) (rest : List String),
        (p = "proposals" →
          NewQuerier e keeper ctx (p :: rest) req = e.queryProposals ctx rest req keeper) ∧
        (p = "proposal" →
          NewQuerier e keeper ctx (p :: rest) req = e.queryProposal ctx rest req keeper) ∧
        (p = "deposits" →
          NewQuerier e keeper ctx (p :: rest) req = e.queryDeposits ctx rest req keeper) ∧
        (p = "deposit" →
          NewQuerier e keeper ctx (p :: rest) req = e.queryDeposit ctx rest req keeper) ∧
        (p = "votes" →
          NewQuerier e keeper ctx (p :: rest) req = e.queryVotes ctx rest req keeper) ∧
        (p = "vote" →
          NewQuerier e keeper ctx (p :: rest) req = e.queryVote ctx rest req keeper) ∧
        (p = "tally" →
          NewQuerier e keeper ctx (p :: rest) req = e.queryTally ctx rest req keeper) ∧
        (p ∉ ["proposals", "proposal", "deposits", "deposit", "votes", "vote", "tally"] →
          NewQuerier e keeper ctx (p :: rest) req
            = Outcome.returned none
                (some (e.ErrUnknownRequest "unknown gov query endpoint"))) := by
  refine ⟨rfl, fun p rest => ⟨?_, ?_, ?_, ?_, ?_, ?_, ?_, ?_⟩⟩
  · rintro rfl
    rw [NewQuerier_cons]
    simp [QueryProposals]
  · rintro rfl
    rw [NewQuerier_cons]
    simp [QueryProposals, QueryProposal]
  · rintro rfl
    rw [NewQuerier_cons]
    simp [QueryProposals, QueryProposal, QueryDeposits]
  · rintro rfl
    rw [NewQuerier_cons]
    simp [QueryProposals, QueryProposal, QueryDeposits, QueryDeposit]
  · rintro rfl
    rw [NewQuerier_cons]
    simp [QueryProposals, QueryProposal, QueryDeposits, QueryDeposit, QueryVotes]
  · rintro rfl
    rw [NewQuerier_cons]
    simp [QueryProposals, QueryProposal, QueryDeposits, QueryDeposit, QueryVotes, QueryVote]
  · rintro rfl
    rw [NewQuerier_cons]
    simp [QueryProposals, QueryProposal, QueryDeposits, QueryDeposit, QueryVotes, QueryVote,
      QueryTally]
  · intro hp
    simp only [List.mem_cons, List.mem_singleton, List.not_mem_nil, or_false, not_or] at hp
    obtain ⟨h1, h2, h3, h4, h5, h6, h7⟩ := hp
    rw [NewQuerier_cons]
    simp [QueryProposals, QueryProposal, QueryDeposits, QueryDeposit, QueryVotes, QueryVote,
      QueryTally, h1, h2, h3, h4, h5, h6, h7]

end Gov
